import Mathlib

/-!
# BMP280 driver (components/BMP280/BMP280.c): shallow embedding

Machine integers are mathematical integers with an explicit two's-complement
wrap after every operation that the C code performs in a fixed width.
Right shifts of signed values are arithmetic (floor division by a power of
two), left shifts multiply and wrap.  The `float` results of the two
compensation functions are represented by the integer that the C code
converts to `float` (the conversion and the float divisions are not modelled).
-/

namespace BMP280

/-! ## Fixed-width integers -/

/-- Value of an integer after conversion to `int16_t` -/
def toInt16 (x : Int) : Int := (x + 2^15) % 2^16 - 2^15

/-- Value of an integer after conversion to `uint16_t` -/
def toUInt16 (x : Int) : Int := x % 2^16

/-- Value of an integer after conversion to `int32_t` -/
def toInt32 (x : Int) : Int := (x + 2^31) % 2^32 - 2^31

/-- Value of an integer after conversion to `int64_t` -/
def toInt64 (x : Int) : Int := (x + 2^63) % 2^64 - 2^63

/-- The 32-bit pattern of an `int` operand, as a natural number -/
def bits32 (x : Int) : Nat := (x % 2^32).toNat

/-- Bitwise OR of two `int` operands (on their two's-complement patterns) -/
def or32 (a b : Int) : Int := toInt32 (Int.ofNat (bits32 a ||| bits32 b))

/-- Left shift of an `int` operand -/
def shl32 (a : Int) (n : Nat) : Int := toInt32 (a * 2^n)

/-- Arithmetic right shift of a signed operand (any width) -/
def sar (a : Int) (n : Nat) : Int := a >>> n

def add32 (a b : Int) : Int := toInt32 (a + b)
def sub32 (a b : Int) : Int := toInt32 (a - b)
def mul32 (a b : Int) : Int := toInt32 (a * b)

def add64 (a b : Int) : Int := toInt64 (a + b)
def sub64 (a b : Int) : Int := toInt64 (a - b)
def mul64 (a b : Int) : Int := toInt64 (a * b)
def shl64 (a : Int) (n : Nat) : Int := toInt64 (a * 2^n)

/-- Signed 64-bit division, truncating toward zero; `none` is a division by
zero (undefined behaviour in C, a trap on the target) -/
def sdiv64 (a b : Int) : Option Int :=
  if b = 0 then none else some (toInt64 (Int.tdiv a b))

/-! ## Data model (BMP280.h) -/

/-- Calibration data structure: `dig_T1` and `dig_P1` are `uint16_t`, the
other ten fields are `int16_t` -/
structure bmp280_calib_data_t where
  dig_T1 : Int
  dig_T2 : Int
  dig_T3 : Int
  dig_P1 : Int
  dig_P2 : Int
  dig_P3 : Int
  dig_P4 : Int
  dig_P5 : Int
  dig_P6 : Int
  dig_P7 : Int
  dig_P8 : Int
  dig_P9 : Int
  deriving DecidableEq, Repr

/-- BMP280 device structure; `i2c_mutex = none` is the `NULL` handle -/
structure bmp280_dev_t where
  i2c_port : Int
  i2c_addr : Nat
  calib : bmp280_calib_data_t
  t_fine : Int
  i2c_mutex : Option Nat
  deriving DecidableEq, Repr

/-! ## Compensation formulas -/

/-- Source `bmp280_compensate_temperature`: returns the integer
`(t_fine * 5 + 128) >> 8` that the C code stores in `float T` and divides by
`100.0f`, together with the handle after the store to `t_fine` -/
def bmp280_compensate_temperature (dev : bmp280_dev_t) (adc_T : Int) :
    Int × bmp280_dev_t :=
  let var1 := sar (mul32 (sub32 (sar adc_T 3) (shl32 dev.calib.dig_T1 1))
                dev.calib.dig_T2) 11
  let var2 := sar (mul32 (sar (mul32 (sub32 (sar adc_T 4) dev.calib.dig_T1)
                                     (sub32 (sar adc_T 4) dev.calib.dig_T1)) 12)
                dev.calib.dig_T3) 14
  let dev1 := { dev with t_fine := add32 var1 var2 }
  let T := sar (add32 (mul32 dev1.t_fine 5) 128) 8
  (T, dev1)

/-- Source `bmp280_compensate_pressure`: returns the integer `p` that the C
code converts with `(float)p / 256.0f / 100.0f`; the early `return 0` of the
guard is the integer `0` (the same float); `none` is a division by zero -/
def bmp280_compensate_pressure (dev : bmp280_dev_t) (adc_P : Int) : Option Int :=
  let var1 := sub64 dev.t_fine 128000
  let var2 := mul64 (mul64 var1 var1) dev.calib.dig_P6
  let var2 := add64 var2 (shl64 (mul64 var1 dev.calib.dig_P5) 17)
  let var2 := add64 var2 (shl64 dev.calib.dig_P4 35)
  let var1 := add64 (sar (mul64 (mul64 var1 var1) dev.calib.dig_P3) 8)
                    (shl64 (mul64 var1 dev.calib.dig_P2) 12)
  let var1 := sar (mul64 (add64 (shl64 1 47) var1) dev.calib.dig_P1) 33
  if var1 = 0 then
    some 0
  else
    let p := sub32 1048576 adc_P
    match sdiv64 (mul64 (sub64 (shl64 p 31) var2) 3125) var1 with
    | none => none
    | some p =>
      let var1 := sar (mul64 (mul64 dev.calib.dig_P9 (sar p 13)) (sar p 13)) 25
      let var2 := sar (mul64 dev.calib.dig_P8 p) 19
      let p := add64 (sar (add64 (add64 p var1) var2) 8) (shl64 dev.calib.dig_P7 4)
      some p

/-- Datasheet reference calibration -/
def refCalib : bmp280_calib_data_t :=
  { dig_T1 := 27504, dig_T2 := 26435, dig_T3 := -1000,
    dig_P1 := 36477, dig_P2 := -10685, dig_P3 := 3024, dig_P4 := 2855,
    dig_P5 := 140, dig_P6 := -7, dig_P7 := 15500, dig_P8 := -14600,
    dig_P9 := 6000 }

/-- A handle holding the reference calibration -/
def refDev : bmp280_dev_t :=
  { i2c_port := 0, i2c_addr := 0x76, calib := refCalib, t_fine := 0,
    i2c_mutex := none }

/-! ## Environment: FreeRTOS mutex, I2C master driver, task delay

The calls the driver makes into ESP-IDF and FreeRTOS are modelled by a world
that passes explicit state: every call is appended to a trace, the status of
the k-th bus transaction and the result of the k-th `xSemaphoreTake` are
given by the environment.  `ESP_LOGx` calls have no effect and are omitted. -/

/-- ESP-IDF `esp_err.h` status codes used by the driver -/
def ESP_OK : Int := 0
def ESP_FAIL : Int := -1
def ESP_ERR_INVALID_ARG : Int := 0x102
def ESP_ERR_NOT_FOUND : Int := 0x105
def ESP_ERR_TIMEOUT : Int := 0x107

def BMP280_REG_PRESS_MSB : Nat := 0xF7
def BMP280_REG_CONFIG : Nat := 0xF5
def BMP280_REG_CTRL_MEAS : Nat := 0xF4
def BMP280_REG_RESET : Nat := 0xE0
def BMP280_REG_ID : Nat := 0xD0
def BMP280_REG_CALIB_START : Nat := 0x88
def BMP280_CHIP_ID : Nat := 0x58
def BMP280_RESET_CMD : Nat := 0xB6
def BMP280_OVERSAMP_16X : Nat := 0x05
def BMP280_NORMAL_MODE : Nat := 0x03
def BMP280_STANDBY_500_MS : Nat := 0x04
def BMP280_FILTER_COEFF_16 : Nat := 0x04
def BMP280_I2C_TIMEOUT_MS : Nat := 1000

/-- One call into the environment -/
inductive Event where
  | take (mutex : Nat) (wait_ms : Nat) (ok : Bool)
  | give (mutex : Nat)
  | write (port : Int) (addr : Nat) (buf : List Nat) (timeout_ms : Nat)
  | writeRead (port : Int) (addr : Nat) (reg : Nat) (len : Nat) (timeout_ms : Nat)
  | delay (ms : Nat)
  deriving DecidableEq, Repr

/-- What the bus answers to one transaction: the status the I2C call
returns and, for a read, the bytes it delivers -/
structure I2cReply where
  status : Int
  data : Nat → Nat

/-- State of the environment -/
structure World where
  /-- result of the k-th `xSemaphoreTake` (`true` is `pdTRUE`) -/
  takeResult : Nat → Bool
  /-- answer of the bus to the k-th transaction -/
  i2c : Nat → I2cReply
  /-- number of `xSemaphoreTake` calls made so far -/
  takes : Nat
  /-- number of bus transactions made so far -/
  txns : Nat
  /-- which mutexes the calling task holds -/
  held : Nat → Bool
  /-- every call made so far, oldest first -/
  trace : List Event

/-- FreeRTOS `xSemaphoreTake(mutex, pdMS_TO_TICKS(wait_ms))` -/
def xSemaphoreTake (mutex : Nat) (wait_ms : Nat) (w : World) : Bool × World :=
  let ok := w.takeResult w.takes
  (ok, { w with takes := w.takes + 1
                held := if ok then Function.update w.held mutex true else w.held
                trace := w.trace ++ [Event.take mutex wait_ms ok] })

/-- FreeRTOS `xSemaphoreGive(mutex)` -/
def xSemaphoreGive (mutex : Nat) (w : World) : World :=
  { w with held := Function.update w.held mutex false
           trace := w.trace ++ [Event.give mutex] }

/-- FreeRTOS `vTaskDelay(pdMS_TO_TICKS(ms))` -/
def vTaskDelay (ms : Nat) (w : World) : World :=
  { w with trace := w.trace ++ [Event.delay ms] }

/-- ESP-IDF `i2c_master_write_to_device` -/
def i2c_master_write_to_device (port : Int) (addr : Nat) (buf : List Nat)
    (timeout_ms : Nat) (w : World) : Int × World :=
  ((w.i2c w.txns).status,
   { w with txns := w.txns + 1
            trace := w.trace ++ [Event.write port addr buf timeout_ms] })

/-- Result of a register read: status, the `uint8_t` buffer, the world -/
structure RegRead where
  ret : Int
  data : Nat → Nat
  world : World

/-- ESP-IDF `i2c_master_write_read_device` with a one-byte write part; the
read buffer is an array of `uint8_t` -/
def i2c_master_write_read_device (port : Int) (addr : Nat) (reg : Nat)
    (len : Nat) (timeout_ms : Nat) (w : World) : RegRead :=
  { ret := (w.i2c w.txns).status
    data := fun i => (w.i2c w.txns).data i % 256
    world := { w with txns := w.txns + 1
                      trace := w.trace ++ [Event.writeRead port addr reg len timeout_ms] } }

/-! ## Register transport -/

/-- Source `bmp280_write_reg_internal` (mutex must be held by caller) -/
def bmp280_write_reg_internal (dev : bmp280_dev_t) (reg_addr : Nat) (data : Nat)
    (w : World) : Int × World :=
  i2c_master_write_to_device dev.i2c_port dev.i2c_addr [reg_addr, data]
    BMP280_I2C_TIMEOUT_MS w

/-- Source `bmp280_write_reg` (with mutex) -/
def bmp280_write_reg (dev : bmp280_dev_t) (reg_addr : Nat) (data : Nat)
    (w : World) : Int × World :=
  match dev.i2c_mutex with
  | none => bmp280_write_reg_internal dev reg_addr data w
  | some m =>
    let t := xSemaphoreTake m 200 w
    if t.1 then
      let r := bmp280_write_reg_internal dev reg_addr data t.2
      (r.1, xSemaphoreGive m r.2)
    else
      (ESP_ERR_TIMEOUT, t.2)

/-- Source `bmp280_read_reg_internal` (mutex must be held by caller) -/
def bmp280_read_reg_internal (dev : bmp280_dev_t) (reg_addr : Nat) (len : Nat)
    (w : World) : RegRead :=
  i2c_master_write_read_device dev.i2c_port dev.i2c_addr reg_addr len
    BMP280_I2C_TIMEOUT_MS w

/-- Source `bmp280_read_reg` (with mutex); when the take fails the buffer is
not touched (modelled as all zero, it is never read by the callers) -/
def bmp280_read_reg (dev : bmp280_dev_t) (reg_addr : Nat) (len : Nat)
    (w : World) : RegRead :=
  match dev.i2c_mutex with
  | none => bmp280_read_reg_internal dev reg_addr len w
  | some m =>
    let t := xSemaphoreTake m 200 w
    if t.1 then
      let r := bmp280_read_reg_internal dev reg_addr len t.2
      { r with world := xSemaphoreGive m r.world }
    else
      { ret := ESP_ERR_TIMEOUT, data := fun _ => 0, world := t.2 }

/-! ## Calibration store -/

/-- Source `bmp280_read_calib_data`: each field is the C expression
`(T)(calib_data[hi] << 8) | calib_data[lo]` converted to the field type `T` -/
def bmp280_read_calib_data (dev : bmp280_dev_t) (w : World) :
    Int × bmp280_dev_t × World :=
  let r := bmp280_read_reg dev BMP280_REG_CALIB_START 24 w
  if r.ret ≠ ESP_OK then
    (r.ret, dev, r.world)
  else
    let calib_data := r.data
    let dev := { dev with calib := {
      dig_T1 := toUInt16 (or32 (toUInt16 (shl32 (calib_data 1) 8)) (calib_data 0))
      dig_T2 := toInt16 (or32 (toInt16 (shl32 (calib_data 3) 8)) (calib_data 2))
      dig_T3 := toInt16 (or32 (toInt16 (shl32 (calib_data 5) 8)) (calib_data 4))
      dig_P1 := toUInt16 (or32 (toUInt16 (shl32 (calib_data 7) 8)) (calib_data 6))
      dig_P2 := toInt16 (or32 (toInt16 (shl32 (calib_data 9) 8)) (calib_data 8))
      dig_P3 := toInt16 (or32 (toInt16 (shl32 (calib_data 11) 8)) (calib_data 10))
      dig_P4 := toInt16 (or32 (toInt16 (shl32 (calib_data 13) 8)) (calib_data 12))
      dig_P5 := toInt16 (or32 (toInt16 (shl32 (calib_data 15) 8)) (calib_data 14))
      dig_P6 := toInt16 (or32 (toInt16 (shl32 (calib_data 17) 8)) (calib_data 16))
      dig_P7 := toInt16 (or32 (toInt16 (shl32 (calib_data 19) 8)) (calib_data 18))
      dig_P8 := toInt16 (or32 (toInt16 (shl32 (calib_data 21) 8)) (calib_data 20))
      dig_P9 := toInt16 (or32 (toInt16 (shl32 (calib_data 23) 8)) (calib_data 22)) } }
    (ESP_OK, dev, r.world)

/-! ## Device lifecycle -/

/-- Source `bmp280_init`, from the declaration of `ret` down to the `cleanup`
label: result is the value of `ret` on reaching the label -/
def bmp280_init_sequence (dev : bmp280_dev_t) (w : World) :
    Int × bmp280_dev_t × World :=
  -- Read and verify chip ID
  let r := bmp280_read_reg_internal dev BMP280_REG_ID 1 w
  if r.ret ≠ ESP_OK then
    (r.ret, dev, r.world)
  else
    let chip_id := r.data 0
    if chip_id ≠ BMP280_CHIP_ID then
      (ESP_ERR_NOT_FOUND, dev, r.world)
    else
      -- Soft reset
      let r := bmp280_write_reg_internal dev BMP280_REG_RESET BMP280_RESET_CMD r.world
      if r.1 ≠ ESP_OK then
        (r.1, dev, r.2)
      else
        -- Wait for reset to complete
        let w := vTaskDelay 50 r.2
        -- Read calibration data
        let r := bmp280_read_reg_internal dev BMP280_REG_CALIB_START 24 w
        if r.ret ≠ ESP_OK then
          (r.ret, dev, r.world)
        else
          let calib_data := r.data
          let dev := { dev with calib := {
            dig_T1 := toUInt16 (or32 (toUInt16 (shl32 (calib_data 1) 8)) (calib_data 0))
            dig_T2 := toInt16 (or32 (toInt16 (shl32 (calib_data 3) 8)) (calib_data 2))
            dig_T3 := toInt16 (or32 (toInt16 (shl32 (calib_data 5) 8)) (calib_data 4))
            dig_P1 := toUInt16 (or32 (toUInt16 (shl32 (calib_data 7) 8)) (calib_data 6))
            dig_P2 := toInt16 (or32 (toInt16 (shl32 (calib_data 9) 8)) (calib_data 8))
            dig_P3 := toInt16 (or32 (toInt16 (shl32 (calib_data 11) 8)) (calib_data 10))
            dig_P4 := toInt16 (or32 (toInt16 (shl32 (calib_data 13) 8)) (calib_data 12))
            dig_P5 := toInt16 (or32 (toInt16 (shl32 (calib_data 15) 8)) (calib_data 14))
            dig_P6 := toInt16 (or32 (toInt16 (shl32 (calib_data 17) 8)) (calib_data 16))
            dig_P7 := toInt16 (or32 (toInt16 (shl32 (calib_data 19) 8)) (calib_data 18))
            dig_P8 := toInt16 (or32 (toInt16 (shl32 (calib_data 21) 8)) (calib_data 20))
            dig_P9 := toInt16 (or32 (toInt16 (shl32 (calib_data 23) 8)) (calib_data 22)) } }
          -- Configure config register (t_sb, filter, spi3w_en=0)
          let config_val := (or32 (shl32 BMP280_STANDBY_500_MS 5)
                                  (shl32 BMP280_FILTER_COEFF_16 2) % 256).toNat
          let r := bmp280_write_reg_internal dev BMP280_REG_CONFIG config_val r.world
          if r.1 ≠ ESP_OK then
            (r.1, dev, r.2)
          else
            -- Configure ctrl_meas register (osrs_t, osrs_p, mode)
            let ctrl_meas_val := (or32 (or32 (shl32 BMP280_OVERSAMP_16X 5)
                                             (shl32 BMP280_OVERSAMP_16X 2))
                                       BMP280_NORMAL_MODE % 256).toNat
            let r := bmp280_write_reg_internal dev BMP280_REG_CTRL_MEAS ctrl_meas_val r.2
            if r.1 ≠ ESP_OK then
              (r.1, dev, r.2)
            else
              (r.1, dev, r.2)

/-- Source `bmp280_init`, from the `cleanup` label to the return -/
def bmp280_init_cleanup (mutex_taken : Bool) (s : Int × bmp280_dev_t × World) :
    Int × bmp280_dev_t × World :=
  match s.2.1.i2c_mutex with
  | some m =>
    if mutex_taken then (s.1, s.2.1, xSemaphoreGive m s.2.2) else s
  | none => s

/-- Source `bmp280_init`; `dev = none` is the `NULL` handle.  Returns the
status, the handle after the call and the world after the call -/
def bmp280_init (dev : Option bmp280_dev_t) (i2c_port : Int) (i2c_addr : Nat)
    (i2c_mutex : Option Nat) (w : World) : Int × Option bmp280_dev_t × World :=
  match dev with
  | none => (ESP_ERR_INVALID_ARG, none, w)
  | some dev =>
    let dev := { dev with i2c_port := i2c_port, i2c_addr := i2c_addr,
                          i2c_mutex := i2c_mutex, t_fine := 0 }
    -- Take mutex for entire initialization sequence
    match dev.i2c_mutex with
    | some m =>
      let t := xSemaphoreTake m 500 w
      if t.1 then
        let s := bmp280_init_cleanup true (bmp280_init_sequence dev t.2)
        (s.1, some s.2.1, s.2.2)
      else
        (ESP_ERR_TIMEOUT, some dev, t.2)
    | none =>
      let s := bmp280_init_cleanup false (bmp280_init_sequence dev w)
      (s.1, some s.2.1, s.2.2)

/-- Source `bmp280_config`; the five arguments are `uint8_t` -/
def bmp280_config (dev : Option bmp280_dev_t) (osrs_t osrs_p mode t_sb filter : Nat)
    (w : World) : Int × World :=
  match dev with
  | none => (ESP_ERR_INVALID_ARG, w)
  | some dev =>
    let config_val := (or32 (shl32 t_sb 5) (shl32 filter 2) % 256).toNat
    let r := bmp280_write_reg dev BMP280_REG_CONFIG config_val w
    if r.1 ≠ ESP_OK then
      r
    else
      let ctrl_meas_val := (or32 (or32 (shl32 osrs_t 5) (shl32 osrs_p 2)) mode % 256).toNat
      let r := bmp280_write_reg dev BMP280_REG_CTRL_MEAS ctrl_meas_val r.2
      if r.1 ≠ ESP_OK then
        r
      else
        (ESP_OK, r.2)

/-! ## Measurement pipeline -/

/-- Result of `bmp280_read_raw`: status, the values stored through the two
output pointers (`none`: nothing was stored), the world -/
structure RawResult where
  ret : Int
  raw_temp : Option Int
  raw_press : Option Int
  world : World

/-- Source `bmp280_read_raw`; `raw_temp` and `raw_press` tell whether the
output pointer is non-`NULL` -/
def bmp280_read_raw (dev : Option bmp280_dev_t) (raw_temp raw_press : Bool)
    (w : World) : RawResult :=
  match dev with
  | none => { ret := ESP_ERR_INVALID_ARG, raw_temp := none, raw_press := none, world := w }
  | some dev =>
    if raw_temp = false ∨ raw_press = false then
      { ret := ESP_ERR_INVALID_ARG, raw_temp := none, raw_press := none, world := w }
    else
      let r := bmp280_read_reg dev BMP280_REG_PRESS_MSB 6 w
      if r.ret ≠ ESP_OK then
        { ret := r.ret, raw_temp := none, raw_press := none, world := r.world }
      else
        let data := r.data
        -- Combine pressure bytes (20-bit)
        let press := toInt32 (or32 (or32 (shl32 (data 0) 12) (shl32 (data 1) 4))
                                   (sar (data 2) 4))
        -- Combine temperature bytes (20-bit)
        let temp := toInt32 (or32 (or32 (shl32 (data 3) 12) (shl32 (data 4) 4))
                                  (sar (data 5) 4))
        { ret := ESP_OK, raw_temp := some temp, raw_press := some press, world := r.world }

/-- Result of a measurement call: status, the values stored through
`temperature` and `pressure` (`none`: nothing was stored; a stored temperature
`T` stands for the float `T / 100.0f`, a stored pressure is the result of
`bmp280_compensate_pressure`), the handle and the world after the call -/
structure MeasResult where
  ret : Int
  temperature : Option Int
  pressure : Option (Option Int)
  dev : Option bmp280_dev_t
  world : World

/-- Source `bmp280_read_temperature`.  The locals `raw_temp`, `raw_press`
are read only after `bmp280_read_raw` returned `ESP_OK`, which has then
written both (`getD` never takes its default) -/
def bmp280_read_temperature (dev : Option bmp280_dev_t) (temperature : Bool)
    (w : World) : MeasResult :=
  match dev with
  | none => { ret := ESP_ERR_INVALID_ARG, temperature := none, pressure := none,
              dev := none, world := w }
  | some d =>
    if temperature = false then
      { ret := ESP_ERR_INVALID_ARG, temperature := none, pressure := none,
        dev := some d, world := w }
    else
      let r := bmp280_read_raw (some d) true true w
      if r.ret ≠ ESP_OK then
        { ret := r.ret, temperature := none, pressure := none, dev := some d,
          world := r.world }
      else
        let raw_temp := r.raw_temp.getD 0
        let t := bmp280_compensate_temperature d raw_temp
        { ret := ESP_OK, temperature := some t.1, pressure := none,
          dev := some t.2, world := r.world }

/-- Source `bmp280_read_pressure` -/
def bmp280_read_pressure (dev : Option bmp280_dev_t) (pressure : Bool)
    (w : World) : MeasResult :=
  match dev with
  | none => { ret := ESP_ERR_INVALID_ARG, temperature := none, pressure := none,
              dev := none, world := w }
  | some d =>
    if pressure = false then
      { ret := ESP_ERR_INVALID_ARG, temperature := none, pressure := none,
        dev := some d, world := w }
    else
      let r := bmp280_read_raw (some d) true true w
      if r.ret ≠ ESP_OK then
        { ret := r.ret, temperature := none, pressure := none, dev := some d,
          world := r.world }
      else
        let raw_temp := r.raw_temp.getD 0
        let raw_press := r.raw_press.getD 0
        -- Must read temperature first to calculate t_fine
        let t := bmp280_compensate_temperature d raw_temp
        let p := bmp280_compensate_pressure t.2 raw_press
        { ret := ESP_OK, temperature := none, pressure := some p,
          dev := some t.2, world := r.world }

/-- Source `bmp280_read_data` -/
def bmp280_read_data (dev : Option bmp280_dev_t) (temperature pressure : Bool)
    (w : World) : MeasResult :=
  match dev with
  | none => { ret := ESP_ERR_INVALID_ARG, temperature := none, pressure := none,
              dev := none, world := w }
  | some d =>
    if temperature = false ∨ pressure = false then
      { ret := ESP_ERR_INVALID_ARG, temperature := none, pressure := none,
        dev := some d, world := w }
    else
      let r := bmp280_read_raw (some d) true true w
      if r.ret ≠ ESP_OK then
        { ret := r.ret, temperature := none, pressure := none, dev := some d,
          world := r.world }
      else
        let raw_temp := r.raw_temp.getD 0
        let raw_press := r.raw_press.getD 0
        let t := bmp280_compensate_temperature d raw_temp
        let p := bmp280_compensate_pressure t.2 raw_press
        { ret := ESP_OK, temperature := some t.1, pressure := some p,
          dev := some t.2, world := r.world }

/-! ## Sample environments -/

/-- A bus that answers every transaction with `status` and the bytes `data` -/
def constBus (status : Int) (data : Nat → Nat) : Nat → I2cReply :=
  fun _ => { status := status, data := data }

/-- A fresh world: nothing called yet, no mutex held -/
def World.start (takeResult : Nat → Bool) (i2c : Nat → I2cReply) : World :=
  { takeResult := takeResult, i2c := i2c, takes := 0, txns := 0,
    held := fun _ => false, trace := [] }

/-- Burst bytes encoding the reference pair `adc_P = 415148`, `adc_T = 519888` -/
def refBurst : Nat → Nat := fun i => [0x65, 0x5A, 0xC0, 0x7E, 0xED, 0x00].getD i 0

/-! ## Overflow conditions -/

/-- Representable as `int32_t` -/
def InInt32 (x : Int) : Prop := -2^31 ≤ x ∧ x < 2^31

instance (x : Int) : Decidable (InInt32 x) := by
  unfold InInt32; exact inferInstance

/-- Representable as `int64_t` -/
def InInt64 (x : Int) : Prop := -2^63 ≤ x ∧ x < 2^63

instance (x : Int) : Decidable (InInt64 x) := by
  unfold InInt64; exact inferInstance

/-- No 32-bit intermediate of the temperature compensation overflows: the
exact value of every operation result of `bmp280_compensate_temperature` is
representable as `int32_t` -/
def TempNoOverflow (c : bmp280_calib_data_t) (adc_T : Int) : Prop :=
  let a := Int.fdiv adc_T (2^3) - c.dig_T1 * 2
  let b := Int.fdiv adc_T (2^4) - c.dig_T1
  let t := Int.fdiv (a * c.dig_T2) (2^11) +
           Int.fdiv (Int.fdiv (b * b) (2^12) * c.dig_T3) (2^14)
  InInt32 (c.dig_T1 * 2) ∧ InInt32 a ∧ InInt32 (a * c.dig_T2) ∧
  InInt32 b ∧ InInt32 (b * b) ∧ InInt32 (Int.fdiv (b * b) (2^12) * c.dig_T3) ∧
  InInt32 t ∧ InInt32 (t * 5) ∧ InInt32 (t * 5 + 128)

instance (c : bmp280_calib_data_t) (adc_T : Int) : Decidable (TempNoOverflow c adc_T) := by
  unfold TempNoOverflow; exact inferInstance

/-- The carry value as the specification words it: floor divisions by powers
of two of exact integer products -/
def tFineFormula (c : bmp280_calib_data_t) (adc_T : Int) : Int :=
  Int.fdiv ((Int.fdiv adc_T 8 - 2 * c.dig_T1) * c.dig_T2) (2^11) +
  Int.fdiv (Int.fdiv ((Int.fdiv adc_T 16 - c.dig_T1)^2) (2^12) * c.dig_T3) (2^14)

/-- The centi-degree integer as the specification words it -/
def centiCelsiusFormula (t_fine : Int) : Int := Int.fdiv (t_fine * 5 + 128) (2^8)

/-! ### Pressure formula in the specification's words -/

/-- Step 1: `v = t_fine - 128000` -/
def pressV (t_fine : Int) : Int := t_fine - 128000

/-- Step 2: `A = v*v*dig_P6 + (v*dig_P5)*2^17 + dig_P4*2^35` -/
def pressA (c : bmp280_calib_data_t) (t_fine : Int) : Int :=
  pressV t_fine * pressV t_fine * c.dig_P6 + (pressV t_fine * c.dig_P5) * 2^17 +
    c.dig_P4 * 2^35

/-- Step 3: `B = floor(v*v*dig_P3 / 2^8) + (v*dig_P2)*2^12` -/
def pressB (c : bmp280_calib_data_t) (t_fine : Int) : Int :=
  Int.fdiv (pressV t_fine * pressV t_fine * c.dig_P3) (2^8) +
    (pressV t_fine * c.dig_P2) * 2^12

/-- Step 4: `D = floor((2^47 + B)*dig_P1 / 2^33)`, the guard value -/
def pressD (c : bmp280_calib_data_t) (t_fine : Int) : Int :=
  Int.fdiv ((2^47 + pressB c t_fine) * c.dig_P1) (2^33)

/-- Step 6: `q = ((2^20 - adc_P)*2^31 - A) * 3125 / D`, truncated toward zero -/
def pressQ (c : bmp280_calib_data_t) (t_fine adc_P : Int) : Int :=
  Int.tdiv (((2^20 - adc_P) * 2^31 - pressA c t_fine) * 3125) (pressD c t_fine)

/-- Step 7: `E = floor(dig_P9 * floor(q/2^13)^2 / 2^25)` -/
def pressE (c : bmp280_calib_data_t) (t_fine adc_P : Int) : Int :=
  Int.fdiv (c.dig_P9 * (Int.fdiv (pressQ c t_fine adc_P) (2^13))^2) (2^25)

/-- Step 7: `F = floor(dig_P8*q / 2^19)` -/
def pressF (c : bmp280_calib_data_t) (t_fine adc_P : Int) : Int :=
  Int.fdiv (c.dig_P8 * pressQ c t_fine adc_P) (2^19)

/-- Step 8: `p = floor((q + E + F) / 2^8) + dig_P7*16` -/
def pressureFormula (c : bmp280_calib_data_t) (t_fine adc_P : Int) : Int :=
  Int.fdiv (pressQ c t_fine adc_P + pressE c t_fine adc_P + pressF c t_fine adc_P) (2^8) +
    c.dig_P7 * 16

/-- No 64-bit intermediate overflows: the exact value of every 64-bit
operation result of `bmp280_compensate_pressure` (source lines 295 to 312, in
order) is representable as `int64_t` -/
def PressNoOverflow64 (c : bmp280_calib_data_t) (t_fine adc_P : Int) : Prop :=
  let v := pressV t_fine
  let q := pressQ c t_fine adc_P
  InInt64 v ∧
  InInt64 (v * v) ∧ InInt64 (v * v * c.dig_P6) ∧
  InInt64 (v * c.dig_P5) ∧ InInt64 (v * c.dig_P5 * 2^17) ∧
  InInt64 (v * v * c.dig_P6 + v * c.dig_P5 * 2^17) ∧
  InInt64 (c.dig_P4 * 2^35) ∧ InInt64 (pressA c t_fine) ∧
  InInt64 (v * v * c.dig_P3) ∧ InInt64 (v * c.dig_P2) ∧
  InInt64 (v * c.dig_P2 * 2^12) ∧ InInt64 (pressB c t_fine) ∧
  InInt64 (2^47 + pressB c t_fine) ∧ InInt64 ((2^47 + pressB c t_fine) * c.dig_P1) ∧
  InInt64 ((2^20 - adc_P) * 2^31) ∧
  InInt64 ((2^20 - adc_P) * 2^31 - pressA c t_fine) ∧
  InInt64 (((2^20 - adc_P) * 2^31 - pressA c t_fine) * 3125) ∧
  InInt64 q ∧
  InInt64 (c.dig_P9 * Int.fdiv q (2^13)) ∧
  InInt64 (c.dig_P9 * Int.fdiv q (2^13) * Int.fdiv q (2^13)) ∧
  InInt64 (c.dig_P8 * q) ∧
  InInt64 (q + pressE c t_fine adc_P) ∧
  InInt64 (q + pressE c t_fine adc_P + pressF c t_fine adc_P) ∧
  InInt64 (c.dig_P7 * 2^4) ∧
  InInt64 (pressureFormula c t_fine adc_P)

instance (c : bmp280_calib_data_t) (t_fine adc_P : Int) :
    Decidable (PressNoOverflow64 c t_fine adc_P) := by
  unfold PressNoOverflow64; exact inferInstance

/-- Exact results of the 64-bit operations that a run of
`bmp280_compensate_pressure` performs, in source order: each operation is
applied without wrap to the operand values the run has at that point.  The
subtraction `1048576 - adc_P` is the 32-bit operation of the source and is
not in the list -/
def pressRunResults64 (dev : bmp280_dev_t) (adc_P : Int) : List Int :=
  let c := dev.calib
  let v := sub64 dev.t_fine 128000
  let vv := mul64 v v
  let a1 := mul64 vv c.dig_P6
  let b1 := mul64 v c.dig_P5
  let b2 := shl64 b1 17
  let a2 := add64 a1 b2
  let c1 := shl64 c.dig_P4 35
  let A := add64 a2 c1
  let d1 := mul64 vv c.dig_P3
  let e1 := mul64 v c.dig_P2
  let e2 := shl64 e1 12
  let B := add64 (sar d1 8) e2
  let f0 := shl64 1 47
  let f1 := add64 f0 B
  let f2 := mul64 f1 c.dig_P1
  let D := sar f2 33
  let g := sub32 1048576 adc_P
  let g1 := shl64 g 31
  let g2 := sub64 g1 A
  let g3 := mul64 g2 3125
  let q := toInt64 (Int.tdiv g3 D)
  let h1 := mul64 c.dig_P9 (sar q 13)
  let h2 := mul64 h1 (sar q 13)
  let i1 := mul64 c.dig_P8 q
  let j1 := add64 q (sar h2 25)
  let j2 := add64 j1 (sar i1 19)
  let k1 := shl64 c.dig_P7 4
  [dev.t_fine - 128000, v * v, vv * c.dig_P6, v * c.dig_P5, b1 * 2^17, a1 + b2,
   c.dig_P4 * 2^35, a2 + c1, vv * c.dig_P3, v * c.dig_P2, e1 * 2^12, sar d1 8 + e2,
   1 * 2^47, f0 + B, f1 * c.dig_P1] ++
  (if D = 0 then []
   else [g * 2^31, g1 - A, g2 * 3125, Int.tdiv g3 D, c.dig_P9 * sar q 13,
         h1 * sar q 13, c.dig_P8 * q, q + sar h2 25, j1 + sar i1 19,
         c.dig_P7 * 2^4, sar j2 8 + k1])

/-- No 64-bit operation of the run overflows -/
def PressRunNoOverflow64 (dev : bmp280_dev_t) (adc_P : Int) : Prop :=
  ∀ x ∈ pressRunResults64 dev adc_P, InInt64 x

instance (dev : bmp280_dev_t) (adc_P : Int) : Decidable (PressRunNoOverflow64 dev adc_P) := by
  unfold PressRunNoOverflow64; exact inferInstance

/-- A handle with the given calibration and carry value -/
def devOf (c : bmp280_calib_data_t) (t_fine : Int) : bmp280_dev_t :=
  { i2c_port := 0, i2c_addr := 0x76, calib := c, t_fine := t_fine, i2c_mutex := none }

/-! ### Byte layouts in the specification's words -/

/-- A 20-bit raw value from its MSB, LSB and XLSB bytes: bits 19..12, bits
11..4 and, from the top nibble of XLSB, bits 3..0 -/
def raw20 (msb lsb xlsb : Nat) : Int := ((msb * 4096 + lsb * 16 + xlsb / 16 : Nat) : Int)

/-- The bytes that the next bus transaction of the world delivers -/
def nextBytes (w : World) : Nat → Nat := fun i => (w.i2c w.txns).data i % 256

/-- Little-endian 16-bit word `k` of a byte block: `b[2k] + 256*b[2k+1]` -/
def leWord (b : Nat → Nat) (k : Nat) : Nat := b (2 * k) + 256 * b (2 * k + 1)

/-- A 16-bit word taken as two's-complement signed -/
def wordSigned (w : Nat) : Int := if w ≥ 32768 then (w : Int) - 65536 else (w : Int)

/-- The twelve coefficients of a 24-byte block as the specification words
them: word `k` unsigned for `dig_T1` and `dig_P1`, signed for the others -/
def calibFromBlock (b : Nat → Nat) : bmp280_calib_data_t :=
  { dig_T1 := (leWord b 0 : Nat)
    dig_T2 := wordSigned (leWord b 1)
    dig_T3 := wordSigned (leWord b 2)
    dig_P1 := (leWord b 3 : Nat)
    dig_P2 := wordSigned (leWord b 4)
    dig_P3 := wordSigned (leWord b 5)
    dig_P4 := wordSigned (leWord b 6)
    dig_P5 := wordSigned (leWord b 7)
    dig_P6 := wordSigned (leWord b 8)
    dig_P7 := wordSigned (leWord b 9)
    dig_P8 := wordSigned (leWord b 10)
    dig_P9 := wordSigned (leWord b 11) }

/-- A bus that answers the identity read with `0x58`, delivers `block` on
every read and reports `ESP_OK` for every transaction -/
def goodBus (block : Nat → Nat) : Nat → I2cReply :=
  fun k => { status := 0, data := if k = 0 then fun _ => 0x58 else block }

/-- The 24 calibration bytes of the datasheet reference calibration -/
def refBlock : Nat → Nat := fun i =>
  [0x70, 0x6B, 0x43, 0x67, 0x18, 0xFC, 0x7D, 0x8E, 0x43, 0xD6, 0xD0, 0x0B,
   0x27, 0x0B, 0x8C, 0x00, 0xF9, 0xFF, 0x8C, 0x3C, 0xF8, 0xC6, 0x70, 0x17].getD i 0

/-- The raw temperature encoded by a burst: bytes 3, 4, 5 -/
def burstTemp (d : Nat → Nat) : Int := raw20 (d 3) (d 4) (d 5)

/-- The raw pressure encoded by a burst: bytes 0, 1, 2 -/
def burstPress (d : Nat → Nat) : Int := raw20 (d 0) (d 1) (d 2)

/-! ### The pieces of `bmp280_compensate_pressure` around its division -/

/-- Source `bmp280_compensate_pressure`, lines 295 to 301: the value of
`var1` that the guard tests and the division divides by -/
def pressure_guard_var1 (dev : bmp280_dev_t) : Int :=
  let var1 := sub64 dev.t_fine 128000
  let var1 := add64 (sar (mul64 (mul64 var1 var1) dev.calib.dig_P3) 8)
                    (shl64 (mul64 var1 dev.calib.dig_P2) 12)
  sar (mul64 (add64 (shl64 1 47) var1) dev.calib.dig_P1) 33

/-- Source `bmp280_compensate_pressure`, lines 295 to 298 and 307 to 308: the
dividend `(((p << 31) - var2) * 3125)` of the division -/
def pressure_dividend (dev : bmp280_dev_t) (adc_P : Int) : Int :=
  let var1 := sub64 dev.t_fine 128000
  let var2 := mul64 (mul64 var1 var1) dev.calib.dig_P6
  let var2 := add64 var2 (shl64 (mul64 var1 dev.calib.dig_P5) 17)
  let var2 := add64 var2 (shl64 dev.calib.dig_P4 35)
  let p := sub32 1048576 adc_P
  mul64 (sub64 (shl64 p 31) var2) 3125

/-- Source `bmp280_compensate_pressure`, lines 309 to 312, from the quotient
`p` of the division -/
def pressure_finish (dev : bmp280_dev_t) (p : Int) : Int :=
  let var1 := sar (mul64 (mul64 dev.calib.dig_P9 (sar p 13)) (sar p 13)) 25
  let var2 := sar (mul64 dev.calib.dig_P8 p) 19
  add64 (sar (add64 (add64 p var1) var2) 8) (shl64 dev.calib.dig_P7 4)

/-- A bus on which every transaction succeeds and the identity register
reads `0x60` (a BME280) instead of `0x58` -/
def wrongIdBus : Nat → I2cReply := constBus 0 (fun _ => 0x60)

/-! ### Trace vocabulary -/

/-- The event is an `xSemaphoreTake` call -/
def Event.isTake : Event → Bool
  | Event.take _ _ _ => true
  | _ => false

/-- The event is an `xSemaphoreGive` call -/
def Event.isGive : Event → Bool
  | Event.give _ => true
  | _ => false

/-- The event is a bus transaction -/
def Event.isBus : Event → Bool
  | Event.write _ _ _ _ => true
  | Event.writeRead _ _ _ _ _ => true
  | _ => false

/-- The error of the first failing bring-up step up to and including the
calibration read, as the specification words the states `VerifyingChipId`,
`Resetting`, `LoadingCalibration`; `none` when all of them succeed -/
def initEarlyError (w : World) : Option Int :=
  if (w.i2c w.txns).status ≠ ESP_OK then some (w.i2c w.txns).status
  else if nextBytes w 0 ≠ BMP280_CHIP_ID then some ESP_ERR_NOT_FOUND
  else if (w.i2c (w.txns + 1)).status ≠ ESP_OK then some (w.i2c (w.txns + 1)).status
  else if (w.i2c (w.txns + 2)).status ≠ ESP_OK then some (w.i2c (w.txns + 2)).status
  else none

/-- The calls of a successful bring-up between take and give, as the
specification words them: read 1 byte at `0xD0`; write `0xB6` to `0xE0`;
settle delay; read 24 bytes at `0x88`; write `0x90` to `0xF5`; write `0xB7`
to `0xF4` -/
def initSuccessEvents (port : Int) (addr : Nat) : List Event :=
  [Event.writeRead port addr 0xD0 1 1000,
   Event.write port addr [0xE0, 0xB6] 1000,
   Event.delay 50,
   Event.writeRead port addr 0x88 24 1000,
   Event.write port addr [0xF5, 0x90] 1000,
   Event.write port addr [0xF4, 0xB7] 1000]

/-- Source `bmp280_config`: the value of the `uint8_t config_val`,
`(t_sb << 5) | (filter << 2)` -/
def configByte (t_sb filter : Nat) : Nat :=
  (or32 (shl32 t_sb 5) (shl32 filter 2) % 256).toNat

/-- Source `bmp280_config`: the value of the `uint8_t ctrl_meas_val`,
`(osrs_t << 5) | (osrs_p << 2) | mode` -/
def ctrlMeasByte (osrs_t osrs_p mode : Nat) : Nat :=
  (or32 (or32 (shl32 osrs_t 5) (shl32 osrs_p 2)) mode % 256).toNat

/-- The calls of a `bmp280_config` whose two writes go through: each write
is made under its own take and give when the handle carries a lock -/
def configEvents (dev : bmp280_dev_t) (b1 b2 : Nat) : List Event :=
  match dev.i2c_mutex with
  | none =>
    [Event.write dev.i2c_port dev.i2c_addr [0xF5, b1] 1000,
     Event.write dev.i2c_port dev.i2c_addr [0xF4, b2] 1000]
  | some m =>
    [Event.take m 200 true, Event.write dev.i2c_port dev.i2c_addr [0xF5, b1] 1000,
     Event.give m,
     Event.take m 200 true, Event.write dev.i2c_port dev.i2c_addr [0xF4, b2] 1000,
     Event.give m]

/-- The number of bus transactions a bring-up issues and the status it
returns, as the specification words the rule "any failure aborts the
remaining steps": the first failing step decides both -/
def initOutcome (w : World) : Nat × Int :=
  if (w.i2c w.txns).status ≠ ESP_OK then (1, (w.i2c w.txns).status)
  else if nextBytes w 0 ≠ BMP280_CHIP_ID then (1, ESP_ERR_NOT_FOUND)
  else if (w.i2c (w.txns + 1)).status ≠ ESP_OK then (2, (w.i2c (w.txns + 1)).status)
  else if (w.i2c (w.txns + 2)).status ≠ ESP_OK then (3, (w.i2c (w.txns + 2)).status)
  else if (w.i2c (w.txns + 3)).status ≠ ESP_OK then (4, (w.i2c (w.txns + 3)).status)
  else (5, (w.i2c (w.txns + 4)).status)

/-- The calls of a bring-up that stops after `n` bus transactions: the
settle delay precedes the third transaction -/
def initEventsUpTo (port : Int) (addr : Nat) (n : Nat) : List Event :=
  (initSuccessEvents port addr).take (if n ≤ 2 then n else n + 1)

/-! ### Comparing a run without a lock with a run under a lock -/

/-- A lock call: a take or a give -/
def Event.isLock (e : Event) : Bool := e.isTake || e.isGive

/-- The bus transactions issued so far, in order -/
def busTrace (w : World) : List Event := w.trace.filter Event.isBus

/-- The lock calls made so far, in order -/
def lockTrace (w : World) : List Event := w.trace.filter Event.isLock

/-- Two worlds with the same bus in which the same bus transactions have been
issued; they may differ in lock calls -/
def SameBus (a b : World) : Prop :=
  a.i2c = b.i2c ∧ a.txns = b.txns ∧ busTrace a = busTrace b

/-- Between `w` and `w1` a bus transaction returned `ESP_ERR_TIMEOUT` -/
def BusTimedOut (w w1 : World) : Prop :=
  ∃ k, w.txns ≤ k ∧ k < w1.txns ∧ (w.i2c k).status = ESP_ERR_TIMEOUT

/-- Two measurement results that agree in the returned status, in what was
stored through the output pointers, in the calibration and `t_fine` of the
handle and in the bus transactions issued -/
def MeasResult.agrees (a b : MeasResult) : Prop :=
  a.ret = b.ret ∧ a.temperature = b.temperature ∧ a.pressure = b.pressure ∧
  a.dev.map (fun d => d.calib) = b.dev.map (fun d => d.calib) ∧
  a.dev.map (fun d => d.t_fine) = b.dev.map (fun d => d.t_fine) ∧
  SameBus a.world b.world

/-! ## The orchestrating task (main.cpp) -/

def I2C_MASTER_NUM : Int := 0
def BMP280_I2C_ADDR_PRIM : Nat := 0x76
def BMP280_I2C_ADDR_SEC : Nat := 0x77

/-- One call of `sensor_task` into the driver, with the status it returned -/
inductive DriverCall where
  | init (i2c_addr : Nat) (ret : Int)
  | read_data (ret : Int)
  deriving DecidableEq, Repr

/-- State of `sensor_task`: the static handle `bmp280_dev`, the environment
and the driver calls made so far, oldest first -/
structure TaskState where
  dev : bmp280_dev_t
  world : World
  calls : List DriverCall

/-- Source `sensor_task`: the body of the bring-up loop for the given
`retry`.  The handle passed is `&bmp280_dev`, never `NULL`, so `bmp280_init`
returns a handle (`getD` never takes its default) -/
def sensor_task_attempt (i2c_mutex : Option Nat) (retry : Nat) (s : TaskState) :
    Int × TaskState :=
  let w := if retry > 0 then vTaskDelay 500 s.world else s.world
  let r := bmp280_init (some s.dev) I2C_MASTER_NUM BMP280_I2C_ADDR_PRIM i2c_mutex w
  let s1 : TaskState :=
    { dev := r.2.1.getD s.dev, world := r.2.2,
      calls := s.calls ++ [DriverCall.init BMP280_I2C_ADDR_PRIM r.1] }
  if r.1 ≠ ESP_OK then
    let w := vTaskDelay 100 s1.world
    let r := bmp280_init (some s1.dev) I2C_MASTER_NUM BMP280_I2C_ADDR_SEC i2c_mutex w
    (r.1, { dev := r.2.1.getD s1.dev, world := r.2.2,
            calls := s1.calls ++ [DriverCall.init BMP280_I2C_ADDR_SEC r.1] })
  else
    (r.1, s1)

/-- Source `sensor_task`: the loop
`for (retry = 0; retry < 3 && ret != ESP_OK; retry++)` entered with the given
`retry` and `ret`.  `fuel` bounds the number of passes; 3 is enough because
`retry` grows by one in each pass -/
def sensor_task_init_loop (i2c_mutex : Option Nat) :
    Nat → Nat → Int → TaskState → Int × TaskState
  | 0, _, ret, s => (ret, s)
  | fuel + 1, retry, ret, s =>
    if retry < 3 ∧ ret ≠ ESP_OK then
      let r := sensor_task_attempt i2c_mutex retry s
      sensor_task_init_loop i2c_mutex fuel (retry + 1) r.1 r.2
    else
      (ret, s)

/-- Source `sensor_task`: the first `n` passes of the polling loop
`while (1)`.  The label updates between the read and the delay call neither
the driver nor the bus and are left out -/
def sensor_task_poll : Nat → TaskState → TaskState
  | 0, s => s
  | n + 1, s =>
    let r := bmp280_read_data (some s.dev) true true s.world
    sensor_task_poll n
      { dev := r.dev.getD s.dev, world := vTaskDelay 2000 r.world,
        calls := s.calls ++ [DriverCall.read_data r.ret] }

/-- Source `sensor_task`, observed up to the `n`-th pass of the polling loop
(the task never returns once bring-up has succeeded).  `dev` is the static
handle on entry, `i2c_mutex` the global lock reference -/
def sensor_task (n : Nat) (dev : bmp280_dev_t) (i2c_mutex : Option Nat) (w : World) :
    TaskState :=
  -- Wait for I2C bus and LCD to be fully initialized
  let w := vTaskDelay 500 w
  let r := sensor_task_init_loop i2c_mutex 3 0 ESP_FAIL { dev := dev, world := w, calls := [] }
  if r.1 ≠ ESP_OK then
    -- vTaskDelete(NULL); return
    r.2
  else
    sensor_task_poll n r.2

/-- The call histories of `sensor_task` as the specification words them:
bring-up attempts alternate between `0x76` and `0x77`, stop at the first
success, number at most six, and polls follow only a success -/
def TaskShape (calls : List DriverCall) : Prop :=
  ∃ (e1 e2 e3 e4 e5 e6 : Int) (rs : List Int),
    (calls = DriverCall.init 0x76 ESP_OK :: rs.map DriverCall.read_data) ∨
    (e1 ≠ ESP_OK ∧
      calls = DriverCall.init 0x76 e1 :: DriverCall.init 0x77 ESP_OK ::
        rs.map DriverCall.read_data) ∨
    (e1 ≠ ESP_OK ∧ e2 ≠ ESP_OK ∧
      calls = DriverCall.init 0x76 e1 :: DriverCall.init 0x77 e2 ::
        DriverCall.init 0x76 ESP_OK :: rs.map DriverCall.read_data) ∨
    (e1 ≠ ESP_OK ∧ e2 ≠ ESP_OK ∧ e3 ≠ ESP_OK ∧
      calls = DriverCall.init 0x76 e1 :: DriverCall.init 0x77 e2 ::
        DriverCall.init 0x76 e3 :: DriverCall.init 0x77 ESP_OK ::
        rs.map DriverCall.read_data) ∨
    (e1 ≠ ESP_OK ∧ e2 ≠ ESP_OK ∧ e3 ≠ ESP_OK ∧ e4 ≠ ESP_OK ∧
      calls = DriverCall.init 0x76 e1 :: DriverCall.init 0x77 e2 ::
        DriverCall.init 0x76 e3 :: DriverCall.init 0x77 e4 ::
        DriverCall.init 0x76 ESP_OK :: rs.map DriverCall.read_data) ∨
    (e1 ≠ ESP_OK ∧ e2 ≠ ESP_OK ∧ e3 ≠ ESP_OK ∧ e4 ≠ ESP_OK ∧ e5 ≠ ESP_OK ∧
      calls = DriverCall.init 0x76 e1 :: DriverCall.init 0x77 e2 ::
        DriverCall.init 0x76 e3 :: DriverCall.init 0x77 e4 ::
        DriverCall.init 0x76 e5 :: DriverCall.init 0x77 ESP_OK ::
        rs.map DriverCall.read_data) ∨
    (e1 ≠ ESP_OK ∧ e2 ≠ ESP_OK ∧ e3 ≠ ESP_OK ∧ e4 ≠ ESP_OK ∧ e5 ≠ ESP_OK ∧ e6 ≠ ESP_OK ∧
      calls = [DriverCall.init 0x76 e1, DriverCall.init 0x77 e2,
        DriverCall.init 0x76 e3, DriverCall.init 0x77 e4,
        DriverCall.init 0x76 e5, DriverCall.init 0x77 e6])

/-! ## Altitude utility -/

/-- Source `bmp280_calc_altitude`.  The `float` type is a field `F` and the
library function `powf` is a parameter, so that the formula can be read over
the real numbers -/
def bmp280_calc_altitude {F : Type} [Field F] (powf : F → F → F)
    (pressure sea_level_pressure : F) : F :=
  44330 * (1 - powf (pressure / sea_level_pressure) (1903 / 10000))

/-! ### The altitude utility in binary32 arithmetic -/

/-- A handle as the application declares it (`static bmp280_dev_t bmp280_dev`):
zero-initialised, never passed to `bmp280_init` -/
def zeroDev : bmp280_dev_t :=
  { i2c_port := 0, i2c_addr := 0,
    calib := { dig_T1 := 0, dig_T2 := 0, dig_T3 := 0, dig_P1 := 0, dig_P2 := 0, dig_P3 := 0,
               dig_P4 := 0, dig_P5 := 0, dig_P6 := 0, dig_P7 := 0, dig_P8 := 0, dig_P9 := 0 },
    t_fine := 0, i2c_mutex := none }

/-- The reference handle carrying lock 1 -/
def lockedDev : bmp280_dev_t := { refDev with i2c_mutex := some 1 }

/-- A bus on which every transaction times out: the I2C call returns
`ESP_ERR_TIMEOUT` -/
def timeoutBus : Nat → I2cReply := constBus ESP_ERR_TIMEOUT (fun _ => 0)

/-- A bus that fails from transaction `k` on with status `e` and otherwise
behaves like `goodBus` -/
def failingBus (k : Nat) (e : Int) (block : Nat → Nat) : Nat → I2cReply :=
  fun i => if i < k then goodBus block i else { status := e, data := fun _ => 0 }

/-! # Theorems -/

/-! ## Arithmetic lemmas -/

theorem toInt32_of_in {x : Int} (h : InInt32 x) : toInt32 x = x := by
  unfold InInt32 at h
  unfold toInt32
  omega

theorem toInt64_of_in {x : Int} (h : InInt64 x) : toInt64 x = x := by
  unfold InInt64 at h
  unfold toInt64
  omega

theorem sar_eq_fdiv (x : Int) (n : Nat) : sar x n = Int.fdiv x (2^n) := by
  unfold sar
  rw [Int.shiftRight_eq_div_pow, Int.fdiv_eq_ediv]
  · norm_cast
  · positivity

/-! ## C1 -/

/-- C1: for the datasheet reference calibration and the raw pair
`adc_T = 519888`, `adc_P = 415148`, temperature compensation sets
`t_fine = 128422` and yields the integer 2508; pressure compensation run
afterwards yields the integer `p = 25767233`, so `p / 256` is within 1 Pa of
100653.27 Pa and `p / 256 / 100` within 0.01 hPa of 1006.53 hPa. -/
theorem C1_reference_sample :
    (bmp280_compensate_temperature refDev 519888).2.t_fine = 128422 ∧
    (bmp280_compensate_temperature refDev 519888).1 = 2508 ∧
    ∃ p : Int,
      bmp280_compensate_pressure (bmp280_compensate_temperature refDev 519888).2 415148
        = some p ∧
      |(p : ℚ) / 256 - 100653.27| < 1 ∧
      |(p : ℚ) / 256 / 100 - 1006.53| < 0.01 := by
  refine ⟨by decide, by decide, 25767233, by decide, ?_, ?_⟩
  · rw [abs_lt]; constructor <;> norm_num
  · rw [abs_lt]; constructor <;> norm_num

/-! ## C2 -/

/-- Without 32-bit overflow the temperature compensation computes the stated
formulas -/
theorem compensate_temperature_formula (dev : bmp280_dev_t) (adc_T : Int)
    (h : TempNoOverflow dev.calib adc_T) :
    (bmp280_compensate_temperature dev adc_T).2.t_fine = tFineFormula dev.calib adc_T ∧
    (bmp280_compensate_temperature dev adc_T).1
      = centiCelsiusFormula (tFineFormula dev.calib adc_T) := by
  obtain ⟨h1, h2, h3, h4, h5, h6, h7, h8, h9⟩ := h
  have e1 : shl32 dev.calib.dig_T1 1 = dev.calib.dig_T1 * 2 := by
    unfold shl32; rw [pow_one]; exact toInt32_of_in h1
  have e2 : sub32 (sar adc_T 3) (shl32 dev.calib.dig_T1 1)
      = Int.fdiv adc_T (2^3) - dev.calib.dig_T1 * 2 := by
    rw [e1, sar_eq_fdiv]; exact toInt32_of_in h2
  have e4 : sub32 (sar adc_T 4) dev.calib.dig_T1
      = Int.fdiv adc_T (2^4) - dev.calib.dig_T1 := by
    rw [sar_eq_fdiv]; exact toInt32_of_in h4
  have ht : (bmp280_compensate_temperature dev adc_T).2.t_fine
      = tFineFormula dev.calib adc_T := by
    unfold bmp280_compensate_temperature tFineFormula
    simp only [e2, e4]
    unfold mul32 add32
    rw [toInt32_of_in h3, toInt32_of_in h5, sar_eq_fdiv, sar_eq_fdiv, sar_eq_fdiv,
      toInt32_of_in h6, toInt32_of_in h7]
    norm_num
    ring_nf
  refine ⟨ht, ?_⟩
  have hT : (bmp280_compensate_temperature dev adc_T).1
      = sar (add32 (mul32 (bmp280_compensate_temperature dev adc_T).2.t_fine 5) 128) 8 := rfl
  have key : tFineFormula dev.calib adc_T
      = Int.fdiv ((Int.fdiv adc_T (2^3) - dev.calib.dig_T1 * 2) * dev.calib.dig_T2) (2^11) +
        Int.fdiv (Int.fdiv ((Int.fdiv adc_T (2^4) - dev.calib.dig_T1) *
          (Int.fdiv adc_T (2^4) - dev.calib.dig_T1)) (2^12) * dev.calib.dig_T3) (2^14) := by
    unfold tFineFormula
    norm_num
    ring_nf
  rw [← key] at h8 h9
  rw [hT, ht]
  unfold centiCelsiusFormula mul32 add32
  rw [toInt32_of_in h8, toInt32_of_in h9, sar_eq_fdiv]

/-- C2: for every calibration and raw temperature for which no 32-bit
intermediate overflows, `bmp280_compensate_temperature` stores
`t_fine = floor(((floor(adc_T/8) - 2*dig_T1) * dig_T2) / 2^11) +
floor((floor((floor(adc_T/16) - dig_T1)^2 / 2^12) * dig_T3) / 2^14)` in the
handle, and the value it converts to float is the integer
`floor((t_fine*5 + 128) / 2^8)`. -/
theorem C2_temperature_formula (dev : bmp280_dev_t) (adc_T : Int)
    (h : TempNoOverflow dev.calib adc_T) :
    (bmp280_compensate_temperature dev adc_T).2.t_fine = tFineFormula dev.calib adc_T ∧
    (bmp280_compensate_temperature dev adc_T).1
      = centiCelsiusFormula (tFineFormula dev.calib adc_T) :=
  compensate_temperature_formula dev adc_T h

/-- C2 witness: the reference sample satisfies the overflow condition -/
theorem C2_temperature_formula_witness :
    TempNoOverflow refDev.calib 519888 ∧
    (bmp280_compensate_temperature refDev 519888).2.t_fine = tFineFormula refDev.calib 519888 ∧
    (bmp280_compensate_temperature refDev 519888).1
      = centiCelsiusFormula (tFineFormula refDev.calib 519888) :=
  ⟨by decide, C2_temperature_formula refDev 519888 (by decide)⟩

/-! ## C3 -/

/-- Without 64-bit overflow and with a representable `1048576 - adc_P`, a run
of `bmp280_compensate_pressure` computes the stated values: its guard value
is `D`, its result is the stated formula when `D` is non-zero, and no 64-bit
operation of the run overflows -/
theorem compensate_pressure_run (dev : bmp280_dev_t) (adc_P : Int)
    (h : PressNoOverflow64 dev.calib dev.t_fine adc_P)
    (h32 : InInt32 (2^20 - adc_P)) :
    pressure_guard_var1 dev = pressD dev.calib dev.t_fine ∧
    (pressD dev.calib dev.t_fine ≠ 0 →
      bmp280_compensate_pressure dev adc_P
        = some (pressureFormula dev.calib dev.t_fine adc_P)) ∧
    PressRunNoOverflow64 dev adc_P := by
  obtain ⟨h1, h2, h3, h4, h5, h6, h7, h8, h9, h10, h11, h12, h13, h14, h15, h16, h17,
    h18, h19, h20, h21, h22, h23, h24, h25⟩ := h
  have e1 : sub64 dev.t_fine 128000 = pressV dev.t_fine := toInt64_of_in h1
  have e2 : mul64 (pressV dev.t_fine) (pressV dev.t_fine)
      = pressV dev.t_fine * pressV dev.t_fine := toInt64_of_in h2
  have e3 : mul64 (pressV dev.t_fine * pressV dev.t_fine) dev.calib.dig_P6
      = pressV dev.t_fine * pressV dev.t_fine * dev.calib.dig_P6 := toInt64_of_in h3
  have e4 : mul64 (pressV dev.t_fine) dev.calib.dig_P5
      = pressV dev.t_fine * dev.calib.dig_P5 := toInt64_of_in h4
  have e5 : shl64 (pressV dev.t_fine * dev.calib.dig_P5) 17
      = pressV dev.t_fine * dev.calib.dig_P5 * 2^17 := toInt64_of_in h5
  have e6 : add64 (pressV dev.t_fine * pressV dev.t_fine * dev.calib.dig_P6)
        (pressV dev.t_fine * dev.calib.dig_P5 * 2^17)
      = pressV dev.t_fine * pressV dev.t_fine * dev.calib.dig_P6
        + pressV dev.t_fine * dev.calib.dig_P5 * 2^17 := toInt64_of_in h6
  have e7 : shl64 dev.calib.dig_P4 35 = dev.calib.dig_P4 * 2^35 := toInt64_of_in h7
  have e8 : add64 (pressV dev.t_fine * pressV dev.t_fine * dev.calib.dig_P6
        + pressV dev.t_fine * dev.calib.dig_P5 * 2^17) (dev.calib.dig_P4 * 2^35)
      = pressA dev.calib dev.t_fine := toInt64_of_in h8
  have e9 : mul64 (pressV dev.t_fine * pressV dev.t_fine) dev.calib.dig_P3
      = pressV dev.t_fine * pressV dev.t_fine * dev.calib.dig_P3 := toInt64_of_in h9
  have e10 : mul64 (pressV dev.t_fine) dev.calib.dig_P2
      = pressV dev.t_fine * dev.calib.dig_P2 := toInt64_of_in h10
  have e11 : shl64 (pressV dev.t_fine * dev.calib.dig_P2) 12
      = pressV dev.t_fine * dev.calib.dig_P2 * 2^12 := toInt64_of_in h11
  have e12 : add64 (sar (pressV dev.t_fine * pressV dev.t_fine * dev.calib.dig_P3) 8)
        (pressV dev.t_fine * dev.calib.dig_P2 * 2^12)
      = pressB dev.calib dev.t_fine := by
    rw [sar_eq_fdiv]; exact toInt64_of_in h12
  have e13 : shl64 1 47 = 2^47 := by decide
  have e14 : add64 (2^47) (pressB dev.calib dev.t_fine)
      = 2^47 + pressB dev.calib dev.t_fine := toInt64_of_in h13
  have e15 : mul64 (2^47 + pressB dev.calib dev.t_fine) dev.calib.dig_P1
      = (2^47 + pressB dev.calib dev.t_fine) * dev.calib.dig_P1 := toInt64_of_in h14
  have e16 : sar ((2^47 + pressB dev.calib dev.t_fine) * dev.calib.dig_P1) 33
      = pressD dev.calib dev.t_fine := sar_eq_fdiv _ _
  have e17 : sub32 1048576 adc_P = 2^20 - adc_P := by
    have : (1048576 : Int) = 2^20 := by norm_num
    unfold sub32; rw [this]; exact toInt32_of_in h32
  have e18 : shl64 (2^20 - adc_P) 31 = (2^20 - adc_P) * 2^31 := toInt64_of_in h15
  have e19 : sub64 ((2^20 - adc_P) * 2^31) (pressA dev.calib dev.t_fine)
      = (2^20 - adc_P) * 2^31 - pressA dev.calib dev.t_fine := toInt64_of_in h16
  have e20 : mul64 ((2^20 - adc_P) * 2^31 - pressA dev.calib dev.t_fine) 3125
      = ((2^20 - adc_P) * 2^31 - pressA dev.calib dev.t_fine) * 3125 := toInt64_of_in h17
  have e21 : toInt64 (Int.tdiv
        (((2^20 - adc_P) * 2^31 - pressA dev.calib dev.t_fine) * 3125)
        (pressD dev.calib dev.t_fine))
      = pressQ dev.calib dev.t_fine adc_P := toInt64_of_in h18
  have e22 : mul64 dev.calib.dig_P9 (sar (pressQ dev.calib dev.t_fine adc_P) 13)
      = dev.calib.dig_P9 * Int.fdiv (pressQ dev.calib dev.t_fine adc_P) (2^13) := by
    rw [sar_eq_fdiv]; exact toInt64_of_in h19
  have e23 : mul64 (dev.calib.dig_P9 * Int.fdiv (pressQ dev.calib dev.t_fine adc_P) (2^13))
        (sar (pressQ dev.calib dev.t_fine adc_P) 13)
      = dev.calib.dig_P9 * Int.fdiv (pressQ dev.calib dev.t_fine adc_P) (2^13)
        * Int.fdiv (pressQ dev.calib dev.t_fine adc_P) (2^13) := by
    rw [sar_eq_fdiv]; exact toInt64_of_in h20
  have e24 : sar (dev.calib.dig_P9 * Int.fdiv (pressQ dev.calib dev.t_fine adc_P) (2^13)
        * Int.fdiv (pressQ dev.calib dev.t_fine adc_P) (2^13)) 25
      = pressE dev.calib dev.t_fine adc_P := by
    rw [sar_eq_fdiv]; unfold pressE; congr 1; ring
  have e25 : mul64 dev.calib.dig_P8 (pressQ dev.calib dev.t_fine adc_P)
      = dev.calib.dig_P8 * pressQ dev.calib dev.t_fine adc_P := toInt64_of_in h21
  have e26 : sar (dev.calib.dig_P8 * pressQ dev.calib dev.t_fine adc_P) 19
      = pressF dev.calib dev.t_fine adc_P := sar_eq_fdiv _ _
  have e27 : add64 (pressQ dev.calib dev.t_fine adc_P) (pressE dev.calib dev.t_fine adc_P)
      = pressQ dev.calib dev.t_fine adc_P + pressE dev.calib dev.t_fine adc_P :=
    toInt64_of_in h22
  have e28 : add64 (pressQ dev.calib dev.t_fine adc_P + pressE dev.calib dev.t_fine adc_P)
        (pressF dev.calib dev.t_fine adc_P)
      = pressQ dev.calib dev.t_fine adc_P + pressE dev.calib dev.t_fine adc_P
        + pressF dev.calib dev.t_fine adc_P := toInt64_of_in h23
  have e29 : shl64 dev.calib.dig_P7 4 = dev.calib.dig_P7 * 2^4 := toInt64_of_in h24
  have e30a : sar (pressQ dev.calib dev.t_fine adc_P + pressE dev.calib dev.t_fine adc_P
      + pressF dev.calib dev.t_fine adc_P) 8 + dev.calib.dig_P7 * 2^4
      = pressureFormula dev.calib dev.t_fine adc_P := by
    rw [sar_eq_fdiv]; unfold pressureFormula; norm_num
  have e30 : add64 (sar (pressQ dev.calib dev.t_fine adc_P + pressE dev.calib dev.t_fine adc_P
        + pressF dev.calib dev.t_fine adc_P) 8) (dev.calib.dig_P7 * 2^4)
      = pressureFormula dev.calib dev.t_fine adc_P := by
    unfold add64
    rw [e30a]
    exact toInt64_of_in h25
  refine ⟨?_, ?_, ?_⟩
  · unfold pressure_guard_var1
    simp only [e1, e2, e9, e10, e11, e12, e13, e14, e15, e16]
  · intro hD
    unfold bmp280_compensate_pressure sdiv64
    simp only [e1, e2, e3, e4, e5, e6, e7, e8, e9, e10, e11, e12, e13, e14, e15, e16, e17,
      e18, e19, e20, e21, e22, e23, e24, e25, e26, e27, e28, e29, e30, if_neg hD]
  · unfold PressRunNoOverflow64 pressRunResults64
    simp only [e1, e2, e3, e4, e5, e6, e7, e8, e9, e10, e11, e12, e13, e14, e15, e16, e17,
      e18, e19, e20, e21, e22, e23, e24, e25, e26, e27, e28, e29]
    intro x hx
    rw [List.mem_append] at hx
    rcases hx with hx | hx
    · simp only [List.mem_cons, List.mem_singleton, List.not_mem_nil, or_false] at hx
      rcases hx with hx | hx | hx | hx | hx | hx | hx | hx | hx | hx | hx | hx | hx | hx | hx
      · rw [hx]; exact h1
      · rw [hx]; exact h2
      · rw [hx]; exact h3
      · rw [hx]; exact h4
      · rw [hx]; exact h5
      · rw [hx]; exact h6
      · rw [hx]; exact h7
      · rw [hx]; exact h8
      · rw [hx]; exact h9
      · rw [hx]; exact h10
      · rw [hx]; exact h11
      · rw [hx, sar_eq_fdiv]; exact h12
      · rw [hx]; decide
      · rw [hx]; exact h13
      · rw [hx]; exact h14
    · by_cases hD : pressD dev.calib dev.t_fine = 0
      · rw [if_pos hD] at hx
        exact absurd hx (List.not_mem_nil _)
      · rw [if_neg hD] at hx
        simp only [List.mem_cons, List.mem_singleton, List.not_mem_nil, or_false] at hx
        rcases hx with hx | hx | hx | hx | hx | hx | hx | hx | hx | hx | hx
        · rw [hx]; exact h15
        · rw [hx]; exact h16
        · rw [hx]; exact h17
        · rw [hx]; exact h18
        · rw [hx, sar_eq_fdiv]; exact h19
        · rw [hx, sar_eq_fdiv]; exact h20
        · rw [hx]; exact h21
        · rw [hx]; exact h22
        · rw [hx]; exact h23
        · rw [hx]; exact h24
        · rw [hx, e30a]; exact h25

/-- C3: for every calibration, carry value `t_fine` and raw pressure `adc_P`
for which no 64-bit intermediate overflows and the guard value `D` is
non-zero, the integer `p` that `bmp280_compensate_pressure` converts to hPa
(`p / 256 / 100`) equals the stated formula: `v = t_fine - 128000`;
`A = v*v*dig_P6 + (v*dig_P5)*2^17 + dig_P4*2^35`;
`B = floor(v*v*dig_P3 / 2^8) + (v*dig_P2)*2^12`;
`D = floor((2^47 + B)*dig_P1 / 2^33)`;
`q = (((2^20 - adc_P)*2^31 - A) * 3125) / D` truncated toward zero;
`E = floor(dig_P9 * floor(q/2^13)^2 / 2^25)`; `F = floor(dig_P8*q / 2^19)`;
`p = floor((q + E + F) / 2^8) + dig_P7*16`.  A raw pressure is a 20-bit
value: the function is `static` and its two callers, `bmp280_read_pressure`
and `bmp280_read_data`, pass the value `bmp280_read_raw` decoded from three
bytes (`raw20_range`). -/
theorem C3_pressure_formula (dev : bmp280_dev_t) (adc_P : Int)
    (hraw0 : 0 ≤ adc_P) (hraw1 : adc_P < 2^20)
    (h : PressNoOverflow64 dev.calib dev.t_fine adc_P)
    (hD : pressD dev.calib dev.t_fine ≠ 0) :
    bmp280_compensate_pressure dev adc_P
      = some (pressureFormula dev.calib dev.t_fine adc_P) := by
  have h32 : InInt32 (2^20 - adc_P) := by
    unfold InInt32
    omega
  exact (compensate_pressure_run dev adc_P h h32).2.1 hD

/-- C3 witness: the reference sample satisfies the hypotheses -/
theorem C3_pressure_formula_witness :
    (0 : Int) ≤ 415148 ∧ (415148 : Int) < 2^20 ∧
    PressNoOverflow64 (devOf refCalib 128422).calib (devOf refCalib 128422).t_fine 415148 ∧
    pressD (devOf refCalib 128422).calib (devOf refCalib 128422).t_fine ≠ 0 ∧
    bmp280_compensate_pressure (devOf refCalib 128422) 415148
      = some (pressureFormula refCalib 128422 415148) :=
  ⟨by decide, by decide, by decide, by decide,
   C3_pressure_formula (devOf refCalib 128422) 415148 (by decide) (by decide) (by decide)
      (by decide)⟩

/-! ## Bit-packing lemmas -/

theorem bits32_natCast (x : Nat) (h : x < 2^32) : bits32 (x : Int) = x := by
  unfold bits32
  omega

/-- OR of two bit patterns that do not overlap is their sum -/
theorem or32_disjoint (k a b : Nat) (hb : b < 2^k) (h : 2^k * a + b < 2^31) :
    or32 ((2^k * a : Nat) : Int) (b : Int) = ((2^k * a + b : Nat) : Int) := by
  have ha : 2^k * a < 2^32 := by omega
  have hb32 : b < 2^32 := by omega
  unfold or32
  rw [bits32_natCast _ ha, bits32_natCast _ hb32, ← Nat.mul_add_lt_is_or hb a]
  unfold toInt32
  simp only [Int.ofNat_eq_coe]
  omega

theorem shl32_natCast (x k : Nat) (h : 2^k * x < 2^31) :
    shl32 (x : Int) k = ((2^k * x : Nat) : Int) := by
  unfold shl32 toInt32
  push_cast
  have : (x : Int) * 2^k = 2^k * (x : Int) := by ring
  rw [this]
  have h' : (2^k : Int) * (x : Int) < 2^31 := by exact_mod_cast h
  have h0 : (0 : Int) ≤ 2^k * (x : Int) := by positivity
  omega

theorem sar_natCast (x k : Nat) : sar (x : Int) k = ((x / 2^k : Nat) : Int) := by
  unfold sar
  rw [Int.shiftRight_eq_div_pow]
  norm_cast

/-- The C expression `(d0 << 12) | (d1 << 4) | (d2 >> 4)` on three bytes -/
theorem raw20_decode (d0 d1 d2 : Nat) (h0 : d0 < 256) (h1 : d1 < 256) (h2 : d2 < 256) :
    toInt32 (or32 (or32 (shl32 d0 12) (shl32 d1 4)) (sar d2 4)) = raw20 d0 d1 d2 := by
  rw [shl32_natCast d0 12 (by omega), shl32_natCast d1 4 (by omega), sar_natCast]
  have hx : d2 / 2^4 < 2^4 := by omega
  have e1 : or32 ((2^12 * d0 : Nat) : Int) ((2^4 * d1 : Nat) : Int)
      = ((2^12 * d0 + 2^4 * d1 : Nat) : Int) := or32_disjoint 12 d0 (2^4 * d1) (by omega) (by omega)
  have e2 : (2^12 * d0 + 2^4 * d1 : Nat) = 2^4 * (2^8 * d0 + d1) := by ring
  rw [e1, e2, or32_disjoint 4 (2^8 * d0 + d1) (d2 / 2^4) hx (by omega)]
  unfold toInt32 raw20
  push_cast
  omega

/-! ## Register transport lemmas -/

theorem esp_timeout_ne_ok : ESP_ERR_TIMEOUT ≠ ESP_OK := by decide

theorem esp_invalid_arg_ne_ok : ESP_ERR_INVALID_ARG ≠ ESP_OK := by decide

/-- A locked register read that returns `ESP_OK` delivers the bytes of the
next bus transaction, and that transaction reported `ESP_OK` -/
theorem read_reg_ok (dev : bmp280_dev_t) (reg len : Nat) (w : World)
    (h : (bmp280_read_reg dev reg len w).ret = ESP_OK) :
    (bmp280_read_reg dev reg len w).data = nextBytes w ∧ (w.i2c w.txns).status = ESP_OK := by
  unfold bmp280_read_reg at h ⊢
  cases hm : dev.i2c_mutex with
  | none =>
    simp only [hm] at h ⊢
    exact ⟨rfl, h⟩
  | some m =>
    simp only [hm] at h ⊢
    by_cases ht : (xSemaphoreTake m 200 w).1 = true
    · simp only [ht, if_true] at h ⊢
      exact ⟨rfl, h⟩
    · simp only [ht] at h
      exact absurd h esp_timeout_ne_ok

/-- What a successful `bmp280_read_raw` stores -/
theorem read_raw_ok (dev : Option bmp280_dev_t) (rt rp : Bool) (w : World)
    (h : (bmp280_read_raw dev rt rp w).ret = ESP_OK) :
    (bmp280_read_raw dev rt rp w).raw_press
      = some (raw20 (nextBytes w 0) (nextBytes w 1) (nextBytes w 2)) ∧
    (bmp280_read_raw dev rt rp w).raw_temp
      = some (raw20 (nextBytes w 3) (nextBytes w 4) (nextBytes w 5)) := by
  have hb : ∀ i, nextBytes w i < 256 := fun i => Nat.mod_lt _ (by decide)
  unfold bmp280_read_raw at h ⊢
  cases dev with
  | none => exact absurd h esp_invalid_arg_ne_ok
  | some d =>
    simp only at h ⊢
    by_cases hp : rt = false ∨ rp = false
    · simp only [hp, if_true] at h
      exact absurd h esp_invalid_arg_ne_ok
    · simp only [hp, if_false] at h ⊢
      by_cases hr : (bmp280_read_reg d BMP280_REG_PRESS_MSB 6 w).ret = ESP_OK
      · have hd := (read_reg_ok d BMP280_REG_PRESS_MSB 6 w hr).1
        simp only [hr, ne_eq, not_true_eq_false, if_false, hd]
        exact ⟨congrArg some (raw20_decode _ _ _ (hb 0) (hb 1) (hb 2)),
               congrArg some (raw20_decode _ _ _ (hb 3) (hb 4) (hb 5))⟩
      · simp only [ne_eq, hr, not_false_eq_true, if_true] at h

theorem raw20_range (d0 d1 d2 : Nat) (h0 : d0 < 256) (h1 : d1 < 256) (h2 : d2 < 256) :
    0 ≤ raw20 d0 d1 d2 ∧ raw20 d0 d1 d2 < 2^20 := by
  unfold raw20
  omega

/-! ## C4 -/

/-- C4: for every 6-byte burst response `d[0..5]`, a successful
`bmp280_read_raw` returns `raw_press = d[0]*4096 + d[1]*16 + floor(d[2]/16)`
and `raw_temp = d[3]*4096 + d[4]*16 + floor(d[5]/16)`; both lie in
`[0, 2^20)` and do not depend on the low four bits of `d[2]` or `d[5]`: any
other successful call whose burst agrees in `d[0]`, `d[1]`, `d[3]`, `d[4]`
and in the high nibbles of `d[2]` and `d[5]` stores the same two values. -/
theorem C4_read_raw_decode (dev : Option bmp280_dev_t) (rt rp : Bool) (w : World)
    (h : (bmp280_read_raw dev rt rp w).ret = ESP_OK) :
    (bmp280_read_raw dev rt rp w).raw_press
      = some ((nextBytes w 0 : Int) * 4096 + (nextBytes w 1 : Int) * 16
              + (nextBytes w 2 / 16 : Nat)) ∧
    (bmp280_read_raw dev rt rp w).raw_temp
      = some ((nextBytes w 3 : Int) * 4096 + (nextBytes w 4 : Int) * 16
              + (nextBytes w 5 / 16 : Nat)) ∧
    (∀ x, (bmp280_read_raw dev rt rp w).raw_press = some x → 0 ≤ x ∧ x < 2^20) ∧
    (∀ x, (bmp280_read_raw dev rt rp w).raw_temp = some x → 0 ≤ x ∧ x < 2^20) ∧
    (∀ (dev2 : Option bmp280_dev_t) (rt2 rp2 : Bool) (w2 : World),
      (bmp280_read_raw dev2 rt2 rp2 w2).ret = ESP_OK →
      nextBytes w2 0 = nextBytes w 0 → nextBytes w2 1 = nextBytes w 1 →
      nextBytes w2 2 / 16 = nextBytes w 2 / 16 →
      nextBytes w2 3 = nextBytes w 3 → nextBytes w2 4 = nextBytes w 4 →
      nextBytes w2 5 / 16 = nextBytes w 5 / 16 →
      (bmp280_read_raw dev2 rt2 rp2 w2).raw_press = (bmp280_read_raw dev rt rp w).raw_press ∧
      (bmp280_read_raw dev2 rt2 rp2 w2).raw_temp = (bmp280_read_raw dev rt rp w).raw_temp) := by
  have hb : ∀ (v : World) i, nextBytes v i < 256 := fun v i => Nat.mod_lt _ (by decide)
  obtain ⟨hp, ht⟩ := read_raw_ok dev rt rp w h
  have eP : raw20 (nextBytes w 0) (nextBytes w 1) (nextBytes w 2)
      = (nextBytes w 0 : Int) * 4096 + (nextBytes w 1 : Int) * 16
        + (nextBytes w 2 / 16 : Nat) := by
    unfold raw20; push_cast; rfl
  have eT : raw20 (nextBytes w 3) (nextBytes w 4) (nextBytes w 5)
      = (nextBytes w 3 : Int) * 4096 + (nextBytes w 4 : Int) * 16
        + (nextBytes w 5 / 16 : Nat) := by
    unfold raw20; push_cast; rfl
  refine ⟨by rw [hp, eP], by rw [ht, eT], ?_, ?_, ?_⟩
  · intro x hx
    rw [hp] at hx
    cases hx
    exact raw20_range _ _ _ (hb w 0) (hb w 1) (hb w 2)
  · intro x hx
    rw [ht] at hx
    cases hx
    exact raw20_range _ _ _ (hb w 3) (hb w 4) (hb w 5)
  · intro dev2 rt2 rp2 w2 h2 a0 a1 a2 a3 a4 a5
    obtain ⟨hp2, ht2⟩ := read_raw_ok dev2 rt2 rp2 w2 h2
    rw [hp, ht, hp2, ht2]
    unfold raw20
    rw [a0, a1, a2, a3, a4, a5]
    exact ⟨rfl, rfl⟩

/-- C4 witness: the burst encoding the reference pair decodes to it -/
theorem C4_read_raw_decode_witness :
    (bmp280_read_raw (some refDev) true true
        (World.start (fun _ => true) (constBus 0 refBurst))).ret = ESP_OK ∧
    (bmp280_read_raw (some refDev) true true
        (World.start (fun _ => true) (constBus 0 refBurst))).raw_press = some 415148 ∧
    (bmp280_read_raw (some refDev) true true
        (World.start (fun _ => true) (constBus 0 refBurst))).raw_temp = some 519888 :=
  ⟨by decide,
   (C4_read_raw_decode (some refDev) true true
      (World.start (fun _ => true) (constBus 0 refBurst)) (by decide)).1.trans (by decide),
   (C4_read_raw_decode (some refDev) true true
      (World.start (fun _ => true) (constBus 0 refBurst)) (by decide)).2.1.trans (by decide)⟩

/-! ## Calibration decoding lemmas -/

/-- The C expression `(uint16_t)(hi << 8) | lo` stored to a `uint16_t` -/
theorem decode_u16 (b : Nat → Nat) (k : Nat) (hb : ∀ i, b i < 256) :
    toUInt16 (or32 (toUInt16 (shl32 (b (2 * k + 1)) 8)) (b (2 * k))) = (leWord b k : Nat) := by
  have hlo := hb (2 * k)
  have hhi := hb (2 * k + 1)
  rw [shl32_natCast _ 8 (by omega)]
  have e : toUInt16 ((2^8 * b (2 * k + 1) : Nat) : Int) = ((2^8 * b (2 * k + 1) : Nat) : Int) := by
    unfold toUInt16; push_cast; omega
  rw [e, or32_disjoint 8 _ _ (by omega) (by omega)]
  unfold toUInt16 leWord
  push_cast
  omega

/-- The C expression `(int16_t)(hi << 8) | lo` stored to an `int16_t` -/
theorem decode_s16 (b : Nat → Nat) (k : Nat) (hb : ∀ i, b i < 256) :
    toInt16 (or32 (toInt16 (shl32 (b (2 * k + 1)) 8)) (b (2 * k)))
      = wordSigned (leWord b k) := by
  have hlo := hb (2 * k)
  have hhi := hb (2 * k + 1)
  rw [shl32_natCast _ 8 (by omega)]
  by_cases hs : b (2 * k + 1) < 128
  · have e : toInt16 ((2^8 * b (2 * k + 1) : Nat) : Int) = ((2^8 * b (2 * k + 1) : Nat) : Int) := by
      unfold toInt16; push_cast; omega
    rw [e, or32_disjoint 8 _ _ (by omega) (by omega)]
    unfold toInt16 wordSigned leWord
    have : ¬ (b (2 * k) + 256 * b (2 * k + 1) ≥ 32768) := by omega
    rw [if_neg this]
    push_cast
    omega
  · have e : toInt16 ((2^8 * b (2 * k + 1) : Nat) : Int)
        = ((2^8 * b (2 * k + 1) : Nat) : Int) - 65536 := by
      unfold toInt16; push_cast; omega
    have hbits : bits32 (((2^8 * b (2 * k + 1) : Nat) : Int) - 65536)
        = 2^8 * (2^24 - 256 + b (2 * k + 1)) := by
      unfold bits32; push_cast; omega
    have hlo32 : bits32 ((b (2 * k) : Nat) : Int) = b (2 * k) := bits32_natCast _ (by omega)
    rw [e]
    unfold or32
    rw [hbits, hlo32, ← Nat.mul_add_lt_is_or (by omega : b (2 * k) < 2^8)]
    unfold toInt32 toInt16 wordSigned leWord
    have : b (2 * k) + 256 * b (2 * k + 1) ≥ 32768 := by omega
    rw [if_pos this]
    simp only [Int.ofNat_eq_coe]
    push_cast
    omega

/-- The twelve decoding equations for a block of bytes -/
theorem decode_block (b : Nat → Nat) (hb : ∀ i, b i < 256) :
    toUInt16 (or32 (toUInt16 (shl32 (b 1) 8)) (b 0)) = (leWord b 0 : Nat) ∧
    toInt16 (or32 (toInt16 (shl32 (b 3) 8)) (b 2)) = wordSigned (leWord b 1) ∧
    toInt16 (or32 (toInt16 (shl32 (b 5) 8)) (b 4)) = wordSigned (leWord b 2) ∧
    toUInt16 (or32 (toUInt16 (shl32 (b 7) 8)) (b 6)) = (leWord b 3 : Nat) ∧
    toInt16 (or32 (toInt16 (shl32 (b 9) 8)) (b 8)) = wordSigned (leWord b 4) ∧
    toInt16 (or32 (toInt16 (shl32 (b 11) 8)) (b 10)) = wordSigned (leWord b 5) ∧
    toInt16 (or32 (toInt16 (shl32 (b 13) 8)) (b 12)) = wordSigned (leWord b 6) ∧
    toInt16 (or32 (toInt16 (shl32 (b 15) 8)) (b 14)) = wordSigned (leWord b 7) ∧
    toInt16 (or32 (toInt16 (shl32 (b 17) 8)) (b 16)) = wordSigned (leWord b 8) ∧
    toInt16 (or32 (toInt16 (shl32 (b 19) 8)) (b 18)) = wordSigned (leWord b 9) ∧
    toInt16 (or32 (toInt16 (shl32 (b 21) 8)) (b 20)) = wordSigned (leWord b 10) ∧
    toInt16 (or32 (toInt16 (shl32 (b 23) 8)) (b 22)) = wordSigned (leWord b 11) :=
  ⟨decode_u16 b 0 hb, decode_s16 b 1 hb, decode_s16 b 2 hb, decode_u16 b 3 hb,
   decode_s16 b 4 hb, decode_s16 b 5 hb, decode_s16 b 6 hb, decode_s16 b 7 hb,
   decode_s16 b 8 hb, decode_s16 b 9 hb, decode_s16 b 10 hb, decode_s16 b 11 hb⟩

/-! ## Device lifecycle lemmas -/

theorem init_cleanup_ret (t : Bool) (s : Int × bmp280_dev_t × World) :
    (bmp280_init_cleanup t s).1 = s.1 := by
  unfold bmp280_init_cleanup
  split
  · split <;> rfl
  · rfl

theorem init_cleanup_dev (t : Bool) (s : Int × bmp280_dev_t × World) :
    (bmp280_init_cleanup t s).2.1 = s.2.1 := by
  unfold bmp280_init_cleanup
  split
  · split <;> rfl
  · rfl

/-- When the identity read, the identity check, the reset write and the
calibration read succeed, the bring-up sequence leaves the coefficients
decoded from the bytes of the third transaction in the handle -/
theorem init_sequence_calib (dev : bmp280_dev_t) (w : World)
    (h0 : (w.i2c w.txns).status = ESP_OK)
    (hid : (w.i2c w.txns).data 0 % 256 = BMP280_CHIP_ID)
    (h1 : (w.i2c (w.txns + 1)).status = ESP_OK)
    (h2 : (w.i2c (w.txns + 1 + 1)).status = ESP_OK) :
    (bmp280_init_sequence dev w).2.1.calib
      = calibFromBlock (fun i => (w.i2c (w.txns + 1 + 1)).data i % 256) := by
  have hb : ∀ i, (fun i => (w.i2c (w.txns + 1 + 1)).data i % 256) i < 256 :=
    fun i => Nat.mod_lt _ (by decide)
  obtain ⟨d0, d1, d2, d3, d4, d5, d6, d7, d8, d9, d10, d11⟩ := decode_block _ hb
  unfold bmp280_init_sequence bmp280_read_reg_internal bmp280_write_reg_internal
    i2c_master_write_read_device i2c_master_write_to_device vTaskDelay
  simp only [h0, hid, h1, h2, ne_eq, not_true_eq_false, if_false,
    d0, d1, d2, d3, d4, d5, d6, d7, d8, d9, d10, d11]
  split_ifs <;> rfl

theorem read_calib_data_calib (dev : bmp280_dev_t) (w : World)
    (h : (bmp280_read_calib_data dev w).1 = ESP_OK) :
    (bmp280_read_calib_data dev w).2.1.calib = calibFromBlock (nextBytes w) := by
  have hb : ∀ i, nextBytes w i < 256 := fun i => Nat.mod_lt _ (by decide)
  obtain ⟨d0, d1, d2, d3, d4, d5, d6, d7, d8, d9, d10, d11⟩ := decode_block _ hb
  unfold bmp280_read_calib_data at h ⊢
  by_cases hr : (bmp280_read_reg dev BMP280_REG_CALIB_START 24 w).ret = ESP_OK
  · have hd := (read_reg_ok dev BMP280_REG_CALIB_START 24 w hr).1
    simp only [hr, ne_eq, not_true_eq_false, if_false, hd,
      d0, d1, d2, d3, d4, d5, d6, d7, d8, d9, d10, d11]
    rfl
  · simp only [ne_eq, hr, not_false_eq_true, if_true] at h

/-! ## C5 -/

/-- C5: for every 24-byte calibration block `b` read from the device, the
decoder inside `bmp280_init` and the one in `bmp280_read_calib_data` produce
the same 12 coefficients, `calibFromBlock b`: coefficient `k` is the
little-endian word `b[2k] + 256*b[2k+1]`, unsigned for `dig_T1` and `dig_P1`,
two's-complement signed for the other ten. -/
theorem C5_calibration_decoders (b : Nat → Nat)
    (dev1 : bmp280_dev_t) (i2c_port : Int) (i2c_addr : Nat) (i2c_mutex : Option Nat)
    (w1 : World) (dev2 : bmp280_dev_t) (w2 : World)
    (hl : ∀ m, i2c_mutex = some m → w1.takeResult w1.takes = true)
    (h0 : (w1.i2c w1.txns).status = ESP_OK)
    (hid : (w1.i2c w1.txns).data 0 % 256 = BMP280_CHIP_ID)
    (h1 : (w1.i2c (w1.txns + 1)).status = ESP_OK)
    (h2 : (w1.i2c (w1.txns + 2)).status = ESP_OK)
    (hb1 : ∀ i, (w1.i2c (w1.txns + 2)).data i % 256 = b i)
    (hr : (bmp280_read_calib_data dev2 w2).1 = ESP_OK)
    (hb2 : ∀ i, nextBytes w2 i = b i) :
    (∃ d, (bmp280_init (some dev1) i2c_port i2c_addr i2c_mutex w1).2.1 = some d ∧
          d.calib = calibFromBlock b) ∧
    (bmp280_read_calib_data dev2 w2).2.1.calib = calibFromBlock b := by
  have e1 : (fun i => (w1.i2c (w1.txns + 1 + 1)).data i % 256) = b := funext hb1
  have e2 : nextBytes w2 = b := funext hb2
  constructor
  · unfold bmp280_init
    cases i2c_mutex with
    | none =>
      refine ⟨_, rfl, ?_⟩
      rw [init_cleanup_dev, init_sequence_calib _ _ h0 hid h1 h2, e1]
    | some m =>
      have ht : (xSemaphoreTake m 500 w1).1 = true := hl m rfl
      simp only [ht, if_true]
      refine ⟨_, rfl, ?_⟩
      rw [init_cleanup_dev, init_sequence_calib _ (xSemaphoreTake m 500 w1).2 h0 hid h1 h2]
      exact congrArg calibFromBlock e1
  · rw [read_calib_data_calib dev2 w2 hr, e2]

/-- C5 witness: the block of the datasheet calibration decodes, on both
paths, to the datasheet coefficients -/
theorem C5_calibration_decoders_witness :
    (∃ d, (bmp280_init (some refDev) 0 0x76 (some 1)
            (World.start (fun _ => true) (goodBus refBlock))).2.1 = some d ∧
          d.calib = calibFromBlock (fun i => refBlock i % 256)) ∧
    (bmp280_read_calib_data (devOf { refCalib with dig_T1 := 0 } 0)
        (World.start (fun _ => true) (constBus 0 refBlock))).2.1.calib
      = calibFromBlock (fun i => refBlock i % 256) :=
  C5_calibration_decoders (fun i => refBlock i % 256) refDev 0 0x76 (some 1)
    (World.start (fun _ => true) (goodBus refBlock)) (devOf { refCalib with dig_T1 := 0 } 0)
    (World.start (fun _ => true) (constBus 0 refBlock))
    (fun _ _ => rfl) (by decide) (by decide) (by decide) (by decide) (fun _ => rfl)
    (by decide) (fun _ => rfl)

/-! ## Measurement pipeline lemmas -/

/-- The prior carry value does not influence the temperature compensation -/
theorem compensate_temperature_carry (d : bmp280_dev_t) (t0 adc_T : Int) :
    bmp280_compensate_temperature { d with t_fine := t0 } adc_T
      = bmp280_compensate_temperature d adc_T := rfl

/-- Temperature compensation reads only the calibration -/
theorem compensate_temperature_calib (d1 d2 : bmp280_dev_t) (adc_T : Int)
    (hc : d1.calib = d2.calib) :
    (bmp280_compensate_temperature d1 adc_T).1 = (bmp280_compensate_temperature d2 adc_T).1 ∧
    (bmp280_compensate_temperature d1 adc_T).2.t_fine
      = (bmp280_compensate_temperature d2 adc_T).2.t_fine ∧
    (bmp280_compensate_temperature d1 adc_T).2.calib = d1.calib := by
  unfold bmp280_compensate_temperature
  simp only [hc]
  exact ⟨trivial, trivial, trivial⟩

/-- Pressure compensation reads only the calibration and the carry value -/
theorem compensate_pressure_reads (d1 d2 : bmp280_dev_t) (adc_P : Int)
    (hc : d1.calib = d2.calib) (ht : d1.t_fine = d2.t_fine) :
    bmp280_compensate_pressure d1 adc_P = bmp280_compensate_pressure d2 adc_P := by
  unfold bmp280_compensate_pressure
  rw [hc, ht]

/-- The register transport does not read the carry value -/
theorem read_raw_carry (d : bmp280_dev_t) (t0 : Int) (rt rp : Bool) (w : World) :
    bmp280_read_raw (some { d with t_fine := t0 }) rt rp w
      = bmp280_read_raw (some d) rt rp w := rfl

/-- What a successful `bmp280_read_data` stores and leaves in the handle -/
theorem read_data_ok (d : bmp280_dev_t) (tp pp : Bool) (w : World)
    (h : (bmp280_read_data (some d) tp pp w).ret = ESP_OK) :
    (bmp280_read_data (some d) tp pp w).temperature
      = some (bmp280_compensate_temperature d (burstTemp (nextBytes w))).1 ∧
    (bmp280_read_data (some d) tp pp w).pressure
      = some (bmp280_compensate_pressure
          (bmp280_compensate_temperature d (burstTemp (nextBytes w))).2
          (burstPress (nextBytes w))) ∧
    (bmp280_read_data (some d) tp pp w).dev
      = some (bmp280_compensate_temperature d (burstTemp (nextBytes w))).2 := by
  unfold bmp280_read_data at h ⊢
  simp only at h ⊢
  by_cases hp : tp = false ∨ pp = false
  · simp only [hp, if_true] at h
    exact absurd h esp_invalid_arg_ne_ok
  · simp only [hp, if_false] at h ⊢
    by_cases hr : (bmp280_read_raw (some d) true true w).ret = ESP_OK
    · obtain ⟨hP, hT⟩ := read_raw_ok (some d) true true w hr
      simp only [hr, ne_eq, not_true_eq_false, if_false, hP, hT, Option.getD_some]
      exact ⟨rfl, rfl, rfl⟩
    · simp only [ne_eq, hr, not_false_eq_true, if_true] at h

/-- What a successful `bmp280_read_pressure` stores and leaves in the handle -/
theorem read_pressure_ok (d : bmp280_dev_t) (pp : Bool) (w : World)
    (h : (bmp280_read_pressure (some d) pp w).ret = ESP_OK) :
    (bmp280_read_pressure (some d) pp w).pressure
      = some (bmp280_compensate_pressure
          (bmp280_compensate_temperature d (burstTemp (nextBytes w))).2
          (burstPress (nextBytes w))) ∧
    (bmp280_read_pressure (some d) pp w).dev
      = some (bmp280_compensate_temperature d (burstTemp (nextBytes w))).2 ∧
    (bmp280_read_raw (some d) true true w).ret = ESP_OK := by
  have tf : ¬ (true = false) := by decide
  cases pp with
  | false => exact absurd h esp_invalid_arg_ne_ok
  | true =>
    unfold bmp280_read_pressure at h ⊢
    simp only [if_neg tf] at h ⊢
    by_cases hr : (bmp280_read_raw (some d) true true w).ret = ESP_OK
    · obtain ⟨hP, hT⟩ := read_raw_ok (some d) true true w hr
      simp only [hr, ne_eq, not_true_eq_false, if_false, hP, hT, Option.getD_some]
      exact ⟨rfl, rfl, trivial⟩
    · simp only [ne_eq, hr, not_false_eq_true, if_true] at h

/-- The status of `bmp280_read_data` does not depend on the prior carry -/
theorem read_data_carry_ret (d : bmp280_dev_t) (t0 : Int) (tp pp : Bool) (w : World) :
    (bmp280_read_data (some { d with t_fine := t0 }) tp pp w).ret
      = (bmp280_read_data (some d) tp pp w).ret := by
  unfold bmp280_read_data
  simp only [read_raw_carry]
  split_ifs <;> rfl

/-- The status of `bmp280_read_pressure` does not depend on the prior carry -/
theorem read_pressure_carry_ret (d : bmp280_dev_t) (t0 : Int) (pp : Bool) (w : World) :
    (bmp280_read_pressure (some { d with t_fine := t0 }) pp w).ret
      = (bmp280_read_pressure (some d) pp w).ret := by
  unfold bmp280_read_pressure
  simp only [read_raw_carry]
  split_ifs <;> rfl

theorem burst_congr (b1 b2 : Nat → Nat) (hb : ∀ i, i < 6 → b1 i = b2 i) :
    burstTemp b1 = burstTemp b2 ∧ burstPress b1 = burstPress b2 := by
  unfold burstTemp burstPress
  rw [hb 0 (by decide), hb 1 (by decide), hb 2 (by decide), hb 3 (by decide),
    hb 4 (by decide), hb 5 (by decide)]
  exact ⟨rfl, rfl⟩

/-! ## C6 -/

/-- C6: for every calibration and every successful 6-byte burst response,
the temperature, the pressure and the final `t_fine` produced by
`bmp280_read_data` are a function of the calibration and those six bytes
only: two successful calls with the same calibration and the same six bytes
give the same three values; a handle that differs only in its prior `t_fine`
gives the same status, temperature, pressure and final handle; and the
pressure is the one computed with the `t_fine` that the temperature
compensation of that same sample produced. -/
theorem C6_read_data_coherent (d1 d2 : bmp280_dev_t) (tp1 pp1 tp2 pp2 : Bool)
    (w1 w2 : World)
    (hc : d1.calib = d2.calib)
    (ok1 : (bmp280_read_data (some d1) tp1 pp1 w1).ret = ESP_OK)
    (ok2 : (bmp280_read_data (some d2) tp2 pp2 w2).ret = ESP_OK)
    (hb : ∀ i, i < 6 → nextBytes w1 i = nextBytes w2 i) :
    ((bmp280_read_data (some d1) tp1 pp1 w1).temperature
        = (bmp280_read_data (some d2) tp2 pp2 w2).temperature ∧
     (bmp280_read_data (some d1) tp1 pp1 w1).pressure
        = (bmp280_read_data (some d2) tp2 pp2 w2).pressure ∧
     (bmp280_read_data (some d1) tp1 pp1 w1).dev.map (fun d => d.t_fine)
        = (bmp280_read_data (some d2) tp2 pp2 w2).dev.map (fun d => d.t_fine)) ∧
    (∀ t0 : Int,
      (bmp280_read_data (some { d1 with t_fine := t0 }) tp1 pp1 w1).ret = ESP_OK ∧
      (bmp280_read_data (some { d1 with t_fine := t0 }) tp1 pp1 w1).temperature
        = (bmp280_read_data (some d1) tp1 pp1 w1).temperature ∧
      (bmp280_read_data (some { d1 with t_fine := t0 }) tp1 pp1 w1).pressure
        = (bmp280_read_data (some d1) tp1 pp1 w1).pressure ∧
      (bmp280_read_data (some { d1 with t_fine := t0 }) tp1 pp1 w1).dev
        = (bmp280_read_data (some d1) tp1 pp1 w1).dev) ∧
    (bmp280_read_data (some d1) tp1 pp1 w1).pressure
      = some (bmp280_compensate_pressure
          { d1 with t_fine :=
              (bmp280_compensate_temperature d1 (burstTemp (nextBytes w1))).2.t_fine }
          (burstPress (nextBytes w1))) := by
  obtain ⟨hT1, hP1, hD1⟩ := read_data_ok d1 tp1 pp1 w1 ok1
  obtain ⟨hT2, hP2, hD2⟩ := read_data_ok d2 tp2 pp2 w2 ok2
  obtain ⟨bT, bP⟩ := burst_congr _ _ hb
  obtain ⟨cT, cF, cC⟩ := compensate_temperature_calib d1 d2 (burstTemp (nextBytes w2)) hc
  have cC2 := (compensate_temperature_calib d2 d2 (burstTemp (nextBytes w2)) rfl).2.2
  refine ⟨⟨?_, ?_, ?_⟩, ?_, ?_⟩
  · rw [hT1, hT2, bT, cT]
  · rw [hP1, hP2, bT, bP]
    exact congrArg some (compensate_pressure_reads _ _ _ (by rw [cC, cC2, hc]) cF)
  · rw [hD1, hD2, bT]
    exact congrArg some cF
  · intro t0
    have ok0 : (bmp280_read_data (some { d1 with t_fine := t0 }) tp1 pp1 w1).ret = ESP_OK := by
      rw [read_data_carry_ret]; exact ok1
    obtain ⟨hT0, hP0, hD0⟩ := read_data_ok { d1 with t_fine := t0 } tp1 pp1 w1 ok0
    exact ⟨ok0, hT0.trans hT1.symm, hP0.trans hP1.symm, hD0.trans hD1.symm⟩
  · rw [hP1]
    rfl

/-- C6 witness: two handles with the reference calibration and different
prior carry values read the reference burst -/
theorem C6_read_data_coherent_witness :
    (bmp280_read_data (some (devOf refCalib 0)) true true
        (World.start (fun _ => true) (constBus 0 refBurst))).pressure
      = (bmp280_read_data (some (devOf refCalib 99999)) true true
          (World.start (fun _ => false) (constBus 0 refBurst))).pressure :=
  (C6_read_data_coherent (devOf refCalib 0) (devOf refCalib 99999) true true true true
    (World.start (fun _ => true) (constBus 0 refBurst))
    (World.start (fun _ => false) (constBus 0 refBurst))
    rfl (by decide) (by decide) (fun _ _ => rfl)).1.2.1

theorem read_data_ret_of_raw (d : bmp280_dev_t) (w : World)
    (h : (bmp280_read_raw (some d) true true w).ret = ESP_OK) :
    (bmp280_read_data (some d) true true w).ret = ESP_OK := by
  have tf : ¬ (true = false ∨ true = false) := by decide
  unfold bmp280_read_data
  simp only [if_neg tf, h, ne_eq, not_true_eq_false, if_false]

/-! ## C7 -/

/-- C7: for every handle state and every successful burst response,
`bmp280_read_pressure` runs the temperature compensation on that sample
before the pressure compensation: the pressure it returns equals the pressure
`bmp280_read_data` returns for the same handle state and the same six bytes,
whatever `t_fine` the handle held before, and afterwards the handle's
`t_fine` is the value the temperature compensation gives for that sample's
raw temperature. -/
theorem C7_read_pressure_fresh (d : bmp280_dev_t) (pp : Bool) (w : World)
    (ok : (bmp280_read_pressure (some d) pp w).ret = ESP_OK) :
    (bmp280_read_pressure (some d) pp w).pressure
      = some (bmp280_compensate_pressure
          (bmp280_compensate_temperature d (burstTemp (nextBytes w))).2
          (burstPress (nextBytes w))) ∧
    ((bmp280_read_data (some d) true true w).ret = ESP_OK ∧
     (bmp280_read_data (some d) true true w).pressure
        = (bmp280_read_pressure (some d) pp w).pressure) ∧
    (∀ (tp2 pp2 : Bool) (w2 : World),
      (bmp280_read_data (some d) tp2 pp2 w2).ret = ESP_OK →
      (∀ i, i < 6 → nextBytes w2 i = nextBytes w i) →
      (bmp280_read_data (some d) tp2 pp2 w2).pressure
        = (bmp280_read_pressure (some d) pp w).pressure) ∧
    (∀ t0 : Int,
      (bmp280_read_pressure (some { d with t_fine := t0 }) pp w).ret = ESP_OK ∧
      (bmp280_read_pressure (some { d with t_fine := t0 }) pp w).pressure
        = (bmp280_read_pressure (some d) pp w).pressure) ∧
    (bmp280_read_pressure (some d) pp w).dev.map (fun x => x.t_fine)
      = some (bmp280_compensate_temperature d (burstTemp (nextBytes w))).2.t_fine := by
  obtain ⟨hP, hD, hraw⟩ := read_pressure_ok d pp w ok
  have okd := read_data_ret_of_raw d w hraw
  refine ⟨hP, ⟨okd, ?_⟩, ?_, ?_, ?_⟩
  · rw [hP, (read_data_ok d true true w okd).2.1]
  · intro tp2 pp2 w2 ok2 hb
    obtain ⟨bT, bP⟩ := burst_congr _ _ hb
    rw [hP, (read_data_ok d tp2 pp2 w2 ok2).2.1, bT, bP]
  · intro t0
    have ok0 : (bmp280_read_pressure (some { d with t_fine := t0 }) pp w).ret = ESP_OK := by
      rw [read_pressure_carry_ret]; exact ok
    exact ⟨ok0, (read_pressure_ok { d with t_fine := t0 } pp w ok0).1.trans hP.symm⟩
  · rw [hD]
    rfl

/-- C7 witness: a handle with a stale carry value reads the reference burst -/
theorem C7_read_pressure_fresh_witness :
    (bmp280_read_pressure (some (devOf refCalib 99999)) true
        (World.start (fun _ => true) (constBus 0 refBurst))).ret = ESP_OK ∧
    (bmp280_read_pressure (some (devOf refCalib 99999)) true
        (World.start (fun _ => true) (constBus 0 refBurst))).pressure = some (some 25767233) ∧
    (bmp280_read_pressure (some (devOf refCalib 99999)) true
        (World.start (fun _ => true) (constBus 0 refBurst))).dev.map (fun x => x.t_fine)
      = some 128422 :=
  ⟨by decide,
   (C7_read_pressure_fresh (devOf refCalib 99999) true
      (World.start (fun _ => true) (constBus 0 refBurst)) (by decide)).1.trans (by decide),
   (C7_read_pressure_fresh (devOf refCalib 99999) true
      (World.start (fun _ => true) (constBus 0 refBurst)) (by decide)).2.2.2.2.trans
      (by decide)⟩

/-! ## Environment lemmas -/

theorem take_proj (m ms : Nat) (w : World) :
    (xSemaphoreTake m ms w).1 = w.takeResult w.takes ∧
    (xSemaphoreTake m ms w).2.takeResult = w.takeResult ∧
    (xSemaphoreTake m ms w).2.i2c = w.i2c ∧
    (xSemaphoreTake m ms w).2.takes = w.takes + 1 ∧
    (xSemaphoreTake m ms w).2.txns = w.txns ∧
    (xSemaphoreTake m ms w).2.held
      = (if w.takeResult w.takes then Function.update w.held m true else w.held) ∧
    (xSemaphoreTake m ms w).2.trace = w.trace ++ [Event.take m ms (w.takeResult w.takes)] :=
  ⟨rfl, rfl, rfl, rfl, rfl, rfl, rfl⟩

theorem give_proj (m : Nat) (w : World) :
    (xSemaphoreGive m w).takeResult = w.takeResult ∧
    (xSemaphoreGive m w).i2c = w.i2c ∧
    (xSemaphoreGive m w).takes = w.takes ∧
    (xSemaphoreGive m w).txns = w.txns ∧
    (xSemaphoreGive m w).held = Function.update w.held m false ∧
    (xSemaphoreGive m w).trace = w.trace ++ [Event.give m] :=
  ⟨rfl, rfl, rfl, rfl, rfl, rfl⟩

theorem delay_proj (ms : Nat) (w : World) :
    (vTaskDelay ms w).takeResult = w.takeResult ∧
    (vTaskDelay ms w).i2c = w.i2c ∧
    (vTaskDelay ms w).takes = w.takes ∧
    (vTaskDelay ms w).txns = w.txns ∧
    (vTaskDelay ms w).held = w.held ∧
    (vTaskDelay ms w).trace = w.trace ++ [Event.delay ms] :=
  ⟨rfl, rfl, rfl, rfl, rfl, rfl⟩

theorem write_reg_internal_proj (dev : bmp280_dev_t) (reg data : Nat) (w : World) :
    (bmp280_write_reg_internal dev reg data w).1 = (w.i2c w.txns).status ∧
    (bmp280_write_reg_internal dev reg data w).2.takeResult = w.takeResult ∧
    (bmp280_write_reg_internal dev reg data w).2.i2c = w.i2c ∧
    (bmp280_write_reg_internal dev reg data w).2.takes = w.takes ∧
    (bmp280_write_reg_internal dev reg data w).2.txns = w.txns + 1 ∧
    (bmp280_write_reg_internal dev reg data w).2.held = w.held ∧
    (bmp280_write_reg_internal dev reg data w).2.trace
      = w.trace ++ [Event.write dev.i2c_port dev.i2c_addr [reg, data] BMP280_I2C_TIMEOUT_MS] :=
  ⟨rfl, rfl, rfl, rfl, rfl, rfl, rfl⟩

theorem read_reg_internal_proj (dev : bmp280_dev_t) (reg len : Nat) (w : World) :
    (bmp280_read_reg_internal dev reg len w).ret = (w.i2c w.txns).status ∧
    (bmp280_read_reg_internal dev reg len w).data = nextBytes w ∧
    (bmp280_read_reg_internal dev reg len w).world.takeResult = w.takeResult ∧
    (bmp280_read_reg_internal dev reg len w).world.i2c = w.i2c ∧
    (bmp280_read_reg_internal dev reg len w).world.takes = w.takes ∧
    (bmp280_read_reg_internal dev reg len w).world.txns = w.txns + 1 ∧
    (bmp280_read_reg_internal dev reg len w).world.held = w.held ∧
    (bmp280_read_reg_internal dev reg len w).world.trace
      = w.trace ++ [Event.writeRead dev.i2c_port dev.i2c_addr reg len BMP280_I2C_TIMEOUT_MS] :=
  ⟨rfl, rfl, rfl, rfl, rfl, rfl, rfl, rfl⟩

/-! ## C8 -/

/-- The bring-up sequence changes no handle field except the calibration -/
theorem init_sequence_frame (dev : bmp280_dev_t) (w : World) :
    ∃ c, (bmp280_init_sequence dev w).2.1 = { dev with calib := c } := by
  simp only [bmp280_init_sequence, write_reg_internal_proj, read_reg_internal_proj,
    delay_proj]
  split_ifs <;> exact ⟨_, rfl⟩

/-- The bring-up sequence does not write the carry value -/
theorem init_sequence_t_fine (dev : bmp280_dev_t) (w : World) :
    (bmp280_init_sequence dev w).2.1.t_fine = dev.t_fine := by
  obtain ⟨c, hc⟩ := init_sequence_frame dev w
  rw [hc]

/-- The source function is its three pieces around the guard and the
division -/
theorem compensate_pressure_pieces (dev : bmp280_dev_t) (adc_P : Int) :
    bmp280_compensate_pressure dev adc_P
      = if pressure_guard_var1 dev = 0 then some 0
        else (sdiv64 (pressure_dividend dev adc_P) (pressure_guard_var1 dev)).map
               (pressure_finish dev) := by
  unfold bmp280_compensate_pressure pressure_guard_var1 pressure_dividend pressure_finish
  simp only
  split_ifs with h
  · rfl
  · cases sdiv64 _ _ <;> rfl

/-- C8: every call of `bmp280_init` with a non-null handle leaves the
handle's `t_fine` equal to 0 when it returns, whatever the bus and lock do;
hence `bmp280_compensate_pressure` applied to the freshly initialised handle
computes its result from a zero carry, with `v = 0 - 128000 = -128000` in
step 1: for every raw pressure for which no 64-bit intermediate overflows
its result is the stated formula at carry value 0 (the guard result 0 when
the guard value `D` at carry value 0 is zero), whose divisor and dividend
are built from `v = -128000`. -/
theorem C8_init_zero_carry (dev : bmp280_dev_t) (i2c_port : Int) (i2c_addr : Nat)
    (i2c_mutex : Option Nat) (w : World) :
    ∃ d, (bmp280_init (some dev) i2c_port i2c_addr i2c_mutex w).2.1 = some d ∧
      d.t_fine = 0 ∧
      sub64 d.t_fine 128000 = -128000 ∧
      pressV d.t_fine = -128000 ∧
      (∀ adc_P, bmp280_compensate_pressure d adc_P
        = bmp280_compensate_pressure { d with t_fine := 0 } adc_P) ∧
      (∀ adc_P, 0 ≤ adc_P → adc_P < 2^20 → PressNoOverflow64 d.calib 0 adc_P →
        pressure_guard_var1 d = pressD d.calib 0 ∧
        pressD d.calib 0
          = Int.fdiv ((2^47 + (Int.fdiv ((-128000) * (-128000) * d.calib.dig_P3) (2^8)
              + ((-128000) * d.calib.dig_P2) * 2^12)) * d.calib.dig_P1) (2^33) ∧
        (pressD d.calib 0 = 0 → bmp280_compensate_pressure d adc_P = some 0) ∧
        (pressD d.calib 0 ≠ 0 →
          bmp280_compensate_pressure d adc_P = some (pressureFormula d.calib 0 adc_P))) := by
  have key : ∃ d, (bmp280_init (some dev) i2c_port i2c_addr i2c_mutex w).2.1 = some d ∧
      d.t_fine = 0 := by
    unfold bmp280_init
    cases i2c_mutex with
    | none =>
      refine ⟨_, rfl, ?_⟩
      rw [init_cleanup_dev, init_sequence_t_fine]
    | some m =>
      by_cases ht : (xSemaphoreTake m 500 w).1 = true
      · simp only [ht, if_true]
        refine ⟨_, rfl, ?_⟩
        rw [init_cleanup_dev, init_sequence_t_fine]
      · simp only [ht]
        exact ⟨_, rfl, rfl⟩
  obtain ⟨d, hd, ht⟩ := key
  refine ⟨d, hd, ht, ?_, ?_, ?_, ?_⟩
  · rw [ht]; decide
  · rw [ht]; decide
  · intro adc_P
    exact compensate_pressure_reads _ _ _ rfl ht
  · intro adc_P h0 h1 hno
    have h32 : InInt32 (2^20 - adc_P) := by
      unfold InInt32
      omega
    have hno' : PressNoOverflow64 d.calib d.t_fine adc_P := by rw [ht]; exact hno
    obtain ⟨g1, g2, -⟩ := compensate_pressure_run d adc_P hno' h32
    rw [ht] at g1 g2
    refine ⟨g1, rfl, ?_, g2⟩
    intro hz
    rw [compensate_pressure_pieces, g1, if_pos hz]

/-- C8 witness: after a successful bring-up on the reference bus the handle
holds the reference calibration and a zero carry, and the pressure for the
raw value 415148 is the formula at carry value 0 -/
theorem C8_init_zero_carry_witness :
    ∃ d, (bmp280_init (some zeroDev) 0 0x76 none
        (World.start (fun _ => true) (goodBus refBlock))).2.1 = some d ∧
      d.t_fine = 0 ∧ d.calib = refCalib ∧
      PressNoOverflow64 d.calib 0 415148 ∧ pressD d.calib 0 ≠ 0 ∧
      bmp280_compensate_pressure d 415148 = some (pressureFormula refCalib 0 415148) := by
  obtain ⟨d, hd, ht, -, -, -, hf⟩ := C8_init_zero_carry zeroDev 0 0x76 none
    (World.start (fun _ => true) (goodBus refBlock))
  have hd0 : (bmp280_init (some zeroDev) 0 0x76 none
      (World.start (fun _ => true) (goodBus refBlock))).2.1 = some (devOf refCalib 0) := by
    decide
  have e : d = devOf refCalib 0 := Option.some.inj (hd.symm.trans hd0)
  subst e
  exact ⟨devOf refCalib 0, hd0, rfl, rfl, by decide, by decide,
    (hf 415148 (by decide) (by decide) (by decide)).2.2.2 (by decide)⟩

/-! ## C9 -/

/-- C9: `bmp280_compensate_pressure` never divides by zero.  Its only
division is `pressure_dividend / pressure_guard_var1`, performed only when
the step-4 value `pressure_guard_var1` is non-zero, and then it has a result;
when that value is 0 the function returns 0; so the function always returns
a value, and for every calibration with `dig_P1 = 0` the result is 0 for all
`t_fine` and `adc_P`. -/
theorem C9_no_division_by_zero (dev : bmp280_dev_t) (adc_P : Int) :
    (bmp280_compensate_pressure dev adc_P
      = if pressure_guard_var1 dev = 0 then some 0
        else (sdiv64 (pressure_dividend dev adc_P) (pressure_guard_var1 dev)).map
               (pressure_finish dev)) ∧
    (∃ p, bmp280_compensate_pressure dev adc_P = some p) ∧
    (pressure_guard_var1 dev = 0 → bmp280_compensate_pressure dev adc_P = some 0) ∧
    (pressure_guard_var1 dev ≠ 0 →
      ∃ q, sdiv64 (pressure_dividend dev adc_P) (pressure_guard_var1 dev) = some q) ∧
    (dev.calib.dig_P1 = 0 → bmp280_compensate_pressure dev adc_P = some 0) := by
  have hp := compensate_pressure_pieces dev adc_P
  have hq : pressure_guard_var1 dev ≠ 0 →
      ∃ q, sdiv64 (pressure_dividend dev adc_P) (pressure_guard_var1 dev) = some q := by
    intro h
    unfold sdiv64
    rw [if_neg h]
    exact ⟨_, rfl⟩
  have hz : pressure_guard_var1 dev = 0 → bmp280_compensate_pressure dev adc_P = some 0 := by
    intro h
    rw [hp, if_pos h]
  refine ⟨hp, ?_, hz, hq, ?_⟩
  · by_cases h : pressure_guard_var1 dev = 0
    · exact ⟨0, hz h⟩
    · obtain ⟨q, hq'⟩ := hq h
      exact ⟨pressure_finish dev q, by rw [hp, if_neg h, hq']; rfl⟩
  · intro h1
    apply hz
    unfold pressure_guard_var1 mul64
    simp only [h1, mul_zero]
    decide

/-- C9 witness: with `dig_P1 = 0` the guard value is 0 and the result is 0 -/
theorem C9_no_division_by_zero_witness :
    pressure_guard_var1 (devOf { refCalib with dig_P1 := 0 } 128422) = 0 ∧
    bmp280_compensate_pressure (devOf { refCalib with dig_P1 := 0 } 128422) 415148 = some 0 :=
  ⟨by decide,
   (C9_no_division_by_zero (devOf { refCalib with dig_P1 := 0 } 128422) 415148).2.2.2.2 rfl⟩

/-! ## C10 -/

/-- On an identity mismatch the bring-up sequence stops after the identity
read with `ESP_ERR_NOT_FOUND` -/
theorem init_sequence_mismatch (dev : bmp280_dev_t) (w : World)
    (h0 : (w.i2c w.txns).status = ESP_OK)
    (hid : nextBytes w 0 ≠ BMP280_CHIP_ID) :
    bmp280_init_sequence dev w
      = (ESP_ERR_NOT_FOUND, dev, (bmp280_read_reg_internal dev BMP280_REG_ID 1 w).world) := by
  have hid' : ¬ (nextBytes w 0 = BMP280_CHIP_ID) := hid
  simp only [bmp280_init_sequence, read_reg_internal_proj, h0, hid', ne_eq,
    not_true_eq_false, not_false_eq_true, if_true, if_false]

/-- C10: for every identity byte `c ≠ 0x58` returned by a successful read of
register `0xD0`, `bmp280_init` returns `ESP_ERR_NOT_FOUND`, and if the handle
carries a lock that init acquired, that lock is free again when init returns.
The calls made are exactly: the take (if any), the one-byte read of `0xD0`,
the give (if any). -/
theorem C10_init_id_mismatch (dev : bmp280_dev_t) (i2c_port : Int) (i2c_addr : Nat)
    (i2c_mutex : Option Nat) (w : World)
    (hl : ∀ m, i2c_mutex = some m → w.takeResult w.takes = true)
    (h0 : (w.i2c w.txns).status = ESP_OK)
    (hid : nextBytes w 0 ≠ 0x58) :
    (bmp280_init (some dev) i2c_port i2c_addr i2c_mutex w).1 = ESP_ERR_NOT_FOUND ∧
    (∀ m, i2c_mutex = some m →
      (bmp280_init (some dev) i2c_port i2c_addr i2c_mutex w).2.2.held m = false) ∧
    (bmp280_init (some dev) i2c_port i2c_addr i2c_mutex w).2.2.trace
      = w.trace ++
        (match i2c_mutex with
         | none => [Event.writeRead i2c_port i2c_addr 0xD0 1 1000]
         | some m => [Event.take m 500 true, Event.writeRead i2c_port i2c_addr 0xD0 1 1000,
                      Event.give m]) := by
  cases i2c_mutex with
  | none =>
    have hs := init_sequence_mismatch
      { dev with i2c_port := i2c_port, i2c_addr := i2c_addr, i2c_mutex := none, t_fine := 0 }
      w h0 hid
    unfold bmp280_init
    simp only [hs, bmp280_init_cleanup, read_reg_internal_proj]
    refine ⟨trivial, ?_, rfl⟩
    intro m hm
    cases hm
  | some m =>
    have ht : w.takeResult w.takes = true := hl m rfl
    have hs := init_sequence_mismatch
      { dev with i2c_port := i2c_port, i2c_addr := i2c_addr, i2c_mutex := some m, t_fine := 0 }
      (xSemaphoreTake m 500 w).2 h0 hid
    unfold bmp280_init
    simp only [take_proj, ht, if_true, hs, bmp280_init_cleanup, give_proj,
      read_reg_internal_proj, List.append_assoc, List.singleton_append]
    refine ⟨trivial, ?_, rfl⟩
    intro m' hm
    cases hm
    exact Function.update_same _ _ _

/-- C10 witness: a device answering `0x60` on a bus guarded by lock 1 -/
theorem C10_init_id_mismatch_witness :
    (bmp280_init (some refDev) 0 0x76 (some 1)
        (World.start (fun _ => true) wrongIdBus)).1 = ESP_ERR_NOT_FOUND ∧
    (bmp280_init (some refDev) 0 0x76 (some 1)
        (World.start (fun _ => true) wrongIdBus)).2.2.held 1 = false :=
  ⟨(C10_init_id_mismatch refDev 0 0x76 (some 1) (World.start (fun _ => true) wrongIdBus)
      (fun _ _ => rfl) (by decide) (by decide)).1,
   (C10_init_id_mismatch refDev 0 0x76 (some 1) (World.start (fun _ => true) wrongIdBus)
      (fun _ _ => rfl) (by decide) (by decide)).2.1 1 rfl⟩

/-! ## C19 -/

/-- C19: every public driver operation called with a null handle or a null
required output pointer returns `ESP_ERR_INVALID_ARG` before taking the lock
or touching the bus (the world is unchanged, nothing is stored) and without
changing any handle field. -/
theorem C19_null_arguments (i2c_port : Int) (i2c_addr : Nat)
    (i2c_mutex : Option Nat) (osrs_t osrs_p mode t_sb filter : Nat) (a b : Bool)
    (w : World) :
    bmp280_init none i2c_port i2c_addr i2c_mutex w = (ESP_ERR_INVALID_ARG, none, w) ∧
    bmp280_config none osrs_t osrs_p mode t_sb filter w = (ESP_ERR_INVALID_ARG, w) ∧
    (∀ dev : Option bmp280_dev_t, dev = none ∨ a = false ∨ b = false →
      (bmp280_read_raw dev a b w).ret = ESP_ERR_INVALID_ARG ∧
      (bmp280_read_raw dev a b w).raw_temp = none ∧
      (bmp280_read_raw dev a b w).raw_press = none ∧
      (bmp280_read_raw dev a b w).world = w) ∧
    (∀ dev : Option bmp280_dev_t, dev = none ∨ a = false →
      (bmp280_read_temperature dev a w).ret = ESP_ERR_INVALID_ARG ∧
      (bmp280_read_temperature dev a w).temperature = none ∧
      (bmp280_read_temperature dev a w).dev = dev ∧
      (bmp280_read_temperature dev a w).world = w) ∧
    (∀ dev : Option bmp280_dev_t, dev = none ∨ a = false →
      (bmp280_read_pressure dev a w).ret = ESP_ERR_INVALID_ARG ∧
      (bmp280_read_pressure dev a w).pressure = none ∧
      (bmp280_read_pressure dev a w).dev = dev ∧
      (bmp280_read_pressure dev a w).world = w) ∧
    (∀ dev : Option bmp280_dev_t, dev = none ∨ a = false ∨ b = false →
      (bmp280_read_data dev a b w).ret = ESP_ERR_INVALID_ARG ∧
      (bmp280_read_data dev a b w).temperature = none ∧
      (bmp280_read_data dev a b w).pressure = none ∧
      (bmp280_read_data dev a b w).dev = dev ∧
      (bmp280_read_data dev a b w).world = w) := by
  refine ⟨rfl, rfl, ?_, ?_, ?_, ?_⟩
  · intro dev h
    cases dev with
    | none => exact ⟨rfl, rfl, rfl, rfl⟩
    | some x =>
      have h' : a = false ∨ b = false := by
        rcases h with h | h | h
        · cases h
        · exact Or.inl h
        · exact Or.inr h
      unfold bmp280_read_raw
      simp only [h', if_true]
      exact ⟨trivial, trivial, trivial, trivial⟩
  · intro dev h
    cases dev with
    | none => exact ⟨rfl, rfl, rfl, rfl⟩
    | some x =>
      have h' : a = false := by
        rcases h with h | h
        · cases h
        · exact h
      subst h'
      exact ⟨rfl, rfl, rfl, rfl⟩
  · intro dev h
    cases dev with
    | none => exact ⟨rfl, rfl, rfl, rfl⟩
    | some x =>
      have h' : a = false := by
        rcases h with h | h
        · cases h
        · exact h
      subst h'
      exact ⟨rfl, rfl, rfl, rfl⟩
  · intro dev h
    cases dev with
    | none => exact ⟨rfl, rfl, rfl, rfl, rfl⟩
    | some x =>
      have h' : a = false ∨ b = false := by
        rcases h with h | h | h
        · cases h
        · exact Or.inl h
        · exact Or.inr h
      unfold bmp280_read_data
      simp only [h', if_true]
      exact ⟨trivial, trivial, trivial, trivial, trivial⟩

/-- C19 witness: `bmp280_read_data` with a null pressure pointer on a handle
whose bus would answer -/
theorem C19_null_arguments_witness :
    (bmp280_read_data (some refDev) true false
        (World.start (fun _ => true) (constBus 0 refBurst))).ret = ESP_ERR_INVALID_ARG ∧
    (bmp280_read_data (some refDev) true false
        (World.start (fun _ => true) (constBus 0 refBurst))).world.trace = [] :=
  ⟨((C19_null_arguments 0 0 none 0 0 0 0 0 true false
      (World.start (fun _ => true) (constBus 0 refBurst))).2.2.2.2.2
      (some refDev) (Or.inr (Or.inr rfl))).1,
   congrArg World.trace
     ((C19_null_arguments 0 0 none 0 0 0 0 0 true false
        (World.start (fun _ => true) (constBus 0 refBurst))).2.2.2.2.2
        (some refDev) (Or.inr (Or.inr rfl))).2.2.2.2⟩

/-! ## C14 -/

/-- A locked register read whose take fails returns `ESP_ERR_TIMEOUT` and
only records the failed take -/
theorem read_reg_take_fails (dev : bmp280_dev_t) (m reg len : Nat) (w : World)
    (hm : dev.i2c_mutex = some m) (ht : w.takeResult w.takes = false) :
    (bmp280_read_reg dev reg len w).ret = ESP_ERR_TIMEOUT ∧
    (bmp280_read_reg dev reg len w).world = (xSemaphoreTake m 200 w).2 := by
  unfold bmp280_read_reg
  simp only [hm, take_proj, ht, Bool.false_eq_true, if_false]
  exact ⟨trivial, trivial⟩

/-- A locked register write whose take fails returns `ESP_ERR_TIMEOUT` and
only records the failed take -/
theorem write_reg_take_fails (dev : bmp280_dev_t) (m reg data : Nat) (w : World)
    (hm : dev.i2c_mutex = some m) (ht : w.takeResult w.takes = false) :
    bmp280_write_reg dev reg data w = (ESP_ERR_TIMEOUT, (xSemaphoreTake m 200 w).2) := by
  unfold bmp280_write_reg
  simp only [hm, take_proj, ht, Bool.false_eq_true, if_false]

/-- `bmp280_read_raw` when the take fails -/
theorem read_raw_take_fails (dev : bmp280_dev_t) (m : Nat) (w : World)
    (hm : dev.i2c_mutex = some m) (ht : w.takeResult w.takes = false) :
    (bmp280_read_raw (some dev) true true w).ret = ESP_ERR_TIMEOUT ∧
    (bmp280_read_raw (some dev) true true w).world = (xSemaphoreTake m 200 w).2 := by
  have tf : ¬ (true = false ∨ true = false) := by decide
  obtain ⟨h1, h2⟩ := read_reg_take_fails dev m BMP280_REG_PRESS_MSB 6 w hm ht
  unfold bmp280_read_raw
  simp only [if_neg tf, h1, h2, ne_eq, esp_timeout_ne_ok, not_false_eq_true, if_true]
  exact ⟨trivial, trivial⟩

/-- C14: for every handle that carries a lock which cannot be obtained,
each locked operation (`bmp280_init`, `bmp280_config`, `bmp280_read_raw`,
`bmp280_read_temperature`, `bmp280_read_pressure`, `bmp280_read_data`)
returns `ESP_ERR_TIMEOUT` and performs no bus transaction at all: the only
call it makes is the failed take. -/
theorem C14_lock_timeout (dev : bmp280_dev_t) (m : Nat) (i2c_port : Int) (i2c_addr : Nat)
    (osrs_t osrs_p mode t_sb filter : Nat) (w : World)
    (ht : w.takeResult w.takes = false) :
    ((bmp280_init (some dev) i2c_port i2c_addr (some m) w).1 = ESP_ERR_TIMEOUT ∧
     (bmp280_init (some dev) i2c_port i2c_addr (some m) w).2.2.txns = w.txns ∧
     (bmp280_init (some dev) i2c_port i2c_addr (some m) w).2.2.trace
        = w.trace ++ [Event.take m 500 false]) ∧
    (dev.i2c_mutex = some m →
      ((bmp280_config (some dev) osrs_t osrs_p mode t_sb filter w).1 = ESP_ERR_TIMEOUT ∧
       (bmp280_config (some dev) osrs_t osrs_p mode t_sb filter w).2.txns = w.txns ∧
       (bmp280_config (some dev) osrs_t osrs_p mode t_sb filter w).2.trace
          = w.trace ++ [Event.take m 200 false]) ∧
      ((bmp280_read_raw (some dev) true true w).ret = ESP_ERR_TIMEOUT ∧
       (bmp280_read_raw (some dev) true true w).world.txns = w.txns ∧
       (bmp280_read_raw (some dev) true true w).world.trace
          = w.trace ++ [Event.take m 200 false]) ∧
      ((bmp280_read_temperature (some dev) true w).ret = ESP_ERR_TIMEOUT ∧
       (bmp280_read_temperature (some dev) true w).world.txns = w.txns ∧
       (bmp280_read_temperature (some dev) true w).world.trace
          = w.trace ++ [Event.take m 200 false]) ∧
      ((bmp280_read_pressure (some dev) true w).ret = ESP_ERR_TIMEOUT ∧
       (bmp280_read_pressure (some dev) true w).world.txns = w.txns ∧
       (bmp280_read_pressure (some dev) true w).world.trace
          = w.trace ++ [Event.take m 200 false]) ∧
      ((bmp280_read_data (some dev) true true w).ret = ESP_ERR_TIMEOUT ∧
       (bmp280_read_data (some dev) true true w).world.txns = w.txns ∧
       (bmp280_read_data (some dev) true true w).world.trace
          = w.trace ++ [Event.take m 200 false])) := by
  have tf : ¬ (true = false) := by decide
  have tf2 : ¬ (true = false ∨ true = false) := by decide
  constructor
  · unfold bmp280_init
    simp only [take_proj, ht, Bool.false_eq_true, if_false]
    exact ⟨trivial, trivial, trivial⟩
  · intro hm
    obtain ⟨r1, r2⟩ := read_raw_take_fails dev m w hm ht
    refine ⟨?_, ?_, ?_, ?_, ?_⟩
    · unfold bmp280_config
      simp only [write_reg_take_fails dev m _ _ w hm ht, ne_eq, esp_timeout_ne_ok,
        not_false_eq_true, if_true, take_proj, ht]
      exact ⟨trivial, trivial, trivial⟩
    · rw [r1, r2]
      simp only [take_proj, ht]
      exact ⟨trivial, trivial, trivial⟩
    · unfold bmp280_read_temperature
      simp only [if_neg tf, r1, r2, ne_eq, esp_timeout_ne_ok, not_false_eq_true, if_true,
        take_proj, ht]
      exact ⟨trivial, trivial, trivial⟩
    · unfold bmp280_read_pressure
      simp only [if_neg tf, r1, r2, ne_eq, esp_timeout_ne_ok, not_false_eq_true, if_true,
        take_proj, ht]
      exact ⟨trivial, trivial, trivial⟩
    · unfold bmp280_read_data
      simp only [if_neg tf2, r1, r2, ne_eq, esp_timeout_ne_ok, not_false_eq_true, if_true,
        take_proj, ht]
      exact ⟨trivial, trivial, trivial⟩

/-- C14 witness: lock 1 is never granted; `bmp280_read_data` on the handle
carrying it times out without a bus transaction -/
theorem C14_lock_timeout_witness :
    (bmp280_read_data (some lockedDev) true true
        (World.start (fun _ => false) (constBus 0 refBurst))).ret = ESP_ERR_TIMEOUT ∧
    (bmp280_read_data (some lockedDev) true true
        (World.start (fun _ => false) (constBus 0 refBurst))).world.trace
      = [Event.take 1 200 false] :=
  ⟨((C14_lock_timeout lockedDev 1 0 0x76 5 5 3 4 4
       (World.start (fun _ => false) (constBus 0 refBurst)) rfl).2 rfl).2.2.2.2.1,
   ((C14_lock_timeout lockedDev 1 0 0x76 5 5 3 4 4
       (World.start (fun _ => false) (constBus 0 refBurst)) rfl).2 rfl).2.2.2.2.2.2⟩

/-! ## C11 -/

/-- The bring-up sequence starts with the identity read, makes no take and
no give, and leaves the set of held locks as it was -/
theorem init_sequence_trace (dev : bmp280_dev_t) (w : World) :
    ∃ rest, (bmp280_init_sequence dev w).2.2.trace
        = w.trace ++ (Event.writeRead dev.i2c_port dev.i2c_addr BMP280_REG_ID 1
                        BMP280_I2C_TIMEOUT_MS :: rest) ∧
      (∀ e ∈ rest, e.isTake = false ∧ e.isGive = false) ∧
      (bmp280_init_sequence dev w).2.2.held = w.held := by
  simp only [bmp280_init_sequence, write_reg_internal_proj, read_reg_internal_proj,
    delay_proj]
  split_ifs
  all_goals
    simp only [write_reg_internal_proj, read_reg_internal_proj, delay_proj,
      List.append_assoc, List.singleton_append]
    refine ⟨_, rfl, ?_, trivial⟩
    simp [Event.isTake, Event.isGive]

/-- The bring-up sequence does not change the lock reference -/
theorem init_sequence_mutex (dev : bmp280_dev_t) (w : World) :
    (bmp280_init_sequence dev w).2.1.i2c_mutex = dev.i2c_mutex := by
  obtain ⟨c, hc⟩ := init_sequence_frame dev w
  rw [hc]

/-- With the lock taken, the code after the `cleanup` label gives it back -/
theorem init_cleanup_world (s : Int × bmp280_dev_t × World) (m : Nat)
    (hm : s.2.1.i2c_mutex = some m) :
    (bmp280_init_cleanup true s).2.2 = xSemaphoreGive m s.2.2 := by
  unfold bmp280_init_cleanup
  simp only [hm, if_true]

/-- Without a lock, the code after the `cleanup` label does nothing -/
theorem init_cleanup_none (t : Bool) (s : Int × bmp280_dev_t × World)
    (hm : s.2.1.i2c_mutex = none) :
    bmp280_init_cleanup t s = s := by
  unfold bmp280_init_cleanup
  simp only [hm]

/-- The world after `bmp280_init` on a handle with lock `m` whose take
succeeds: the bring-up sequence run after the take, then the give -/
theorem init_world_locked (dev : bmp280_dev_t) (i2c_port : Int) (i2c_addr : Nat) (m : Nat)
    (w : World) (ht : w.takeResult w.takes = true) :
    (bmp280_init (some dev) i2c_port i2c_addr (some m) w).2.2
      = xSemaphoreGive m
          (bmp280_init_sequence
            { dev with i2c_port := i2c_port, i2c_addr := i2c_addr, i2c_mutex := some m,
                       t_fine := 0 }
            (xSemaphoreTake m 500 w).2).2.2 ∧
    (bmp280_init (some dev) i2c_port i2c_addr (some m) w).1
      = (bmp280_init_sequence
            { dev with i2c_port := i2c_port, i2c_addr := i2c_addr, i2c_mutex := some m,
                       t_fine := 0 }
            (xSemaphoreTake m 500 w).2).1 := by
  unfold bmp280_init
  simp only [take_proj, ht, if_true]
  rw [init_cleanup_world _ m (by rw [init_sequence_mutex]), init_cleanup_ret]
  exact ⟨rfl, rfl⟩

/-- The world after `bmp280_init` without a lock -/
theorem init_world_unlocked (dev : bmp280_dev_t) (i2c_port : Int) (i2c_addr : Nat)
    (w : World) :
    (bmp280_init (some dev) i2c_port i2c_addr none w).2.2
      = (bmp280_init_sequence
            { dev with i2c_port := i2c_port, i2c_addr := i2c_addr, i2c_mutex := none,
                       t_fine := 0 } w).2.2 ∧
    (bmp280_init (some dev) i2c_port i2c_addr none w).1
      = (bmp280_init_sequence
            { dev with i2c_port := i2c_port, i2c_addr := i2c_addr, i2c_mutex := none,
                       t_fine := 0 } w).1 := by
  unfold bmp280_init
  simp only
  rw [init_cleanup_none _ _ (by rw [init_sequence_mutex])]
  exact ⟨rfl, rfl⟩

/-- C11: for every handle carrying a lock and every combination of bus
outcomes, `bmp280_init` takes the lock exactly once before its first bus
transaction, performs every bus transaction of the sequence while holding it
(no take and no give in between), and gives it back exactly once before
returning, on the success path and on every failure path; if the take fails
it gives nothing and touches no bus. -/
theorem C11_init_lock_discipline (dev : bmp280_dev_t) (i2c_port : Int) (i2c_addr : Nat)
    (m : Nat) (w : World) :
    (w.takeResult w.takes = true →
      ∃ rest,
        (bmp280_init (some dev) i2c_port i2c_addr (some m) w).2.2.trace
          = w.trace ++ (Event.take m 500 true ::
              Event.writeRead i2c_port i2c_addr 0xD0 1 1000 :: rest ++ [Event.give m]) ∧
        (∀ e ∈ rest, e.isTake = false ∧ e.isGive = false) ∧
        (Event.take m 500 true :: Event.writeRead i2c_port i2c_addr 0xD0 1 1000 ::
            rest ++ [Event.give m]).countP Event.isTake = 1 ∧
        (Event.take m 500 true :: Event.writeRead i2c_port i2c_addr 0xD0 1 1000 ::
            rest ++ [Event.give m]).countP Event.isGive = 1 ∧
        (bmp280_init (some dev) i2c_port i2c_addr (some m) w).2.2.held m = false) ∧
    (w.takeResult w.takes = false →
      (bmp280_init (some dev) i2c_port i2c_addr (some m) w).2.2.trace
        = w.trace ++ [Event.take m 500 false] ∧
      (bmp280_init (some dev) i2c_port i2c_addr (some m) w).2.2.held = w.held) := by
  constructor
  · intro ht
    obtain ⟨hw, -⟩ := init_world_locked dev i2c_port i2c_addr m w ht
    obtain ⟨rest, htr, hrest, -⟩ := init_sequence_trace
      { dev with i2c_port := i2c_port, i2c_addr := i2c_addr, i2c_mutex := some m, t_fine := 0 }
      (xSemaphoreTake m 500 w).2
    have hz1 : rest.countP Event.isTake = 0 :=
      List.countP_eq_zero.mpr (fun e he => by rw [(hrest e he).1]; decide)
    have hz2 : rest.countP Event.isGive = 0 :=
      List.countP_eq_zero.mpr (fun e he => by rw [(hrest e he).2]; decide)
    refine ⟨rest, ?_, hrest, ?_, ?_, ?_⟩
    · rw [hw]
      simp only [give_proj, htr, take_proj, ht, List.append_assoc, List.singleton_append,
        List.cons_append]
      rfl
    · simp [List.countP_cons, List.countP_append, hz1, Event.isTake]
    · simp [List.countP_cons, List.countP_append, hz2, Event.isGive]
    · rw [hw]
      simp only [give_proj]
      exact Function.update_same _ _ _
  · intro ht
    unfold bmp280_init
    simp only [take_proj, ht, Bool.false_eq_true, if_false]
    exact ⟨trivial, trivial⟩

/-- C11 witness: the calibration read fails; the lock is taken once, held
over the three bus transactions made, and given once -/
theorem C11_init_lock_discipline_witness :
    (bmp280_init (some refDev) 0 0x76 (some 1)
        (World.start (fun _ => true) (failingBus 2 ESP_FAIL refBlock))).2.2.trace
      = [Event.take 1 500 true, Event.writeRead 0 0x76 0xD0 1 1000,
         Event.write 0 0x76 [0xE0, 0xB6] 1000, Event.delay 50,
         Event.writeRead 0 0x76 0x88 24 1000, Event.give 1] ∧
    ∃ rest,
      (bmp280_init (some refDev) 0 0x76 (some 1)
          (World.start (fun _ => true) (failingBus 2 ESP_FAIL refBlock))).2.2.trace
        = [] ++ (Event.take 1 500 true ::
            Event.writeRead 0 0x76 0xD0 1 1000 :: rest ++ [Event.give 1]) :=
  ⟨by decide,
   ((C11_init_lock_discipline refDev 0 0x76 1
      (World.start (fun _ => true) (failingBus 2 ESP_FAIL refBlock))).1 rfl).imp
      (fun _ h => h.1)⟩

/-! ## C12 -/

/-- The byte `bmp280_init` writes to the configuration register -/
theorem init_config_val :
    (or32 (shl32 ((BMP280_STANDBY_500_MS : Nat) : Int) 5)
          (shl32 ((BMP280_FILTER_COEFF_16 : Nat) : Int) 2) % 256).toNat = 0x90 := by
  decide

/-- The byte `bmp280_init` writes to the mode register -/
theorem init_ctrl_meas_val :
    (or32 (or32 (shl32 ((BMP280_OVERSAMP_16X : Nat) : Int) 5)
                (shl32 ((BMP280_OVERSAMP_16X : Nat) : Int) 2))
          ((BMP280_NORMAL_MODE : Nat) : Int) % 256).toNat = 0xB7 := by
  decide

/-- The bring-up sequence when the identity matches and all five bus
transactions succeed -/
theorem init_sequence_success (dev : bmp280_dev_t) (w : World)
    (h0 : (w.i2c w.txns).status = ESP_OK)
    (hid : nextBytes w 0 = BMP280_CHIP_ID)
    (h1 : (w.i2c (w.txns + 1)).status = ESP_OK)
    (h2 : (w.i2c (w.txns + 2)).status = ESP_OK)
    (h3 : (w.i2c (w.txns + 3)).status = ESP_OK)
    (h4 : (w.i2c (w.txns + 4)).status = ESP_OK) :
    (bmp280_init_sequence dev w).1 = ESP_OK ∧
    (bmp280_init_sequence dev w).2.2.trace
      = w.trace ++
        [Event.writeRead dev.i2c_port dev.i2c_addr 0xD0 1 1000,
         Event.write dev.i2c_port dev.i2c_addr [0xE0, 0xB6] 1000,
         Event.delay 50,
         Event.writeRead dev.i2c_port dev.i2c_addr 0x88 24 1000,
         Event.write dev.i2c_port dev.i2c_addr [0xF5, 0x90] 1000,
         Event.write dev.i2c_port dev.i2c_addr [0xF4, 0xB7] 1000] ∧
    (bmp280_init_sequence dev w).2.2.txns = w.txns + 5 := by
  have h2' : (w.i2c (w.txns + 1 + 1)).status = ESP_OK := h2
  have h3' : (w.i2c (w.txns + 1 + 1 + 1)).status = ESP_OK := h3
  have h4' : (w.i2c (w.txns + 1 + 1 + 1 + 1)).status = ESP_OK := h4
  simp only [bmp280_init_sequence, write_reg_internal_proj, read_reg_internal_proj,
    delay_proj, h0, hid, h1, h2', h3', h4', ne_eq, not_true_eq_false, if_false,
    init_config_val, init_ctrl_meas_val, List.append_assoc, List.singleton_append]
  exact ⟨trivial, rfl, trivial⟩

/-- C12: when the lock (if any) is obtained, the identity register reads
`0x58` and every bus transaction succeeds, `bmp280_init` returns `ESP_OK`
and its bus transactions are exactly, in this order: read 1 byte at `0xD0`;
write `0xB6` to `0xE0`; (settle delay) read 24 bytes at `0x88`; write `0x90`
to `0xF5` (standby 4 in bits 7:5, filter 4 in bits 4:2); write `0xB7` to
`0xF4` (oversampling 5 in bits 7:5 and 4:2, mode 3 in bits 1:0). -/
theorem C12_init_success_sequence (dev : bmp280_dev_t) (i2c_port : Int) (i2c_addr : Nat)
    (i2c_mutex : Option Nat) (w : World)
    (hl : ∀ m, i2c_mutex = some m → w.takeResult w.takes = true)
    (h0 : (w.i2c w.txns).status = ESP_OK)
    (hid : nextBytes w 0 = 0x58)
    (h1 : (w.i2c (w.txns + 1)).status = ESP_OK)
    (h2 : (w.i2c (w.txns + 2)).status = ESP_OK)
    (h3 : (w.i2c (w.txns + 3)).status = ESP_OK)
    (h4 : (w.i2c (w.txns + 4)).status = ESP_OK) :
    (bmp280_init (some dev) i2c_port i2c_addr i2c_mutex w).1 = ESP_OK ∧
    (bmp280_init (some dev) i2c_port i2c_addr i2c_mutex w).2.2.trace
      = w.trace ++
        (match i2c_mutex with
         | none => initSuccessEvents i2c_port i2c_addr
         | some m => Event.take m 500 true :: initSuccessEvents i2c_port i2c_addr
                       ++ [Event.give m]) ∧
    (bmp280_init (some dev) i2c_port i2c_addr i2c_mutex w).2.2.txns = w.txns + 5 ∧
    (initSuccessEvents i2c_port i2c_addr).filter Event.isBus
      = [Event.writeRead i2c_port i2c_addr 0xD0 1 1000,
         Event.write i2c_port i2c_addr [0xE0, 0xB6] 1000,
         Event.writeRead i2c_port i2c_addr 0x88 24 1000,
         Event.write i2c_port i2c_addr [0xF5, 0x90] 1000,
         Event.write i2c_port i2c_addr [0xF4, 0xB7] 1000] ∧
    (0x90 = 4 * 32 + 4 * 4 ∧ 0xB7 = 5 * 32 + 5 * 4 + 3) := by
  refine ⟨?_, ?_, ?_, rfl, by decide⟩
  · cases i2c_mutex with
    | none =>
      rw [(init_world_unlocked dev i2c_port i2c_addr w).2]
      exact (init_sequence_success _ w h0 hid h1 h2 h3 h4).1
    | some m =>
      rw [(init_world_locked dev i2c_port i2c_addr m w (hl m rfl)).2]
      exact (init_sequence_success _ (xSemaphoreTake m 500 w).2 h0 hid h1 h2 h3 h4).1
  · cases i2c_mutex with
    | none =>
      rw [(init_world_unlocked dev i2c_port i2c_addr w).1]
      exact (init_sequence_success _ w h0 hid h1 h2 h3 h4).2.1
    | some m =>
      have ht := hl m rfl
      rw [(init_world_locked dev i2c_port i2c_addr m w ht).1]
      simp only [give_proj,
        (init_sequence_success _ (xSemaphoreTake m 500 w).2 h0 hid h1 h2 h3 h4).2.1,
        take_proj, ht, List.append_assoc, List.singleton_append, List.cons_append]
      rfl
  · cases i2c_mutex with
    | none =>
      rw [(init_world_unlocked dev i2c_port i2c_addr w).1]
      exact (init_sequence_success _ w h0 hid h1 h2 h3 h4).2.2
    | some m =>
      rw [(init_world_locked dev i2c_port i2c_addr m w (hl m rfl)).1]
      simp only [give_proj]
      exact (init_sequence_success _ (xSemaphoreTake m 500 w).2 h0 hid h1 h2 h3 h4).2.2

/-- C12 witness: a device that answers `0x58` on a bus where every
transaction succeeds, guarded by lock 1 -/
theorem C12_init_success_sequence_witness :
    (bmp280_init (some refDev) 0 0x76 (some 1)
        (World.start (fun _ => true) (goodBus refBlock))).1 = ESP_OK ∧
    (bmp280_init (some refDev) 0 0x76 (some 1)
        (World.start (fun _ => true) (goodBus refBlock))).2.2.txns = 0 + 5 :=
  ⟨(C12_init_success_sequence refDev 0 0x76 (some 1)
      (World.start (fun _ => true) (goodBus refBlock)) (fun _ _ => rfl)
      (by decide) (by decide) (by decide) (by decide) (by decide) (by decide)).1,
   (C12_init_success_sequence refDev 0 0x76 (some 1)
      (World.start (fun _ => true) (goodBus refBlock)) (fun _ _ => rfl)
      (by decide) (by decide) (by decide) (by decide) (by decide) (by decide)).2.2.1⟩

/-! ## C13 -/

/-- The handle after `bmp280_init` when the take succeeds -/
theorem init_dev_locked (dev : bmp280_dev_t) (i2c_port : Int) (i2c_addr : Nat) (m : Nat)
    (w : World) (ht : w.takeResult w.takes = true) :
    (bmp280_init (some dev) i2c_port i2c_addr (some m) w).2.1
      = some (bmp280_init_sequence
            { dev with i2c_port := i2c_port, i2c_addr := i2c_addr, i2c_mutex := some m,
                       t_fine := 0 }
            (xSemaphoreTake m 500 w).2).2.1 := by
  unfold bmp280_init
  simp only [take_proj, ht, if_true]
  rw [init_cleanup_dev]

/-- The handle after `bmp280_init` without a lock -/
theorem init_dev_unlocked (dev : bmp280_dev_t) (i2c_port : Int) (i2c_addr : Nat)
    (w : World) :
    (bmp280_init (some dev) i2c_port i2c_addr none w).2.1
      = some (bmp280_init_sequence
            { dev with i2c_port := i2c_port, i2c_addr := i2c_addr, i2c_mutex := none,
                       t_fine := 0 } w).2.1 := by
  unfold bmp280_init
  simp only
  rw [init_cleanup_dev]

/-- When a step up to the calibration read fails, the bring-up sequence
returns that error and leaves the handle as it was -/
theorem init_sequence_early_error (dev : bmp280_dev_t) (w : World) (e : Int)
    (h : initEarlyError w = some e) :
    (bmp280_init_sequence dev w).1 = e ∧ (bmp280_init_sequence dev w).2.1 = dev := by
  unfold initEarlyError at h
  by_cases c0 : (w.i2c w.txns).status = ESP_OK
  · by_cases c1 : nextBytes w 0 = BMP280_CHIP_ID
    · by_cases c2 : (w.i2c (w.txns + 1)).status = ESP_OK
      · by_cases c3 : (w.i2c (w.txns + 2)).status = ESP_OK
        · simp only [c0, c1, c2, c3, ne_eq, not_true_eq_false, if_false] at h
          cases h
        · have c3' : ¬ (w.i2c (w.txns + 1 + 1)).status = ESP_OK := c3
          simp only [c0, c1, c2, c3, ne_eq, not_true_eq_false, not_false_eq_true,
            if_false, if_true, Option.some.injEq] at h
          have h' : (w.i2c (w.txns + 1 + 1)).status = e := h
          simp only [bmp280_init_sequence, write_reg_internal_proj, read_reg_internal_proj,
            delay_proj, c0, c1, c2, c3', ne_eq, not_true_eq_false, not_false_eq_true,
            if_false, if_true]
          exact ⟨h', trivial⟩
      · simp only [c0, c1, c2, ne_eq, not_true_eq_false, not_false_eq_true,
          if_false, if_true, Option.some.injEq] at h
        simp only [bmp280_init_sequence, write_reg_internal_proj, read_reg_internal_proj,
          c0, c1, c2, ne_eq, not_true_eq_false, not_false_eq_true, if_false, if_true]
        exact ⟨h, trivial⟩
    · simp only [c0, c1, ne_eq, not_true_eq_false, not_false_eq_true,
        if_false, if_true, Option.some.injEq] at h
      simp only [bmp280_init_sequence, read_reg_internal_proj,
        c0, c1, ne_eq, not_true_eq_false, not_false_eq_true, if_false, if_true]
      exact ⟨h, trivial⟩
  · simp only [c0, ne_eq, not_false_eq_true, if_true, Option.some.injEq] at h
    simp only [bmp280_init_sequence, read_reg_internal_proj,
      c0, ne_eq, not_false_eq_true, if_true]
    exact ⟨h, trivial⟩

/-- A failing `bmp280_read_calib_data` leaves the handle as it was -/
theorem read_calib_data_fail (dev : bmp280_dev_t) (w : World)
    (h : (bmp280_read_calib_data dev w).1 ≠ ESP_OK) :
    (bmp280_read_calib_data dev w).2.1 = dev := by
  unfold bmp280_read_calib_data at h ⊢
  by_cases hr : (bmp280_read_reg dev BMP280_REG_CALIB_START 24 w).ret = ESP_OK
  · simp only [hr, ne_eq, not_true_eq_false, if_false] at h
  · simp only [hr, ne_eq, not_false_eq_true, if_true]

/-- C13: if the 24-byte calibration read at `0x88` fails during
`bmp280_init`, or any earlier step fails (the take, the identity read, the
identity check, the reset write), init returns that error and the handle's
twelve calibration coefficients are exactly what they were before the call;
likewise a failing `bmp280_read_calib_data` leaves the handle unchanged. -/
theorem C13_calibration_all_or_nothing (dev : bmp280_dev_t) (i2c_port : Int)
    (i2c_addr : Nat) (i2c_mutex : Option Nat) (w : World) :
    (∀ m, i2c_mutex = some m → w.takeResult w.takes = false →
      (bmp280_init (some dev) i2c_port i2c_addr i2c_mutex w).1 = ESP_ERR_TIMEOUT ∧
      (bmp280_init (some dev) i2c_port i2c_addr i2c_mutex w).2.1.map (fun d => d.calib)
        = some dev.calib) ∧
    (∀ e, (∀ m, i2c_mutex = some m → w.takeResult w.takes = true) →
      initEarlyError w = some e →
      (bmp280_init (some dev) i2c_port i2c_addr i2c_mutex w).1 = e ∧
      (bmp280_init (some dev) i2c_port i2c_addr i2c_mutex w).2.1.map (fun d => d.calib)
        = some dev.calib) ∧
    (∀ (d2 : bmp280_dev_t) (w2 : World), (bmp280_read_calib_data d2 w2).1 ≠ ESP_OK →
      (bmp280_read_calib_data d2 w2).2.1 = d2) := by
  refine ⟨?_, ?_, read_calib_data_fail⟩
  · intro m hm ht
    subst hm
    unfold bmp280_init
    simp only [take_proj, ht, Bool.false_eq_true, if_false, Option.map_some']
    exact ⟨trivial, trivial⟩
  · intro e hl he
    cases i2c_mutex with
    | none =>
      obtain ⟨r1, r2⟩ := init_sequence_early_error
        { dev with i2c_port := i2c_port, i2c_addr := i2c_addr, i2c_mutex := none, t_fine := 0 }
        w e he
      rw [(init_world_unlocked dev i2c_port i2c_addr w).2, init_dev_unlocked, r1, r2]
      exact ⟨rfl, rfl⟩
    | some m =>
      have ht := hl m rfl
      obtain ⟨r1, r2⟩ := init_sequence_early_error
        { dev with i2c_port := i2c_port, i2c_addr := i2c_addr, i2c_mutex := some m,
                   t_fine := 0 }
        (xSemaphoreTake m 500 w).2 e he
      rw [(init_world_locked dev i2c_port i2c_addr m w ht).2,
        init_dev_locked dev i2c_port i2c_addr m w ht, r1, r2]
      exact ⟨rfl, rfl⟩

/-- C13 witness: the calibration read (third transaction) fails with
`ESP_FAIL`; init returns `ESP_FAIL` and the zero calibration of the handle is
still in place -/
theorem C13_calibration_all_or_nothing_witness :
    initEarlyError (World.start (fun _ => true) (failingBus 2 ESP_FAIL refBlock))
      = some ESP_FAIL ∧
    (bmp280_init (some zeroDev) 0 0x76 (some 1)
        (World.start (fun _ => true) (failingBus 2 ESP_FAIL refBlock))).1 = ESP_FAIL ∧
    (bmp280_init (some zeroDev) 0 0x76 (some 1)
        (World.start (fun _ => true) (failingBus 2 ESP_FAIL refBlock))).2.1.map
        (fun d => d.calib) = some zeroDev.calib :=
  ⟨by decide,
   (C13_calibration_all_or_nothing zeroDev 0 0x76 (some 1)
      (World.start (fun _ => true) (failingBus 2 ESP_FAIL refBlock))).2.1 ESP_FAIL
      (fun _ _ => rfl) (by decide)⟩

/-! ## C15 -/

/-- With the lock (if any) obtained, a locked register read returns the
status of the bus call, delivers its bytes and makes one transaction -/
theorem read_reg_status (dev : bmp280_dev_t) (reg len : Nat) (w : World)
    (hl : ∀ m, dev.i2c_mutex = some m → w.takeResult w.takes = true) :
    (bmp280_read_reg dev reg len w).ret = (w.i2c w.txns).status ∧
    (bmp280_read_reg dev reg len w).data = nextBytes w ∧
    (bmp280_read_reg dev reg len w).world.txns = w.txns + 1 := by
  unfold bmp280_read_reg
  cases hm : dev.i2c_mutex with
  | none =>
    simp only [read_reg_internal_proj]
    exact ⟨trivial, trivial, trivial⟩
  | some m =>
    have ht := hl m hm
    simp only [take_proj, ht, if_true, read_reg_internal_proj, give_proj]
    exact ⟨trivial, rfl, trivial⟩

/-- With the lock (if any) obtained, a locked register write returns the
status of the bus call and makes one transaction -/
theorem write_reg_status (dev : bmp280_dev_t) (reg data : Nat) (w : World)
    (hl : ∀ m, dev.i2c_mutex = some m → w.takeResult w.takes = true) :
    (bmp280_write_reg dev reg data w).1 = (w.i2c w.txns).status ∧
    (bmp280_write_reg dev reg data w).2.txns = w.txns + 1 := by
  unfold bmp280_write_reg
  cases hm : dev.i2c_mutex with
  | none =>
    simp only [write_reg_internal_proj]
    exact ⟨trivial, trivial⟩
  | some m =>
    have ht := hl m hm
    simp only [take_proj, ht, if_true, write_reg_internal_proj, give_proj]
    exact ⟨trivial, trivial⟩

/-- C15, as stated, fails: on a bus whose transactions time out (the I2C
call returns `ESP_ERR_TIMEOUT`, a failure), with the lock obtained, the
register read and the register write return `ESP_ERR_TIMEOUT`, the very
code they return when the lock could not be obtained. -/
theorem C15_counterexample :
    (timeoutBus 0).status ≠ ESP_OK ∧
    (bmp280_read_reg lockedDev 0xF7 6 (World.start (fun _ => true) timeoutBus)).world.trace
      = [Event.take 1 200 true, Event.writeRead 0 0x76 0xF7 6 1000, Event.give 1] ∧
    (bmp280_read_reg lockedDev 0xF7 6 (World.start (fun _ => true) timeoutBus)).ret
      = ESP_ERR_TIMEOUT ∧
    (bmp280_write_reg lockedDev 0xF5 0x90 (World.start (fun _ => true) timeoutBus)).1
      = ESP_ERR_TIMEOUT ∧
    (bmp280_read_reg_internal lockedDev 0xF7 6 (World.start (fun _ => true) timeoutBus)).ret
      = ESP_ERR_TIMEOUT ∧
    (bmp280_read_reg lockedDev 0xF7 6 (World.start (fun _ => false) (goodBus refBlock))).ret
      = (bmp280_read_reg lockedDev 0xF7 6 (World.start (fun _ => true) timeoutBus)).ret := by
  decide

/-- C15 (amended): a failure of the bus transaction itself is reported by the
register read/write operations with the status of the underlying bus call,
unchanged; hence it differs from the lock-timeout code `ESP_ERR_TIMEOUT`
exactly when the bus call returns a status other than `ESP_ERR_TIMEOUT`. -/
theorem C15_bus_status_passthrough (dev : bmp280_dev_t) (reg len data : Nat) (w : World)
    (hl : ∀ m, dev.i2c_mutex = some m → w.takeResult w.takes = true) :
    (bmp280_read_reg_internal dev reg len w).ret = (w.i2c w.txns).status ∧
    (bmp280_write_reg_internal dev reg data w).1 = (w.i2c w.txns).status ∧
    (bmp280_read_reg dev reg len w).ret = (w.i2c w.txns).status ∧
    (bmp280_write_reg dev reg data w).1 = (w.i2c w.txns).status ∧
    ((bmp280_read_reg dev reg len w).ret ≠ ESP_ERR_TIMEOUT
      ↔ (w.i2c w.txns).status ≠ ESP_ERR_TIMEOUT) ∧
    ((bmp280_write_reg dev reg data w).1 ≠ ESP_ERR_TIMEOUT
      ↔ (w.i2c w.txns).status ≠ ESP_ERR_TIMEOUT) := by
  have hr := (read_reg_status dev reg len w hl).1
  have hw := (write_reg_status dev reg data w hl).1
  refine ⟨rfl, rfl, hr, hw, ?_, ?_⟩
  · rw [hr]
  · rw [hw]

/-- C15 witness: a bus failing with `ESP_FAIL` under lock 1 -/
theorem C15_bus_status_passthrough_witness :
    (bmp280_read_reg lockedDev 0xF7 6
        (World.start (fun _ => true) (constBus ESP_FAIL refBurst))).ret = ESP_FAIL ∧
    (bmp280_read_reg lockedDev 0xF7 6
        (World.start (fun _ => true) (constBus ESP_FAIL refBurst))).ret ≠ ESP_ERR_TIMEOUT :=
  ⟨(C15_bus_status_passthrough lockedDev 0xF7 6 0
      (World.start (fun _ => true) (constBus ESP_FAIL refBurst)) (fun _ _ => rfl)).2.2.1,
   (C15_bus_status_passthrough lockedDev 0xF7 6 0
      (World.start (fun _ => true) (constBus ESP_FAIL refBurst)) (fun _ _ => rfl)).2.2.2.2.1.mpr
      (by decide)⟩

/-! ## C16 -/

/-- The configuration byte for field values that fit their fields -/
theorem configByte_eq (t_sb filter : Nat) (h1 : t_sb ≤ 7) (h2 : filter ≤ 7) :
    configByte t_sb filter = t_sb * 32 + filter * 4 := by
  unfold configByte
  rw [shl32_natCast t_sb 5 (by omega), shl32_natCast filter 2 (by omega),
    or32_disjoint 5 t_sb (2^2 * filter) (by omega) (by omega)]
  omega

/-- The mode byte for field values that fit their fields -/
theorem ctrlMeasByte_eq (osrs_t osrs_p mode : Nat) (h1 : osrs_t ≤ 7) (h2 : osrs_p ≤ 7)
    (h3 : mode ≤ 3) :
    ctrlMeasByte osrs_t osrs_p mode = osrs_t * 32 + osrs_p * 4 + mode := by
  unfold ctrlMeasByte
  rw [shl32_natCast osrs_t 5 (by omega), shl32_natCast osrs_p 2 (by omega),
    or32_disjoint 5 osrs_t (2^2 * osrs_p) (by omega) (by omega)]
  have e : (2^5 * osrs_t + 2^2 * osrs_p : Nat) = 2^2 * (2^3 * osrs_t + osrs_p) := by ring
  rw [e, or32_disjoint 2 (2^3 * osrs_t + osrs_p) mode (by omega) (by omega)]
  omega

/-- A `bmp280_config` run in which the lock (if any) is obtained twice and
both writes succeed, for arbitrary argument values -/
theorem config_run (dev : bmp280_dev_t) (osrs_t osrs_p mode t_sb filter : Nat) (w : World)
    (hl : ∀ m, dev.i2c_mutex = some m →
      w.takeResult w.takes = true ∧ w.takeResult (w.takes + 1) = true)
    (h0 : (w.i2c w.txns).status = ESP_OK)
    (h1 : (w.i2c (w.txns + 1)).status = ESP_OK) :
    (bmp280_config (some dev) osrs_t osrs_p mode t_sb filter w).1 = ESP_OK ∧
    (bmp280_config (some dev) osrs_t osrs_p mode t_sb filter w).2.trace
      = w.trace ++ configEvents dev (configByte t_sb filter)
                     (ctrlMeasByte osrs_t osrs_p mode) ∧
    (bmp280_config (some dev) osrs_t osrs_p mode t_sb filter w).2.txns = w.txns + 2 := by
  unfold bmp280_config bmp280_write_reg configEvents configByte ctrlMeasByte
  cases hm : dev.i2c_mutex with
  | none =>
    simp only [hm, write_reg_internal_proj, h0, h1, ne_eq, not_true_eq_false, if_false,
      List.append_assoc, List.singleton_append]
    exact ⟨trivial, rfl, trivial⟩
  | some m =>
    obtain ⟨t0, t1⟩ := hl m hm
    simp only [hm, take_proj, give_proj, write_reg_internal_proj, t0, t1, h0, h1, if_true,
      ne_eq, not_true_eq_false, if_false, List.append_assoc, List.singleton_append]
    exact ⟨trivial, rfl, trivial⟩

/-- The bus transactions among the calls of a successful `bmp280_config` -/
theorem configEvents_bus (dev : bmp280_dev_t) (b1 b2 : Nat) :
    (configEvents dev b1 b2).filter Event.isBus
      = [Event.write dev.i2c_port dev.i2c_addr [0xF5, b1] 1000,
         Event.write dev.i2c_port dev.i2c_addr [0xF4, b2] 1000] := by
  unfold configEvents
  cases dev.i2c_mutex <;> rfl

/-- C16: for all in-range arguments (`osrs_t`, `osrs_p` in 0..5, `mode` in
{0,1,3}, `t_sb` in 0..7, `filter` in 0..4) and a bus on which both writes
succeed, `bmp280_config` returns `ESP_OK` after exactly two writes, first
`t_sb*32 + filter*4` to register `0xF5` and then
`osrs_t*32 + osrs_p*4 + mode` to register `0xF4`; the fields do not overlap:
bits 7:5, 4:2 (and 1:0 of `0xF4`) decode back to the arguments and bits 1:0
of the `0xF5` byte are 0. -/
theorem C16_config_bytes (dev : bmp280_dev_t) (osrs_t osrs_p mode t_sb filter : Nat)
    (w : World)
    (ht : osrs_t ≤ 5) (hp : osrs_p ≤ 5) (hmode : mode = 0 ∨ mode = 1 ∨ mode = 3)
    (hs : t_sb ≤ 7) (hf : filter ≤ 4)
    (hl : ∀ m, dev.i2c_mutex = some m →
      w.takeResult w.takes = true ∧ w.takeResult (w.takes + 1) = true)
    (h0 : (w.i2c w.txns).status = ESP_OK)
    (h1 : (w.i2c (w.txns + 1)).status = ESP_OK) :
    (bmp280_config (some dev) osrs_t osrs_p mode t_sb filter w).1 = ESP_OK ∧
    (bmp280_config (some dev) osrs_t osrs_p mode t_sb filter w).2.trace
      = w.trace ++ configEvents dev (t_sb * 32 + filter * 4)
                     (osrs_t * 32 + osrs_p * 4 + mode) ∧
    (bmp280_config (some dev) osrs_t osrs_p mode t_sb filter w).2.txns = w.txns + 2 ∧
    (configEvents dev (t_sb * 32 + filter * 4) (osrs_t * 32 + osrs_p * 4 + mode)).filter
        Event.isBus
      = [Event.write dev.i2c_port dev.i2c_addr [0xF5, t_sb * 32 + filter * 4] 1000,
         Event.write dev.i2c_port dev.i2c_addr
           [0xF4, osrs_t * 32 + osrs_p * 4 + mode] 1000] ∧
    ((t_sb * 32 + filter * 4) / 32 = t_sb ∧ (t_sb * 32 + filter * 4) / 4 % 8 = filter ∧
      (t_sb * 32 + filter * 4) % 4 = 0) ∧
    ((osrs_t * 32 + osrs_p * 4 + mode) / 32 = osrs_t ∧
      (osrs_t * 32 + osrs_p * 4 + mode) / 4 % 8 = osrs_p ∧
      (osrs_t * 32 + osrs_p * 4 + mode) % 4 = mode) := by
  have hm3 : mode ≤ 3 := by omega
  obtain ⟨r1, r2, r3⟩ := config_run dev osrs_t osrs_p mode t_sb filter w hl h0 h1
  rw [configByte_eq t_sb filter hs (by omega),
    ctrlMeasByte_eq osrs_t osrs_p mode (by omega) (by omega) hm3] at r2
  refine ⟨r1, r2, r3, configEvents_bus _ _ _, ⟨?_, ?_, ?_⟩, ⟨?_, ?_, ?_⟩⟩ <;> omega

/-- C16 witness: the default settings on the handle carrying lock 1 -/
theorem C16_config_bytes_witness :
    (bmp280_config (some lockedDev) 5 5 3 4 4
        (World.start (fun _ => true) (constBus 0 refBurst))).1 = ESP_OK ∧
    (bmp280_config (some lockedDev) 5 5 3 4 4
        (World.start (fun _ => true) (constBus 0 refBurst))).2.trace
      = [Event.take 1 200 true, Event.write 0 0x76 [0xF5, 0x90] 1000, Event.give 1,
         Event.take 1 200 true, Event.write 0 0x76 [0xF4, 0xB7] 1000, Event.give 1] :=
  ⟨(C16_config_bytes lockedDev 5 5 3 4 4 (World.start (fun _ => true) (constBus 0 refBurst))
      (by decide) (by decide) (by decide) (by decide) (by decide)
      (fun _ _ => ⟨rfl, rfl⟩) (by decide) (by decide)).1,
   (C16_config_bytes lockedDev 5 5 3 4 4 (World.start (fun _ => true) (constBus 0 refBurst))
      (by decide) (by decide) (by decide) (by decide) (by decide)
      (fun _ _ => ⟨rfl, rfl⟩) (by decide) (by decide)).2.1.trans (by decide)⟩

/-! ## C17 -/

/-- C17, as stated, fails: `bmp280_config` has no range check.  With the
out-of-range value `osrs_t = 6` (and likewise with `mode = 2`) on a non-null
handle and a working bus it returns `ESP_OK`, not `ESP_ERR_INVALID_ARG`, and
writes both registers. -/
theorem C17_counterexample :
    (bmp280_config (some refDev) 6 5 3 4 4
        (World.start (fun _ => true) (constBus 0 refBurst))).1 = ESP_OK ∧
    (bmp280_config (some refDev) 6 5 3 4 4
        (World.start (fun _ => true) (constBus 0 refBurst))).1 ≠ ESP_ERR_INVALID_ARG ∧
    (bmp280_config (some refDev) 6 5 3 4 4
        (World.start (fun _ => true) (constBus 0 refBurst))).2.trace
      = [Event.write 0 0x76 [0xF5, 0x90] 1000, Event.write 0 0x76 [0xF4, 0xD7] 1000] ∧
    (bmp280_config (some refDev) 5 5 2 4 4
        (World.start (fun _ => true) (constBus 0 refBurst))).1 = ESP_OK ∧
    (bmp280_config (some refDev) 5 5 2 4 4
        (World.start (fun _ => true) (constBus 0 refBurst))).2.trace
      = [Event.write 0 0x76 [0xF5, 0x90] 1000, Event.write 0 0x76 [0xF4, 0xB6] 1000] := by
  decide

/-- C17 (amended): `bmp280_config` returns `ESP_ERR_INVALID_ARG`, without
writing any register, for a null handle; it does not check the ranges of the
configuration values: for a non-null handle and all argument values, when the
lock (if any) is obtained and both writes succeed, it returns `ESP_OK` after
writing `(t_sb << 5) | (filter << 2)` to `0xF5` and
`(osrs_t << 5) | (osrs_p << 2) | mode` to `0xF4`, each truncated to a byte. -/
theorem C17_config_no_range_check (dev : bmp280_dev_t)
    (osrs_t osrs_p mode t_sb filter : Nat) (w : World)
    (hl : ∀ m, dev.i2c_mutex = some m →
      w.takeResult w.takes = true ∧ w.takeResult (w.takes + 1) = true)
    (h0 : (w.i2c w.txns).status = ESP_OK)
    (h1 : (w.i2c (w.txns + 1)).status = ESP_OK) :
    bmp280_config none osrs_t osrs_p mode t_sb filter w = (ESP_ERR_INVALID_ARG, w) ∧
    (bmp280_config (some dev) osrs_t osrs_p mode t_sb filter w).1 = ESP_OK ∧
    (bmp280_config (some dev) osrs_t osrs_p mode t_sb filter w).2.trace
      = w.trace ++ configEvents dev (configByte t_sb filter)
                     (ctrlMeasByte osrs_t osrs_p mode) ∧
    (bmp280_config (some dev) osrs_t osrs_p mode t_sb filter w).2.txns = w.txns + 2 :=
  ⟨rfl, config_run dev osrs_t osrs_p mode t_sb filter w hl h0 h1⟩

/-- C17 witness: the out-of-range values `osrs_t = 6`, `mode = 2`,
`t_sb = 8`, `filter = 5` are written truncated to a byte -/
theorem C17_config_no_range_check_witness :
    (bmp280_config (some refDev) 6 5 2 8 5
        (World.start (fun _ => true) (constBus 0 refBurst))).1 = ESP_OK ∧
    (bmp280_config (some refDev) 6 5 2 8 5
        (World.start (fun _ => true) (constBus 0 refBurst))).2.txns = 0 + 2 :=
  ⟨(C17_config_no_range_check refDev 6 5 2 8 5
      (World.start (fun _ => true) (constBus 0 refBurst))
      (fun _ h => nomatch h) (by decide) (by decide)).2.1,
   (C17_config_no_range_check refDev 6 5 2 8 5
      (World.start (fun _ => true) (constBus 0 refBurst))
      (fun _ h => nomatch h) (by decide) (by decide)).2.2.2⟩

/-! ## C18 -/

/-- With the lock (if any) obtained and a successful burst read,
`bmp280_read_raw` returns `ESP_OK` -/
theorem read_raw_succeeds (d : bmp280_dev_t) (w : World)
    (hl : ∀ m, d.i2c_mutex = some m → w.takeResult w.takes = true)
    (h0 : (w.i2c w.txns).status = ESP_OK) :
    (bmp280_read_raw (some d) true true w).ret = ESP_OK := by
  have tf : ¬ (true = false ∨ true = false) := by decide
  have hr : (bmp280_read_reg d BMP280_REG_PRESS_MSB 6 w).ret = ESP_OK := by
    rw [(read_reg_status d BMP280_REG_PRESS_MSB 6 w hl).1, h0]
  unfold bmp280_read_raw
  simp only [if_neg tf, hr, ne_eq, not_true_eq_false, if_false]

/-- C18, as stated, fails: the measurement calls have no notion of an
initialised handle.  On the zero-initialised handle that was never passed to
`bmp280_init`, with a bus whose burst read succeeds, each of them returns
`ESP_OK` and stores values. -/
theorem C18_counterexample :
    (bmp280_read_data (some zeroDev) true true
        (World.start (fun _ => true) (constBus 0 refBurst))).ret = ESP_OK ∧
    (bmp280_read_data (some zeroDev) true true
        (World.start (fun _ => true) (constBus 0 refBurst))).temperature = some 0 ∧
    (bmp280_read_data (some zeroDev) true true
        (World.start (fun _ => true) (constBus 0 refBurst))).pressure = some (some 0) ∧
    (bmp280_read_temperature (some zeroDev) true
        (World.start (fun _ => true) (constBus 0 refBurst))).ret = ESP_OK ∧
    (bmp280_read_pressure (some zeroDev) true
        (World.start (fun _ => true) (constBus 0 refBurst))).ret = ESP_OK ∧
    (bmp280_read_raw (some zeroDev) true true
        (World.start (fun _ => true) (constBus 0 refBurst))).ret = ESP_OK ∧
    (bmp280_read_raw (some zeroDev) true true
        (World.start (fun _ => true) (constBus 0 refBurst))).raw_temp = some 519888 := by
  decide

/-- C18 (amended): the measurement calls do not check whether the handle
was initialised.  For every handle state, whatever its calibration, with
non-null output pointers, the lock (if any) obtained and a successful burst
read, `bmp280_read_raw`, `bmp280_read_temperature`, `bmp280_read_pressure`
and `bmp280_read_data` return `ESP_OK` and store the values computed from
the calibration the handle holds. -/
theorem C18_no_initialised_check (d : bmp280_dev_t) (w : World)
    (hl : ∀ m, d.i2c_mutex = some m → w.takeResult w.takes = true)
    (h0 : (w.i2c w.txns).status = ESP_OK) :
    ((bmp280_read_raw (some d) true true w).ret = ESP_OK ∧
     (bmp280_read_raw (some d) true true w).raw_temp = some (burstTemp (nextBytes w)) ∧
     (bmp280_read_raw (some d) true true w).raw_press = some (burstPress (nextBytes w))) ∧
    ((bmp280_read_temperature (some d) true w).ret = ESP_OK ∧
     (bmp280_read_temperature (some d) true w).temperature
       = some (bmp280_compensate_temperature d (burstTemp (nextBytes w))).1) ∧
    ((bmp280_read_pressure (some d) true w).ret = ESP_OK ∧
     (bmp280_read_pressure (some d) true w).pressure
       = some (bmp280_compensate_pressure
           (bmp280_compensate_temperature d (burstTemp (nextBytes w))).2
           (burstPress (nextBytes w)))) ∧
    ((bmp280_read_data (some d) true true w).ret = ESP_OK ∧
     (bmp280_read_data (some d) true true w).temperature
       = some (bmp280_compensate_temperature d (burstTemp (nextBytes w))).1 ∧
     (bmp280_read_data (some d) true true w).pressure
       = some (bmp280_compensate_pressure
           (bmp280_compensate_temperature d (burstTemp (nextBytes w))).2
           (burstPress (nextBytes w)))) := by
  have tf : ¬ (true = false) := by decide
  have hr := read_raw_succeeds d w hl h0
  obtain ⟨hP, hT⟩ := read_raw_ok (some d) true true w hr
  have okd := read_data_ret_of_raw d w hr
  have okp : (bmp280_read_pressure (some d) true w).ret = ESP_OK := by
    unfold bmp280_read_pressure
    simp only [if_neg tf, hr, ne_eq, not_true_eq_false, if_false]
  obtain ⟨dT, dP, -⟩ := read_data_ok d true true w okd
  obtain ⟨pP, -, -⟩ := read_pressure_ok d true w okp
  refine ⟨⟨hr, hT, hP⟩, ⟨?_, ?_⟩, ⟨okp, pP⟩, ⟨okd, dT, dP⟩⟩
  · unfold bmp280_read_temperature
    simp only [if_neg tf, hr, ne_eq, not_true_eq_false, if_false]
  · unfold bmp280_read_temperature
    simp only [if_neg tf, hr, ne_eq, not_true_eq_false, if_false, hT, Option.getD_some]
    rfl

/-- C18 witness: the zero-initialised handle reads the reference burst -/
theorem C18_no_initialised_check_witness :
    (bmp280_read_data (some zeroDev) true true
        (World.start (fun _ => true) (constBus 0 refBurst))).ret = ESP_OK ∧
    (bmp280_read_data (some zeroDev) true true
        (World.start (fun _ => true) (constBus 0 refBurst))).pressure = some (some 0) :=
  ⟨(C18_no_initialised_check zeroDev (World.start (fun _ => true) (constBus 0 refBurst))
      (fun _ h => nomatch h) (by decide)).2.2.2.1,
   (C18_no_initialised_check zeroDev (World.start (fun _ => true) (constBus 0 refBurst))
      (fun _ h => nomatch h) (by decide)).2.2.2.2.2.trans (by decide)⟩

/-! ## C20 -/

/-- Over the real numbers the source formula is
`44330 * (1 - (pressure / sea_level_pressure) ^ 0.1903)` -/
theorem calc_altitude_real (p s : ℝ) :
    bmp280_calc_altitude Real.rpow p s = 44330 * (1 - (p / s) ^ (0.1903 : ℝ)) := by
  have e : (1903 / 10000 : ℝ) = 0.1903 := by norm_num
  unfold bmp280_calc_altitude
  rw [e]
  rfl

/-- C20: over the real numbers,
`bmp280_calc_altitude(p, p) = 44330 * (1 - (p/p)^0.1903) = 0` for every
positive `p`. -/
theorem C20_altitude_at_reference (p : ℝ) (hp : 0 < p) :
    bmp280_calc_altitude Real.rpow p p = 44330 * (1 - (p / p) ^ (0.1903 : ℝ)) ∧
    bmp280_calc_altitude Real.rpow p p = 0 := by
  refine ⟨calc_altitude_real p p, ?_⟩
  rw [calc_altitude_real, div_self (ne_of_gt hp), Real.one_rpow]
  norm_num

/-- C20 witness: the standard sea-level pressure 1013.25 hPa -/
theorem C20_altitude_at_reference_witness :
    (0 : ℝ) < 1013.25 ∧ bmp280_calc_altitude Real.rpow (1013.25 : ℝ) 1013.25 = 0 :=
  ⟨by norm_num, (C20_altitude_at_reference 1013.25 (by norm_num)).2⟩

/-! ## C21 -/

/-- In exact arithmetic over the real numbers the source formula is strictly
decreasing in the pressure below the reference and non-negative there -/
theorem calc_altitude_real_strict (s p1 p2 : ℝ) (hs : 0 < s) (h1 : 0 < p1) (h12 : p1 < p2)
    (h2s : p2 ≤ s) :
    bmp280_calc_altitude Real.rpow p1 s > bmp280_calc_altitude Real.rpow p2 s ∧
    bmp280_calc_altitude Real.rpow p2 s ≥ 0 := by
  have hy : (0 : ℝ) < 0.1903 := by norm_num
  have hq1 : 0 ≤ p1 / s := le_of_lt (div_pos h1 hs)
  have hq12 : p1 / s < p2 / s := div_lt_div_of_pos_right h12 hs
  have hq2 : 0 ≤ p2 / s := le_of_lt (div_pos (lt_trans h1 h12) hs)
  have hq2' : p2 / s ≤ 1 := (div_le_one hs).mpr h2s
  have hlt : (p1 / s) ^ (0.1903 : ℝ) < (p2 / s) ^ (0.1903 : ℝ) :=
    Real.rpow_lt_rpow hq1 hq12 hy
  have hle : (p2 / s) ^ (0.1903 : ℝ) ≤ 1 := Real.rpow_le_one hq2 hq2' (le_of_lt hy)
  rw [calc_altitude_real, calc_altitude_real]
  constructor
  · have : 1 - (p2 / s) ^ (0.1903 : ℝ) < 1 - (p1 / s) ^ (0.1903 : ℝ) := by linarith
    exact mul_lt_mul_of_pos_left this (by norm_num)
  · exact mul_nonneg (by norm_num) (by linarith)

/-- The bring-up sequence issues the transactions and returns the status
that the first failing step decides; it makes no take and changes no lock -/
theorem init_sequence_outcome (dev : bmp280_dev_t) (w : World) :
    (bmp280_init_sequence dev w).1 = (initOutcome w).2 ∧
    (bmp280_init_sequence dev w).2.2.trace
      = w.trace ++ initEventsUpTo dev.i2c_port dev.i2c_addr (initOutcome w).1 ∧
    (bmp280_init_sequence dev w).2.2.txns = w.txns + (initOutcome w).1 ∧
    (bmp280_init_sequence dev w).2.2.takes = w.takes ∧
    (bmp280_init_sequence dev w).2.2.held = w.held := by
  by_cases c0 : (w.i2c w.txns).status = ESP_OK
  · by_cases c1 : nextBytes w 0 = BMP280_CHIP_ID
    · by_cases c2 : (w.i2c (w.txns + 1)).status = ESP_OK
      · by_cases c3 : (w.i2c (w.txns + 2)).status = ESP_OK
        · have c3' : (w.i2c (w.txns + 1 + 1)).status = ESP_OK := c3
          by_cases c4 : (w.i2c (w.txns + 3)).status = ESP_OK
          · have c4' : (w.i2c (w.txns + 1 + 1 + 1)).status = ESP_OK := c4
            simp only [initOutcome, bmp280_init_sequence, write_reg_internal_proj,
              read_reg_internal_proj, delay_proj, c0, c1, c2, c3, c3', c4, c4', ne_eq,
              not_true_eq_false, not_false_eq_true, if_true, if_false, init_config_val,
              init_ctrl_meas_val, List.append_assoc, List.singleton_append, ite_self]
            refine ⟨?_, ?_, ?_, ?_, ?_⟩ <;> trivial
          · have c4' : ¬ (w.i2c (w.txns + 1 + 1 + 1)).status = ESP_OK := c4
            simp only [initOutcome, bmp280_init_sequence, write_reg_internal_proj,
              read_reg_internal_proj, delay_proj, c0, c1, c2, c3, c3', c4, c4', ne_eq,
              not_true_eq_false, not_false_eq_true, if_true, if_false, init_config_val,
              init_ctrl_meas_val, List.append_assoc, List.singleton_append]
            refine ⟨?_, ?_, ?_, ?_, ?_⟩ <;> trivial
        · have c3' : ¬ (w.i2c (w.txns + 1 + 1)).status = ESP_OK := c3
          simp only [initOutcome, bmp280_init_sequence, write_reg_internal_proj,
            read_reg_internal_proj, delay_proj, c0, c1, c2, c3, c3', ne_eq,
            not_true_eq_false, not_false_eq_true, if_true, if_false,
            List.append_assoc, List.singleton_append]
          refine ⟨?_, ?_, ?_, ?_, ?_⟩ <;> trivial
      · simp only [initOutcome, bmp280_init_sequence, write_reg_internal_proj,
          read_reg_internal_proj, delay_proj, c0, c1, c2, ne_eq,
          not_true_eq_false, not_false_eq_true, if_true, if_false,
          List.append_assoc, List.singleton_append]
        refine ⟨?_, ?_, ?_, ?_, ?_⟩ <;> trivial
    · simp only [initOutcome, bmp280_init_sequence, write_reg_internal_proj,
        read_reg_internal_proj, delay_proj, c0, c1, ne_eq,
        not_true_eq_false, not_false_eq_true, if_true, if_false,
        List.append_assoc, List.singleton_append]
      refine ⟨?_, ?_, ?_, ?_, ?_⟩ <;> trivial
  · simp only [initOutcome, bmp280_init_sequence, write_reg_internal_proj,
      read_reg_internal_proj, delay_proj, c0, ne_eq,
      not_true_eq_false, not_false_eq_true, if_true, if_false,
      List.append_assoc, List.singleton_append]
    refine ⟨?_, ?_, ?_, ?_, ?_⟩ <;> trivial

/-- The outcome when transaction `k` is the first to fail -/
theorem initOutcome_fail_at (w : World) (k : Nat) (e : Int) (hk : k ≤ 4)
    (hprev : ∀ j, j < k → (w.i2c (w.txns + j)).status = ESP_OK)
    (hid : 1 ≤ k → nextBytes w 0 = BMP280_CHIP_ID)
    (he : (w.i2c (w.txns + k)).status = e) (hne : e ≠ ESP_OK) :
    initOutcome w = (k + 1, e) := by
  subst he
  unfold initOutcome
  interval_cases k
  · have n0 : ¬ (w.i2c w.txns).status = ESP_OK := hne
    simp only [ne_eq, n0, not_false_eq_true, if_true]
    rfl
  · have h0 : (w.i2c w.txns).status = ESP_OK := hprev 0 (by decide)
    have hi := hid (by decide)
    have n1 : ¬ (w.i2c (w.txns + 1)).status = ESP_OK := hne
    simp only [ne_eq, h0, hi, n1, not_true_eq_false, not_false_eq_true, if_true, if_false]
  · have h0 : (w.i2c w.txns).status = ESP_OK := hprev 0 (by decide)
    have h1 := hprev 1 (by decide)
    have hi := hid (by decide)
    have n2 : ¬ (w.i2c (w.txns + 2)).status = ESP_OK := hne
    simp only [ne_eq, h0, h1, hi, n2, not_true_eq_false, not_false_eq_true, if_true,
      if_false]
  · have h0 : (w.i2c w.txns).status = ESP_OK := hprev 0 (by decide)
    have h1 := hprev 1 (by decide)
    have h2 := hprev 2 (by decide)
    have hi := hid (by decide)
    have n3 : ¬ (w.i2c (w.txns + 3)).status = ESP_OK := hne
    simp only [ne_eq, h0, h1, h2, hi, n3, not_true_eq_false, not_false_eq_true, if_true,
      if_false]
  · have h0 : (w.i2c w.txns).status = ESP_OK := hprev 0 (by decide)
    have h1 := hprev 1 (by decide)
    have h2 := hprev 2 (by decide)
    have h3 := hprev 3 (by decide)
    have hi := hid (by decide)
    simp only [ne_eq, h0, h1, h2, h3, hi, not_true_eq_false, if_false]

/-- The outcome on an identity mismatch -/
theorem initOutcome_mismatch (w : World) (h0 : (w.i2c w.txns).status = ESP_OK)
    (hid : nextBytes w 0 ≠ BMP280_CHIP_ID) :
    initOutcome w = (1, ESP_ERR_NOT_FOUND) := by
  have hid' : ¬ nextBytes w 0 = BMP280_CHIP_ID := hid
  unfold initOutcome
  simp only [ne_eq, h0, hid', not_true_eq_false, not_false_eq_true, if_true, if_false]

/-- The bus transactions among the calls of a bring-up that stops after `n`
transactions are the first `n` of the five -/
theorem initEventsUpTo_bus (port : Int) (addr : Nat) (n : Nat) (h1 : 1 ≤ n) (h5 : n ≤ 5) :
    (initEventsUpTo port addr n).filter Event.isBus
      = ((initSuccessEvents port addr).filter Event.isBus).take n := by
  interval_cases n <;> rfl

/-- Result, transaction count and trace of `bmp280_init` in terms of the
outcome of the bring-up, when the lock (if any) is obtained -/
theorem init_outcome (dev : bmp280_dev_t) (i2c_port : Int) (i2c_addr : Nat)
    (i2c_mutex : Option Nat) (w : World)
    (hl : ∀ m, i2c_mutex = some m → w.takeResult w.takes = true) :
    (bmp280_init (some dev) i2c_port i2c_addr i2c_mutex w).1 = (initOutcome w).2 ∧
    (bmp280_init (some dev) i2c_port i2c_addr i2c_mutex w).2.2.txns
      = w.txns + (initOutcome w).1 ∧
    (bmp280_init (some dev) i2c_port i2c_addr i2c_mutex w).2.2.trace
      = w.trace ++
        (match i2c_mutex with
         | none => initEventsUpTo i2c_port i2c_addr (initOutcome w).1
         | some m => Event.take m 500 true ::
                       initEventsUpTo i2c_port i2c_addr (initOutcome w).1 ++ [Event.give m]) := by
  cases i2c_mutex with
  | none =>
    obtain ⟨r1, r2, r3, -, -⟩ := init_sequence_outcome
      { dev with i2c_port := i2c_port, i2c_addr := i2c_addr, i2c_mutex := none, t_fine := 0 } w
    obtain ⟨hw, hr⟩ := init_world_unlocked dev i2c_port i2c_addr w
    rw [hw, hr]
    exact ⟨r1, r3, r2⟩
  | some m =>
    have ht := hl m rfl
    obtain ⟨r1, r2, r3, -, -⟩ := init_sequence_outcome
      { dev with i2c_port := i2c_port, i2c_addr := i2c_addr, i2c_mutex := some m, t_fine := 0 }
      (xSemaphoreTake m 500 w).2
    have eo : initOutcome (xSemaphoreTake m 500 w).2 = initOutcome w := rfl
    rw [eo] at r1 r2 r3
    obtain ⟨hw, hr⟩ := init_world_locked dev i2c_port i2c_addr m w ht
    rw [hw, hr]
    refine ⟨r1, ?_, ?_⟩
    · simp only [give_proj]
      exact r3
    · simp only [give_proj, r2, take_proj, ht, List.append_assoc, List.singleton_append,
        List.cons_append]
      rfl

/-- C22: `bmp280_init` aborts at the first failing step.  When bus
transaction `k` of the five (identity read, reset write, calibration read,
`0xF5` write, `0xF4` write) is the first to fail, with error `e`, init
returns exactly `e` and has issued `k + 1` bus transactions, the first
`k + 1` of the five, and none after the failed one; after an identity
mismatch it has issued only the identity read (the reset command is never
written). -/
theorem C22_init_aborts_at_first_failure (dev : bmp280_dev_t) (i2c_port : Int)
    (i2c_addr : Nat) (i2c_mutex : Option Nat) (w : World)
    (hl : ∀ m, i2c_mutex = some m → w.takeResult w.takes = true) :
    (∀ (k : Nat) (e : Int), k ≤ 4 →
      (∀ j, j < k → (w.i2c (w.txns + j)).status = ESP_OK) →
      (1 ≤ k → nextBytes w 0 = 0x58) →
      (w.i2c (w.txns + k)).status = e → e ≠ ESP_OK →
      (bmp280_init (some dev) i2c_port i2c_addr i2c_mutex w).1 = e ∧
      (bmp280_init (some dev) i2c_port i2c_addr i2c_mutex w).2.2.txns = w.txns + (k + 1) ∧
      (bmp280_init (some dev) i2c_port i2c_addr i2c_mutex w).2.2.trace
        = w.trace ++
          (match i2c_mutex with
           | none => initEventsUpTo i2c_port i2c_addr (k + 1)
           | some m => Event.take m 500 true ::
                         initEventsUpTo i2c_port i2c_addr (k + 1) ++ [Event.give m]) ∧
      (initEventsUpTo i2c_port i2c_addr (k + 1)).filter Event.isBus
        = ((initSuccessEvents i2c_port i2c_addr).filter Event.isBus).take (k + 1)) ∧
    ((w.i2c w.txns).status = ESP_OK → nextBytes w 0 ≠ 0x58 →
      (bmp280_init (some dev) i2c_port i2c_addr i2c_mutex w).1 = ESP_ERR_NOT_FOUND ∧
      (bmp280_init (some dev) i2c_port i2c_addr i2c_mutex w).2.2.txns = w.txns + 1 ∧
      (bmp280_init (some dev) i2c_port i2c_addr i2c_mutex w).2.2.trace
        = w.trace ++
          (match i2c_mutex with
           | none => [Event.writeRead i2c_port i2c_addr 0xD0 1 1000]
           | some m => [Event.take m 500 true, Event.writeRead i2c_port i2c_addr 0xD0 1 1000,
                        Event.give m])) := by
  obtain ⟨r1, r2, r3⟩ := init_outcome dev i2c_port i2c_addr i2c_mutex w hl
  constructor
  · intro k e hk hprev hid he hne
    have ho := initOutcome_fail_at w k e hk hprev hid he hne
    rw [ho] at r1 r2 r3
    exact ⟨r1, r2, r3, initEventsUpTo_bus i2c_port i2c_addr (k + 1) (by omega) (by omega)⟩
  · intro h0 hid
    have ho := initOutcome_mismatch w h0 hid
    rw [ho] at r1 r2 r3
    refine ⟨r1, r2, ?_⟩
    rw [r3]
    cases i2c_mutex <;> rfl

/-- C22 witness: the `0xF5` write (fourth transaction) fails with
`ESP_FAIL`; the `0xF4` write is not issued -/
theorem C22_init_aborts_at_first_failure_witness :
    (bmp280_init (some refDev) 0 0x76 (some 1)
        (World.start (fun _ => true) (failingBus 3 ESP_FAIL refBlock))).1 = ESP_FAIL ∧
    (bmp280_init (some refDev) 0 0x76 (some 1)
        (World.start (fun _ => true) (failingBus 3 ESP_FAIL refBlock))).2.2.txns
      = 0 + (3 + 1) ∧
    (bmp280_init (some refDev) 0 0x76 (some 1)
        (World.start (fun _ => true) (failingBus 3 ESP_FAIL refBlock))).2.2.trace
      = [Event.take 1 500 true, Event.writeRead 0 0x76 0xD0 1 1000,
         Event.write 0 0x76 [0xE0, 0xB6] 1000, Event.delay 50,
         Event.writeRead 0 0x76 0x88 24 1000, Event.write 0 0x76 [0xF5, 0x90] 1000,
         Event.give 1] :=
  ⟨((C22_init_aborts_at_first_failure refDev 0 0x76 (some 1)
      (World.start (fun _ => true) (failingBus 3 ESP_FAIL refBlock)) (fun _ _ => rfl)).1
      3 ESP_FAIL (by decide) (by decide) (by decide) (by decide) (by decide)).1,
   ((C22_init_aborts_at_first_failure refDev 0 0x76 (some 1)
      (World.start (fun _ => true) (failingBus 3 ESP_FAIL refBlock)) (fun _ _ => rfl)).1
      3 ESP_FAIL (by decide) (by decide) (by decide) (by decide) (by decide)).2.1,
   by decide⟩

/-! ## C23 -/

/-- `bmp280_read_raw` when the burst read fails -/
theorem read_raw_fails (d : bmp280_dev_t) (w : World)
    (hl : ∀ m, d.i2c_mutex = some m → w.takeResult w.takes = true)
    (hne : (w.i2c w.txns).status ≠ ESP_OK) :
    (bmp280_read_raw (some d) true true w).ret = (w.i2c w.txns).status ∧
    (bmp280_read_raw (some d) true true w).raw_temp = none ∧
    (bmp280_read_raw (some d) true true w).raw_press = none ∧
    (bmp280_read_raw (some d) true true w).world.txns = w.txns + 1 := by
  have tf : ¬ (true = false ∨ true = false) := by decide
  obtain ⟨h1, -, h3⟩ := read_reg_status d BMP280_REG_PRESS_MSB 6 w hl
  have hr : ¬ (bmp280_read_reg d BMP280_REG_PRESS_MSB 6 w).ret = ESP_OK := by
    rw [h1]; exact hne
  unfold bmp280_read_raw
  simp only [if_neg tf, hr, ne_eq, not_false_eq_true, if_true]
  exact ⟨h1, trivial, trivial, h3⟩

/-- C23: the register transport does not retry and measurement failures are
atomic.  When the 6-byte burst read fails with error `e`, `bmp280_read_raw`,
`bmp280_read_temperature`, `bmp280_read_pressure` and `bmp280_read_data`
each return exactly `e` after exactly one bus transaction, store nothing
through their output pointers and leave the handle (so its `t_fine`)
unchanged; and when the first write of `bmp280_config` fails with `e`, it
returns `e` without issuing the second write. -/
theorem C23_no_retry_atomic_failure (d : bmp280_dev_t)
    (osrs_t osrs_p mode t_sb filter : Nat) (w : World) (e : Int)
    (hl : ∀ m, d.i2c_mutex = some m → w.takeResult w.takes = true)
    (he : (w.i2c w.txns).status = e) (hne : e ≠ ESP_OK) :
    ((bmp280_read_raw (some d) true true w).ret = e ∧
     (bmp280_read_raw (some d) true true w).raw_temp = none ∧
     (bmp280_read_raw (some d) true true w).raw_press = none ∧
     (bmp280_read_raw (some d) true true w).world.txns = w.txns + 1) ∧
    ((bmp280_read_temperature (some d) true w).ret = e ∧
     (bmp280_read_temperature (some d) true w).temperature = none ∧
     (bmp280_read_temperature (some d) true w).dev = some d ∧
     (bmp280_read_temperature (some d) true w).world.txns = w.txns + 1) ∧
    ((bmp280_read_pressure (some d) true w).ret = e ∧
     (bmp280_read_pressure (some d) true w).pressure = none ∧
     (bmp280_read_pressure (some d) true w).dev = some d ∧
     (bmp280_read_pressure (some d) true w).world.txns = w.txns + 1) ∧
    ((bmp280_read_data (some d) true true w).ret = e ∧
     (bmp280_read_data (some d) true true w).temperature = none ∧
     (bmp280_read_data (some d) true true w).pressure = none ∧
     (bmp280_read_data (some d) true true w).dev = some d ∧
     (bmp280_read_data (some d) true true w).world.txns = w.txns + 1) ∧
    ((bmp280_config (some d) osrs_t osrs_p mode t_sb filter w).1 = e ∧
     (bmp280_config (some d) osrs_t osrs_p mode t_sb filter w).2.txns = w.txns + 1) := by
  subst he
  have tf : ¬ (true = false) := by decide
  have tf2 : ¬ (true = false ∨ true = false) := by decide
  obtain ⟨r1, r2, r3, r4⟩ := read_raw_fails d w hl hne
  have hr : ¬ (bmp280_read_raw (some d) true true w).ret = ESP_OK := by rw [r1]; exact hne
  refine ⟨⟨r1, r2, r3, r4⟩, ?_, ?_, ?_, ?_⟩
  · unfold bmp280_read_temperature
    simp only [if_neg tf, hr, ne_eq, not_false_eq_true, if_true]
    exact ⟨r1, trivial, trivial, r4⟩
  · unfold bmp280_read_pressure
    simp only [if_neg tf, hr, ne_eq, not_false_eq_true, if_true]
    exact ⟨r1, trivial, trivial, r4⟩
  · unfold bmp280_read_data
    simp only [if_neg tf2, hr, ne_eq, not_false_eq_true, if_true]
    exact ⟨r1, trivial, trivial, trivial, r4⟩
  · obtain ⟨w1, w2⟩ := write_reg_status d BMP280_REG_CONFIG (configByte t_sb filter) w hl
    have hw : ¬ (bmp280_write_reg d BMP280_REG_CONFIG (configByte t_sb filter) w).1 = ESP_OK := by
      rw [w1]; exact hne
    have hc : bmp280_config (some d) osrs_t osrs_p mode t_sb filter w
        = bmp280_write_reg d BMP280_REG_CONFIG (configByte t_sb filter) w := by
      unfold bmp280_config
      simp only [ne_eq]
      exact if_pos hw
    rw [hc]
    exact ⟨w1, w2⟩

/-- C23 witness: the burst read fails with `ESP_FAIL` on the handle carrying
lock 1, whose stale carry value stays -/
theorem C23_no_retry_atomic_failure_witness :
    (bmp280_read_data (some { lockedDev with t_fine := 99999 }) true true
        (World.start (fun _ => true) (constBus ESP_FAIL refBurst))).ret = ESP_FAIL ∧
    (bmp280_read_data (some { lockedDev with t_fine := 99999 }) true true
        (World.start (fun _ => true) (constBus ESP_FAIL refBurst))).dev
      = some { lockedDev with t_fine := 99999 } ∧
    (bmp280_read_data (some { lockedDev with t_fine := 99999 }) true true
        (World.start (fun _ => true) (constBus ESP_FAIL refBurst))).world.txns = 0 + 1 :=
  ⟨(C23_no_retry_atomic_failure { lockedDev with t_fine := 99999 } 5 5 3 4 4
      (World.start (fun _ => true) (constBus ESP_FAIL refBurst)) ESP_FAIL
      (fun _ _ => rfl) rfl (by decide)).2.2.2.1.1,
   (C23_no_retry_atomic_failure { lockedDev with t_fine := 99999 } 5 5 3 4 4
      (World.start (fun _ => true) (constBus ESP_FAIL refBurst)) ESP_FAIL
      (fun _ _ => rfl) rfl (by decide)).2.2.2.1.2.2.2.1,
   (C23_no_retry_atomic_failure { lockedDev with t_fine := 99999 } 5 5 3 4 4
      (World.start (fun _ => true) (constBus ESP_FAIL refBurst)) ESP_FAIL
      (fun _ _ => rfl) rfl (by decide)).2.2.2.1.2.2.2.2⟩

/-! ## C24 -/

/-- Temperature compensation stores only the carry value in the handle -/
theorem compensate_temperature_frame (d : bmp280_dev_t) (adc_T : Int) :
    (bmp280_compensate_temperature d adc_T).2
      = { d with t_fine := (bmp280_compensate_temperature d adc_T).2.t_fine } := rfl

/-- C24: the calibration is immutable outside bring-up.  For every handle
state, every argument and every bus and lock behaviour, the handle left by
`bmp280_read_temperature`, `bmp280_read_pressure` and `bmp280_read_data` is
the handle on entry with at most `t_fine` replaced: all twelve calibration
coefficients, the bus port, the device address and the lock reference are
unchanged.  `bmp280_config` and `bmp280_read_raw` contain no store through
`dev` at all (they only pass it to the register transport, which reads the
lock, port and address), so their embeddings take the handle as a value and
return none; what the measurement calls leave after calling
`bmp280_read_raw` is covered by the three statements. -/
theorem C24_calibration_immutable (d : bmp280_dev_t) (tp pp : Bool) (w : World) :
    (∃ t, (bmp280_read_temperature (some d) tp w).dev = some { d with t_fine := t }) ∧
    (∃ t, (bmp280_read_pressure (some d) pp w).dev = some { d with t_fine := t }) ∧
    (∃ t, (bmp280_read_data (some d) tp pp w).dev = some { d with t_fine := t }) ∧
    (∀ d1, (bmp280_read_temperature (some d) tp w).dev = some d1 ∨
           (bmp280_read_pressure (some d) pp w).dev = some d1 ∨
           (bmp280_read_data (some d) tp pp w).dev = some d1 →
      d1.calib = d.calib ∧ d1.i2c_port = d.i2c_port ∧ d1.i2c_addr = d.i2c_addr ∧
      d1.i2c_mutex = d.i2c_mutex) := by
  have h1 : ∃ t, (bmp280_read_temperature (some d) tp w).dev = some { d with t_fine := t } := by
    unfold bmp280_read_temperature
    simp only
    split_ifs
    · exact ⟨d.t_fine, rfl⟩
    · exact ⟨d.t_fine, rfl⟩
    · exact ⟨_, congrArg some (compensate_temperature_frame d _)⟩
  have h2 : ∃ t, (bmp280_read_pressure (some d) pp w).dev = some { d with t_fine := t } := by
    unfold bmp280_read_pressure
    simp only
    split_ifs
    · exact ⟨d.t_fine, rfl⟩
    · exact ⟨d.t_fine, rfl⟩
    · exact ⟨_, congrArg some (compensate_temperature_frame d _)⟩
  have h3 : ∃ t, (bmp280_read_data (some d) tp pp w).dev = some { d with t_fine := t } := by
    unfold bmp280_read_data
    simp only
    split_ifs
    · exact ⟨d.t_fine, rfl⟩
    · exact ⟨d.t_fine, rfl⟩
    · exact ⟨_, congrArg some (compensate_temperature_frame d _)⟩
  refine ⟨h1, h2, h3, ?_⟩
  intro d1 hd
  obtain ⟨t1, e1⟩ := h1
  obtain ⟨t2, e2⟩ := h2
  obtain ⟨t3, e3⟩ := h3
  rcases hd with hd | hd | hd
  · rw [e1] at hd
    cases hd
    exact ⟨rfl, rfl, rfl, rfl⟩
  · rw [e2] at hd
    cases hd
    exact ⟨rfl, rfl, rfl, rfl⟩
  · rw [e3] at hd
    cases hd
    exact ⟨rfl, rfl, rfl, rfl⟩

/-- C24 witness: a successful `bmp280_read_data` on the reference handle
replaces `t_fine` by 128422 and nothing else -/
theorem C24_calibration_immutable_witness :
    (bmp280_read_data (some refDev) true true
        (World.start (fun _ => true) (constBus 0 refBurst))).dev
      = some { refDev with t_fine := 128422 } ∧
    ({ refDev with t_fine := 128422 } : bmp280_dev_t).calib = refDev.calib :=
  ⟨by decide,
   ((C24_calibration_immutable refDev true true
      (World.start (fun _ => true) (constBus 0 refBurst))).2.2.2
      { refDev with t_fine := 128422 } (Or.inr (Or.inr (by decide)))).1⟩

/-! ## C27 -/

/-- `bmp280_config` as two register writes of the two configuration bytes -/
theorem config_unfold (dev : bmp280_dev_t) (osrs_t osrs_p mode t_sb filter : Nat)
    (w : World) :
    bmp280_config (some dev) osrs_t osrs_p mode t_sb filter w
      = (if (bmp280_write_reg dev BMP280_REG_CONFIG (configByte t_sb filter) w).1 ≠ ESP_OK then
          bmp280_write_reg dev BMP280_REG_CONFIG (configByte t_sb filter) w
        else if (bmp280_write_reg dev BMP280_REG_CTRL_MEAS (ctrlMeasByte osrs_t osrs_p mode)
            (bmp280_write_reg dev BMP280_REG_CONFIG (configByte t_sb filter) w).2).1
              ≠ ESP_OK then
          bmp280_write_reg dev BMP280_REG_CTRL_MEAS (ctrlMeasByte osrs_t osrs_p mode)
            (bmp280_write_reg dev BMP280_REG_CONFIG (configByte t_sb filter) w).2
        else
          (ESP_OK, (bmp280_write_reg dev BMP280_REG_CTRL_MEAS (ctrlMeasByte osrs_t osrs_p mode)
            (bmp280_write_reg dev BMP280_REG_CONFIG (configByte t_sb filter) w).2).2)) := rfl

/-- Taking and giving back a lock that was free leaves the held set as it was -/
theorem update_take_give (held : Nat → Bool) (m : Nat) (hf : held m = false) :
    Function.update (Function.update held m true) m false = held := by
  funext k
  by_cases hk : k = m
  · subst hk
    simp [hf]
  · simp [Function.update, hk]

/-- A locked register write: one take, then either one bus transaction and
one give, or nothing; the lock is free afterwards -/
theorem write_reg_locked (dev : bmp280_dev_t) (m reg data : Nat) (w : World)
    (hm : dev.i2c_mutex = some m) (hf : w.held m = false) :
    (bmp280_write_reg dev reg data w).2.held = w.held ∧
    (bmp280_write_reg dev reg data w).2.trace
      = w.trace ++ (if w.takeResult w.takes then
          [Event.take m 200 true,
           Event.write dev.i2c_port dev.i2c_addr [reg, data] BMP280_I2C_TIMEOUT_MS,
           Event.give m]
        else [Event.take m 200 false]) := by
  unfold bmp280_write_reg
  by_cases ht : w.takeResult w.takes = true
  · simp only [hm, take_proj, give_proj, write_reg_internal_proj, ht, if_true,
      List.append_assoc, List.singleton_append]
    exact ⟨update_take_give w.held m hf, rfl⟩
  · have ht2 : w.takeResult w.takes = false := by
      cases h : w.takeResult w.takes
      · rfl
      · exact absurd h ht
    simp only [hm, take_proj, ht2, Bool.false_eq_true, if_false]
    exact ⟨trivial, trivial⟩

/-- A locked register read: one take, then either one bus transaction and
one give, or nothing; the lock is free afterwards -/
theorem read_reg_locked (dev : bmp280_dev_t) (m reg len : Nat) (w : World)
    (hm : dev.i2c_mutex = some m) (hf : w.held m = false) :
    (bmp280_read_reg dev reg len w).world.held = w.held ∧
    (bmp280_read_reg dev reg len w).world.trace
      = w.trace ++ (if w.takeResult w.takes then
          [Event.take m 200 true,
           Event.writeRead dev.i2c_port dev.i2c_addr reg len BMP280_I2C_TIMEOUT_MS,
           Event.give m]
        else [Event.take m 200 false]) := by
  unfold bmp280_read_reg
  by_cases ht : w.takeResult w.takes = true
  · simp only [hm, take_proj, give_proj, read_reg_internal_proj, ht, if_true,
      List.append_assoc, List.singleton_append]
    exact ⟨update_take_give w.held m hf, rfl⟩
  · have ht2 : w.takeResult w.takes = false := by
      cases h : w.takeResult w.takes
      · rfl
      · exact absurd h ht
    simp only [hm, take_proj, ht2, Bool.false_eq_true, if_false]
    exact ⟨trivial, trivial⟩

/-- `bmp280_read_raw` leaves the set of held locks as it found it -/
theorem read_raw_held (dev : bmp280_dev_t) (m : Nat) (rt rp : Bool) (w : World)
    (hm : dev.i2c_mutex = some m) (hf : w.held m = false) :
    (bmp280_read_raw (some dev) rt rp w).world.held = w.held := by
  have h := (read_reg_locked dev m BMP280_REG_PRESS_MSB 6 w hm hf).1
  unfold bmp280_read_raw
  simp only
  split_ifs
  · rfl
  · exact h
  · exact h

/-- C27: per-call locking is balanced on every path.  For every handle
carrying a lock `m` that is free on entry, after `bmp280_config`,
`bmp280_read_raw`, `bmp280_read_temperature`, `bmp280_read_pressure` or
`bmp280_read_data` returns (with `ESP_OK` or any error, whatever the takes
and the bus transactions returned) the lock is free again; each register
access makes one take and, when it is granted, exactly one bus transaction
followed by one give; the lock is free in the world between the two writes of
`bmp280_config`, whose second write starts from that world. -/
theorem C27_per_call_lock_balanced (dev : bmp280_dev_t) (m : Nat)
    (osrs_t osrs_p mode t_sb filter : Nat) (rt rp tp pp : Bool) (reg data len : Nat)
    (w : World) (hm : dev.i2c_mutex = some m) (hf : w.held m = false) :
    (bmp280_config (some dev) osrs_t osrs_p mode t_sb filter w).2.held m = false ∧
    (bmp280_read_raw (some dev) rt rp w).world.held m = false ∧
    (bmp280_read_temperature (some dev) tp w).world.held m = false ∧
    (bmp280_read_pressure (some dev) pp w).world.held m = false ∧
    (bmp280_read_data (some dev) tp pp w).world.held m = false ∧
    (bmp280_write_reg dev reg data w).2.trace
      = w.trace ++ (if w.takeResult w.takes then
          [Event.take m 200 true,
           Event.write dev.i2c_port dev.i2c_addr [reg, data] BMP280_I2C_TIMEOUT_MS,
           Event.give m]
        else [Event.take m 200 false]) ∧
    (bmp280_read_reg dev reg len w).world.trace
      = w.trace ++ (if w.takeResult w.takes then
          [Event.take m 200 true,
           Event.writeRead dev.i2c_port dev.i2c_addr reg len BMP280_I2C_TIMEOUT_MS,
           Event.give m]
        else [Event.take m 200 false]) ∧
    (bmp280_write_reg dev BMP280_REG_CONFIG (configByte t_sb filter) w).2.held m = false ∧
    ((bmp280_write_reg dev BMP280_REG_CONFIG (configByte t_sb filter) w).1 = ESP_OK →
      (bmp280_config (some dev) osrs_t osrs_p mode t_sb filter w).2
        = (bmp280_write_reg dev BMP280_REG_CTRL_MEAS (ctrlMeasByte osrs_t osrs_p mode)
            (bmp280_write_reg dev BMP280_REG_CONFIG (configByte t_sb filter) w).2).2) := by
  have w1 : (bmp280_write_reg dev BMP280_REG_CONFIG (configByte t_sb filter) w).2.held m
      = false := by
    rw [(write_reg_locked dev m BMP280_REG_CONFIG (configByte t_sb filter) w hm hf).1]
    exact hf
  have w2 : (bmp280_write_reg dev BMP280_REG_CTRL_MEAS (ctrlMeasByte osrs_t osrs_p mode)
      (bmp280_write_reg dev BMP280_REG_CONFIG (configByte t_sb filter) w).2).2.held m
        = false := by
    rw [(write_reg_locked dev m BMP280_REG_CTRL_MEAS (ctrlMeasByte osrs_t osrs_p mode) _ hm
      w1).1]
    exact w1
  have hraw : ∀ a b, (bmp280_read_raw (some dev) a b w).world.held m = false := by
    intro a b
    rw [read_raw_held dev m a b w hm hf]
    exact hf
  refine ⟨?_, hraw rt rp, ?_, ?_, ?_,
    (write_reg_locked dev m reg data w hm hf).2, (read_reg_locked dev m reg len w hm hf).2,
    w1, ?_⟩
  · rw [config_unfold]
    split_ifs
    · exact w1
    · exact w2
    · exact w2
  · unfold bmp280_read_temperature
    simp only
    split_ifs
    · exact hf
    · exact hraw true true
    · exact hraw true true
  · unfold bmp280_read_pressure
    simp only
    split_ifs
    · exact hf
    · exact hraw true true
    · exact hraw true true
  · unfold bmp280_read_data
    simp only
    split_ifs
    · exact hf
    · exact hraw true true
    · exact hraw true true
  · intro hok
    rw [config_unfold]
    have h1 : ¬ (bmp280_write_reg dev BMP280_REG_CONFIG (configByte t_sb filter) w).1
        ≠ ESP_OK := fun h => h hok
    rw [if_neg h1]
    split_ifs <;> rfl

/-- C27 witness: a `bmp280_config` on the handle carrying lock 1 whose second
write fails still leaves the lock free -/
theorem C27_per_call_lock_balanced_witness :
    lockedDev.i2c_mutex = some 1 ∧
    (bmp280_config (some lockedDev) 5 5 3 4 4
        (World.start (fun _ => true) (failingBus 1 ESP_FAIL refBlock))).1 = ESP_FAIL ∧
    (bmp280_config (some lockedDev) 5 5 3 4 4
        (World.start (fun _ => true) (failingBus 1 ESP_FAIL refBlock))).2.held 1 = false :=
  ⟨rfl, by decide,
   (C27_per_call_lock_balanced lockedDev 1 5 5 3 4 4 true true true true 0xF5 0 6
      (World.start (fun _ => true) (failingBus 1 ESP_FAIL refBlock)) rfl rfl).1⟩

/-! ## C26 -/

/-- A register write without a lock and one under an obtainable lock, started
in worlds with the same bus history -/
theorem write_reg_sim (d : bmp280_dev_t) (m reg data : Nat) (a b : World)
    (hab : SameBus a b) (hl : ∀ k, b.takeResult k = true) :
    (bmp280_write_reg { d with i2c_mutex := none } reg data a).1
      = (bmp280_write_reg { d with i2c_mutex := some m } reg data b).1 ∧
    SameBus (bmp280_write_reg { d with i2c_mutex := none } reg data a).2
      (bmp280_write_reg { d with i2c_mutex := some m } reg data b).2 ∧
    (∀ k, (bmp280_write_reg { d with i2c_mutex := some m } reg data b).2.takeResult k
      = true) ∧
    lockTrace (bmp280_write_reg { d with i2c_mutex := none } reg data a).2 = lockTrace a ∧
    (bmp280_write_reg { d with i2c_mutex := none } reg data a).1 = (a.i2c a.txns).status ∧
    (bmp280_write_reg { d with i2c_mutex := none } reg data a).2.txns = a.txns + 1 ∧
    (bmp280_write_reg { d with i2c_mutex := none } reg data a).2.i2c = a.i2c := by
  obtain ⟨h1, h2, h3⟩ := hab
  unfold busTrace at h3
  unfold bmp280_write_reg SameBus busTrace lockTrace
  simp only [take_proj, give_proj, write_reg_internal_proj, hl b.takes, if_true,
    List.filter_append, h1, h2, h3]
  refine ⟨trivial, ⟨trivial, trivial, ?_⟩, hl, ?_, trivial, trivial, trivial⟩
  · simp [Event.isBus]
  · simp [Event.isLock, Event.isTake, Event.isGive]

/-- A register read without a lock and one under an obtainable lock, started
in worlds with the same bus history -/
theorem read_reg_sim (d : bmp280_dev_t) (m reg len : Nat) (a b : World)
    (hab : SameBus a b) (hl : ∀ k, b.takeResult k = true) :
    (bmp280_read_reg { d with i2c_mutex := none } reg len a).ret
      = (bmp280_read_reg { d with i2c_mutex := some m } reg len b).ret ∧
    (bmp280_read_reg { d with i2c_mutex := none } reg len a).data
      = (bmp280_read_reg { d with i2c_mutex := some m } reg len b).data ∧
    SameBus (bmp280_read_reg { d with i2c_mutex := none } reg len a).world
      (bmp280_read_reg { d with i2c_mutex := some m } reg len b).world ∧
    lockTrace (bmp280_read_reg { d with i2c_mutex := none } reg len a).world = lockTrace a ∧
    (bmp280_read_reg { d with i2c_mutex := none } reg len a).ret = (a.i2c a.txns).status ∧
    (bmp280_read_reg { d with i2c_mutex := none } reg len a).world.txns = a.txns + 1 := by
  obtain ⟨h1, h2, h3⟩ := hab
  unfold busTrace at h3
  unfold bmp280_read_reg SameBus busTrace lockTrace
  simp only [take_proj, give_proj, read_reg_internal_proj, hl b.takes, if_true,
    List.filter_append, h1, h2, h3, nextBytes]
  refine ⟨trivial, ?_, ⟨trivial, trivial, ?_⟩, ?_, trivial, trivial⟩
  · unfold nextBytes
    simp only [take_proj, h1, h2]
  · simp [Event.isBus]
  · simp [Event.isLock, Event.isTake, Event.isGive]

/-- `ESP_OK` is not the lock timeout -/
theorem esp_ok_ne_timeout : ESP_OK ≠ ESP_ERR_TIMEOUT := by decide

/-- `bmp280_config` without a lock and under an obtainable lock -/
theorem config_sim (d : bmp280_dev_t) (m osrs_t osrs_p mode t_sb filter : Nat) (w : World)
    (hl : ∀ k, w.takeResult k = true) :
    (bmp280_config (some { d with i2c_mutex := none }) osrs_t osrs_p mode t_sb filter w).1
      = (bmp280_config (some { d with i2c_mutex := some m }) osrs_t osrs_p mode t_sb
          filter w).1 ∧
    SameBus
      (bmp280_config (some { d with i2c_mutex := none }) osrs_t osrs_p mode t_sb filter w).2
      (bmp280_config (some { d with i2c_mutex := some m }) osrs_t osrs_p mode t_sb
          filter w).2 ∧
    lockTrace
      (bmp280_config (some { d with i2c_mutex := none }) osrs_t osrs_p mode t_sb filter w).2
      = lockTrace w ∧
    ((bmp280_config (some { d with i2c_mutex := none }) osrs_t osrs_p mode t_sb filter w).1
        = ESP_ERR_TIMEOUT →
      BusTimedOut w
        (bmp280_config (some { d with i2c_mutex := none }) osrs_t osrs_p mode t_sb
          filter w).2) := by
  obtain ⟨e1, s1, l1, k1, r1, t1, i1⟩ :=
    write_reg_sim d m BMP280_REG_CONFIG (configByte t_sb filter) w w ⟨rfl, rfl, rfl⟩ hl
  obtain ⟨e2, s2, -, k2, r2, t2, -⟩ :=
    write_reg_sim d m BMP280_REG_CTRL_MEAS (ctrlMeasByte osrs_t osrs_p mode) _ _ s1 l1
  rw [config_unfold, config_unfold]
  by_cases c1 : (bmp280_write_reg { d with i2c_mutex := none } BMP280_REG_CONFIG
      (configByte t_sb filter) w).1 = ESP_OK
  · have c1L := c1
    rw [e1] at c1L
    have n1 : ¬ (bmp280_write_reg { d with i2c_mutex := none } BMP280_REG_CONFIG
      (configByte t_sb filter) w).1 ≠ ESP_OK := fun h => h c1
    have n1L : ¬ (bmp280_write_reg { d with i2c_mutex := some m } BMP280_REG_CONFIG
      (configByte t_sb filter) w).1 ≠ ESP_OK := fun h => h c1L
    rw [if_neg n1, if_neg n1L]
    by_cases c2 : (bmp280_write_reg { d with i2c_mutex := none } BMP280_REG_CTRL_MEAS
        (ctrlMeasByte osrs_t osrs_p mode)
        (bmp280_write_reg { d with i2c_mutex := none } BMP280_REG_CONFIG
          (configByte t_sb filter) w).2).1 = ESP_OK
    · have c2L := c2
      rw [e2] at c2L
      rw [if_neg (fun h => h c2), if_neg (fun h => h c2L)]
      refine ⟨rfl, s2, k2.trans k1, ?_⟩
      intro h
      exact absurd h esp_ok_ne_timeout
    · have c2L := c2
      rw [e2] at c2L
      rw [if_pos c2, if_pos c2L]
      refine ⟨e2, s2, k2.trans k1, ?_⟩
      intro h
      refine ⟨w.txns + 1, by omega, ?_, ?_⟩
      · rw [t2, t1]
        omega
      · rw [r2, i1, t1] at h
        exact h
  · have c1L := c1
    rw [e1] at c1L
    rw [if_pos c1, if_pos c1L]
    refine ⟨e1, s1, k1, ?_⟩
    intro h
    refine ⟨w.txns, le_refl _, ?_, ?_⟩
    · rw [t1]
      omega
    · rw [r1] at h
      exact h

/-- `ESP_ERR_INVALID_ARG` is not the lock timeout -/
theorem esp_invalid_arg_ne_timeout : ESP_ERR_INVALID_ARG ≠ ESP_ERR_TIMEOUT := by decide

/-- `bmp280_read_raw` without a lock and under an obtainable lock -/
theorem read_raw_sim (d : bmp280_dev_t) (m : Nat) (rt rp : Bool) (w : World)
    (hl : ∀ k, w.takeResult k = true) :
    (bmp280_read_raw (some { d with i2c_mutex := none }) rt rp w).ret
      = (bmp280_read_raw (some { d with i2c_mutex := some m }) rt rp w).ret ∧
    (bmp280_read_raw (some { d with i2c_mutex := none }) rt rp w).raw_temp
      = (bmp280_read_raw (some { d with i2c_mutex := some m }) rt rp w).raw_temp ∧
    (bmp280_read_raw (some { d with i2c_mutex := none }) rt rp w).raw_press
      = (bmp280_read_raw (some { d with i2c_mutex := some m }) rt rp w).raw_press ∧
    SameBus (bmp280_read_raw (some { d with i2c_mutex := none }) rt rp w).world
      (bmp280_read_raw (some { d with i2c_mutex := some m }) rt rp w).world ∧
    lockTrace (bmp280_read_raw (some { d with i2c_mutex := none }) rt rp w).world
      = lockTrace w ∧
    ((bmp280_read_raw (some { d with i2c_mutex := none }) rt rp w).ret = ESP_ERR_TIMEOUT →
      BusTimedOut w (bmp280_read_raw (some { d with i2c_mutex := none }) rt rp w).world) := by
  obtain ⟨e1, e2, s1, k1, r1, t1⟩ :=
    read_reg_sim d m BMP280_REG_PRESS_MSB 6 w w ⟨rfl, rfl, rfl⟩ hl
  unfold bmp280_read_raw
  simp only [e1, e2]
  split_ifs with c1 c2
  · exact ⟨rfl, rfl, rfl, ⟨rfl, rfl, rfl⟩, rfl, fun h => absurd h esp_invalid_arg_ne_timeout⟩
  · refine ⟨rfl, rfl, rfl, s1, k1, ?_⟩
    intro h
    refine ⟨w.txns, le_refl _, ?_, ?_⟩
    · show w.txns < (bmp280_read_reg { d with i2c_mutex := none } BMP280_REG_PRESS_MSB 6
        w).world.txns
      rw [t1]
      omega
    · rw [← r1, e1]
      exact h
  · exact ⟨rfl, rfl, rfl, s1, k1, fun h => absurd h esp_ok_ne_timeout⟩

/-- The compensation formulas read only the calibration and `t_fine`, not
the lock -/
theorem compensate_sim (d : bmp280_dev_t) (m : Nat) (adc_T : Int) :
    (bmp280_compensate_temperature { d with i2c_mutex := none } adc_T).1
      = (bmp280_compensate_temperature { d with i2c_mutex := some m } adc_T).1 ∧
    (bmp280_compensate_temperature { d with i2c_mutex := none } adc_T).2.calib
      = (bmp280_compensate_temperature { d with i2c_mutex := some m } adc_T).2.calib ∧
    (bmp280_compensate_temperature { d with i2c_mutex := none } adc_T).2.t_fine
      = (bmp280_compensate_temperature { d with i2c_mutex := some m } adc_T).2.t_fine ∧
    (∀ adc_P,
      bmp280_compensate_pressure
          (bmp280_compensate_temperature { d with i2c_mutex := none } adc_T).2 adc_P
        = bmp280_compensate_pressure
          (bmp280_compensate_temperature { d with i2c_mutex := some m } adc_T).2 adc_P) := by
  obtain ⟨a1, a2, a3⟩ := compensate_temperature_calib { d with i2c_mutex := none }
    { d with i2c_mutex := some m } adc_T rfl
  obtain ⟨-, -, a4⟩ := compensate_temperature_calib { d with i2c_mutex := some m }
    { d with i2c_mutex := none } adc_T rfl
  have hc : (bmp280_compensate_temperature { d with i2c_mutex := none } adc_T).2.calib
      = (bmp280_compensate_temperature { d with i2c_mutex := some m } adc_T).2.calib := by
    rw [a3, a4]
  exact ⟨a1, hc, a2, fun adc_P => compensate_pressure_reads _ _ adc_P hc a2⟩

/-- `bmp280_read_temperature` without a lock and under an obtainable lock -/
theorem read_temperature_sim (d : bmp280_dev_t) (m : Nat) (tp : Bool) (w : World)
    (hl : ∀ k, w.takeResult k = true) :
    MeasResult.agrees (bmp280_read_temperature (some { d with i2c_mutex := none }) tp w)
      (bmp280_read_temperature (some { d with i2c_mutex := some m }) tp w) ∧
    lockTrace (bmp280_read_temperature (some { d with i2c_mutex := none }) tp w).world
      = lockTrace w ∧
    ((bmp280_read_temperature (some { d with i2c_mutex := none }) tp w).ret
        = ESP_ERR_TIMEOUT →
      BusTimedOut w (bmp280_read_temperature (some { d with i2c_mutex := none }) tp w).world) := by
  obtain ⟨e1, e2, e3, s1, k1, b1⟩ := read_raw_sim d m true true w hl
  obtain ⟨c1, c2, c3, c4⟩ := compensate_sim d m
    ((bmp280_read_raw (some { d with i2c_mutex := some m }) true true w).raw_temp.getD 0)
  unfold bmp280_read_temperature MeasResult.agrees
  simp only [e1, e2, e3]
  split_ifs with h1 h2
  · exact ⟨⟨rfl, rfl, rfl, rfl, rfl, ⟨rfl, rfl, rfl⟩⟩, rfl,
      fun h => absurd h esp_invalid_arg_ne_timeout⟩
  · refine ⟨⟨rfl, rfl, rfl, rfl, rfl, s1⟩, k1, ?_⟩
    intro h
    apply b1
    rw [e1]
    exact h
  · refine ⟨⟨rfl, ?_, ?_, congrArg some c2, congrArg some c3, s1⟩, k1,
      fun h => absurd h esp_ok_ne_timeout⟩
    · exact congrArg some c1
    · rfl

/-- `bmp280_read_pressure` without a lock and under an obtainable lock -/
theorem read_pressure_sim (d : bmp280_dev_t) (m : Nat) (pp : Bool) (w : World)
    (hl : ∀ k, w.takeResult k = true) :
    MeasResult.agrees (bmp280_read_pressure (some { d with i2c_mutex := none }) pp w)
      (bmp280_read_pressure (some { d with i2c_mutex := some m }) pp w) ∧
    lockTrace (bmp280_read_pressure (some { d with i2c_mutex := none }) pp w).world
      = lockTrace w ∧
    ((bmp280_read_pressure (some { d with i2c_mutex := none }) pp w).ret
        = ESP_ERR_TIMEOUT →
      BusTimedOut w (bmp280_read_pressure (some { d with i2c_mutex := none }) pp w).world) := by
  obtain ⟨e1, e2, e3, s1, k1, b1⟩ := read_raw_sim d m true true w hl
  obtain ⟨c1, c2, c3, c4⟩ := compensate_sim d m
    ((bmp280_read_raw (some { d with i2c_mutex := some m }) true true w).raw_temp.getD 0)
  unfold bmp280_read_pressure MeasResult.agrees
  simp only [e1, e2, e3]
  split_ifs with h1 h2
  · exact ⟨⟨rfl, rfl, rfl, rfl, rfl, ⟨rfl, rfl, rfl⟩⟩, rfl,
      fun h => absurd h esp_invalid_arg_ne_timeout⟩
  · refine ⟨⟨rfl, rfl, rfl, rfl, rfl, s1⟩, k1, ?_⟩
    intro h
    apply b1
    rw [e1]
    exact h
  · refine ⟨⟨rfl, ?_, ?_, congrArg some c2, congrArg some c3, s1⟩, k1,
      fun h => absurd h esp_ok_ne_timeout⟩
    · rfl
    · exact congrArg some (c4 _)

/-- `bmp280_read_data` without a lock and under an obtainable lock -/
theorem read_data_sim (d : bmp280_dev_t) (m : Nat) (tp pp : Bool) (w : World)
    (hl : ∀ k, w.takeResult k = true) :
    MeasResult.agrees (bmp280_read_data (some { d with i2c_mutex := none }) tp pp w)
      (bmp280_read_data (some { d with i2c_mutex := some m }) tp pp w) ∧
    lockTrace (bmp280_read_data (some { d with i2c_mutex := none }) tp pp w).world
      = lockTrace w ∧
    ((bmp280_read_data (some { d with i2c_mutex := none }) tp pp w).ret
        = ESP_ERR_TIMEOUT →
      BusTimedOut w (bmp280_read_data (some { d with i2c_mutex := none }) tp pp w).world) := by
  obtain ⟨e1, e2, e3, s1, k1, b1⟩ := read_raw_sim d m true true w hl
  obtain ⟨c1, c2, c3, c4⟩ := compensate_sim d m
    ((bmp280_read_raw (some { d with i2c_mutex := some m }) true true w).raw_temp.getD 0)
  unfold bmp280_read_data MeasResult.agrees
  simp only [e1, e2, e3]
  split_ifs with h1 h2
  · exact ⟨⟨rfl, rfl, rfl, rfl, rfl, ⟨rfl, rfl, rfl⟩⟩, rfl,
      fun h => absurd h esp_invalid_arg_ne_timeout⟩
  · refine ⟨⟨rfl, rfl, rfl, rfl, rfl, s1⟩, k1, ?_⟩
    intro h
    apply b1
    rw [e1]
    exact h
  · refine ⟨⟨rfl, ?_, ?_, congrArg some c2, congrArg some c3, s1⟩, k1,
      fun h => absurd h esp_ok_ne_timeout⟩
    · exact congrArg some c1
    · exact congrArg some (c4 _)

/-- The bring-up sequence leaves the bus as it is -/
theorem init_sequence_i2c (dev : bmp280_dev_t) (w : World) :
    (bmp280_init_sequence dev w).2.2.i2c = w.i2c := by
  simp only [bmp280_init_sequence, write_reg_internal_proj, read_reg_internal_proj,
    delay_proj]
  split_ifs <;> simp only [write_reg_internal_proj, read_reg_internal_proj, delay_proj]

/-- The calibration after the bring-up sequence: the decoded block when the
first three steps went through, the old one otherwise -/
theorem init_sequence_calib_outcome (dev : bmp280_dev_t) (w : World) :
    (bmp280_init_sequence dev w).2.1.calib
      = (match initEarlyError w with
         | some _ => dev.calib
         | none => calibFromBlock (fun i => (w.i2c (w.txns + 1 + 1)).data i % 256)) := by
  cases h : initEarlyError w with
  | some e =>
    rw [(init_sequence_early_error dev w e h).2]
  | none =>
    unfold initEarlyError at h
    by_cases c0 : (w.i2c w.txns).status = ESP_OK
    · by_cases c1 : nextBytes w 0 = BMP280_CHIP_ID
      · by_cases c2 : (w.i2c (w.txns + 1)).status = ESP_OK
        · by_cases c3 : (w.i2c (w.txns + 2)).status = ESP_OK
          · exact init_sequence_calib dev w c0 c1 c2 c3
          · simp only [c0, c1, c2, c3, ne_eq, not_true_eq_false, not_false_eq_true,
              if_false, if_true] at h
            cases h
        · simp only [c0, c1, c2, ne_eq, not_true_eq_false, not_false_eq_true,
            if_false, if_true] at h
          cases h
      · simp only [c0, c1, ne_eq, not_true_eq_false, not_false_eq_true,
          if_false, if_true] at h
        cases h
    · simp only [c0, ne_eq, not_false_eq_true, if_true] at h
      cases h

/-- The bring-up sequence makes no lock call -/
theorem initEventsUpTo_lock (port : Int) (addr : Nat) (n : Nat) :
    (initEventsUpTo port addr n).filter Event.isLock = [] := by
  rw [List.filter_eq_nil_iff]
  intro e he
  unfold initEventsUpTo at he
  have h := List.mem_of_mem_take he
  simp only [initSuccessEvents, List.mem_cons, List.mem_singleton, List.not_mem_nil,
    or_false] at h
  rcases h with h | h | h | h | h | h <;> subst h <;>
    simp [Event.isLock, Event.isTake, Event.isGive]

/-- A bring-up that returns `ESP_ERR_TIMEOUT` got it from a bus transaction -/
theorem initOutcome_timeout (w : World) (h : (initOutcome w).2 = ESP_ERR_TIMEOUT) :
    ∃ k, w.txns ≤ k ∧ k < w.txns + (initOutcome w).1 ∧
      (w.i2c k).status = ESP_ERR_TIMEOUT := by
  unfold initOutcome at h ⊢
  split_ifs at h ⊢ with c0 c1 c2 c3 c4
  · exact ⟨w.txns, le_refl _, by simp, h⟩
  · exact absurd h (by decide)
  · exact ⟨w.txns + 1, by omega, by simp, h⟩
  · exact ⟨w.txns + 2, by omega, by simp, h⟩
  · exact ⟨w.txns + 3, by omega, by simp, h⟩
  · exact ⟨w.txns + 4, by omega, by simp, h⟩

/-- `bmp280_init` without a lock and under an obtainable lock -/
theorem init_sim (d : bmp280_dev_t) (port : Int) (addr m : Nat) (w : World)
    (hl : ∀ k, w.takeResult k = true) :
    (bmp280_init (some d) port addr none w).1
      = (bmp280_init (some d) port addr (some m) w).1 ∧
    (bmp280_init (some d) port addr none w).2.1.map (fun d => d.calib)
      = (bmp280_init (some d) port addr (some m) w).2.1.map (fun d => d.calib) ∧
    (bmp280_init (some d) port addr none w).2.1.map (fun d => d.t_fine)
      = (bmp280_init (some d) port addr (some m) w).2.1.map (fun d => d.t_fine) ∧
    SameBus (bmp280_init (some d) port addr none w).2.2
      (bmp280_init (some d) port addr (some m) w).2.2 ∧
    lockTrace (bmp280_init (some d) port addr none w).2.2 = lockTrace w ∧
    ((bmp280_init (some d) port addr none w).1 = ESP_ERR_TIMEOUT →
      BusTimedOut w (bmp280_init (some d) port addr none w).2.2) := by
  obtain ⟨n1, n2, n3⟩ := init_outcome d port addr none w (fun _ h => Option.noConfusion h)
  obtain ⟨l1, l2, l3⟩ := init_outcome d port addr (some m) w (fun _ _ => hl _)
  have wn := (init_world_unlocked d port addr w).1
  have wl := (init_world_locked d port addr m w (hl _)).1
  have ee : initEarlyError (xSemaphoreTake m 500 w).2 = initEarlyError w := rfl
  refine ⟨n1.trans l1.symm, ?_, ?_, ⟨?_, n2.trans l2.symm, ?_⟩, ?_, ?_⟩
  · rw [init_dev_unlocked, init_dev_locked d port addr m w (hl _)]
    simp only [Option.map_some']
    rw [init_sequence_calib_outcome, init_sequence_calib_outcome, ee]
    cases initEarlyError w <;> rfl
  · rw [init_dev_unlocked, init_dev_locked d port addr m w (hl _)]
    simp only [Option.map_some']
    rw [init_sequence_t_fine, init_sequence_t_fine]
  · rw [wn, wl]
    simp only [give_proj, init_sequence_i2c, take_proj]
  · unfold busTrace
    rw [n3, l3]
    simp [List.filter_append, List.filter_cons, Event.isBus]
  · unfold lockTrace
    rw [n3]
    simp only [List.filter_append, initEventsUpTo_lock, List.append_nil]
  · intro h
    rw [n1] at h
    obtain ⟨k, k1, k2, k3⟩ := initOutcome_timeout w h
    exact ⟨k, k1, by rw [n2]; exact k2, k3⟩

/-- C26: a handle constructed without a lock behaves exactly like a handle
whose lock `m` is always immediately obtainable.  For every driver operation
(`bmp280_init`, `bmp280_config`, `bmp280_read_raw`,
`bmp280_read_temperature`, `bmp280_read_pressure`, `bmp280_read_data`),
every argument and every bus behaviour, the run without a lock and the run
under the lock return the same status, store the same outputs, leave the same
calibration and `t_fine` and issue the same sequence of bus transactions
(`SameBus`); the run without a lock makes no take and no give (its lock
trace is the one on entry) and returns `ESP_ERR_TIMEOUT` only when a bus
transaction returned it. -/
theorem C26_lockless_equivalence (d : bmp280_dev_t) (port : Int) (addr m : Nat)
    (osrs_t osrs_p mode t_sb filter : Nat) (rt rp tp pp : Bool) (w : World)
    (hl : ∀ k, w.takeResult k = true) :
    ((bmp280_init (some d) port addr none w).1
        = (bmp280_init (some d) port addr (some m) w).1 ∧
      (bmp280_init (some d) port addr none w).2.1.map (fun d => d.calib)
        = (bmp280_init (some d) port addr (some m) w).2.1.map (fun d => d.calib) ∧
      (bmp280_init (some d) port addr none w).2.1.map (fun d => d.t_fine)
        = (bmp280_init (some d) port addr (some m) w).2.1.map (fun d => d.t_fine) ∧
      SameBus (bmp280_init (some d) port addr none w).2.2
        (bmp280_init (some d) port addr (some m) w).2.2 ∧
      lockTrace (bmp280_init (some d) port addr none w).2.2 = lockTrace w ∧
      ((bmp280_init (some d) port addr none w).1 = ESP_ERR_TIMEOUT →
        BusTimedOut w (bmp280_init (some d) port addr none w).2.2)) ∧
    ((bmp280_config (some { d with i2c_mutex := none }) osrs_t osrs_p mode t_sb filter w).1
        = (bmp280_config (some { d with i2c_mutex := some m }) osrs_t osrs_p mode t_sb filter w).1 ∧
      SameBus (bmp280_config (some { d with i2c_mutex := none }) osrs_t osrs_p mode t_sb filter w).2
        (bmp280_config (some { d with i2c_mutex := some m }) osrs_t osrs_p mode t_sb filter w).2 ∧
      lockTrace (bmp280_config (some { d with i2c_mutex := none }) osrs_t osrs_p mode t_sb filter w).2
        = lockTrace w ∧
      ((bmp280_config (some { d with i2c_mutex := none }) osrs_t osrs_p mode t_sb filter w).1 = ESP_ERR_TIMEOUT →
        BusTimedOut w (bmp280_config (some { d with i2c_mutex := none }) osrs_t osrs_p mode t_sb filter w).2)) ∧
    ((bmp280_read_raw (some { d with i2c_mutex := none }) rt rp w).ret = (bmp280_read_raw (some { d with i2c_mutex := some m }) rt rp w).ret ∧
      (bmp280_read_raw (some { d with i2c_mutex := none }) rt rp w).raw_temp
        = (bmp280_read_raw (some { d with i2c_mutex := some m }) rt rp w).raw_temp ∧
      (bmp280_read_raw (some { d with i2c_mutex := none }) rt rp w).raw_press
        = (bmp280_read_raw (some { d with i2c_mutex := some m }) rt rp w).raw_press ∧
      SameBus (bmp280_read_raw (some { d with i2c_mutex := none }) rt rp w).world
        (bmp280_read_raw (some { d with i2c_mutex := some m }) rt rp w).world ∧
      lockTrace (bmp280_read_raw (some { d with i2c_mutex := none }) rt rp w).world = lockTrace w ∧
      ((bmp280_read_raw (some { d with i2c_mutex := none }) rt rp w).ret = ESP_ERR_TIMEOUT →
        BusTimedOut w (bmp280_read_raw (some { d with i2c_mutex := none }) rt rp w).world)) ∧
    (MeasResult.agrees (bmp280_read_temperature (some { d with i2c_mutex := none }) tp w)
        (bmp280_read_temperature (some { d with i2c_mutex := some m }) tp w) ∧
      lockTrace (bmp280_read_temperature (some { d with i2c_mutex := none }) tp w).world = lockTrace w ∧
      ((bmp280_read_temperature (some { d with i2c_mutex := none }) tp w).ret = ESP_ERR_TIMEOUT →
        BusTimedOut w (bmp280_read_temperature (some { d with i2c_mutex := none }) tp w).world)) ∧
    (MeasResult.agrees (bmp280_read_pressure (some { d with i2c_mutex := none }) pp w)
        (bmp280_read_pressure (some { d with i2c_mutex := some m }) pp w) ∧
      lockTrace (bmp280_read_pressure (some { d with i2c_mutex := none }) pp w).world = lockTrace w ∧
      ((bmp280_read_pressure (some { d with i2c_mutex := none }) pp w).ret = ESP_ERR_TIMEOUT →
        BusTimedOut w (bmp280_read_pressure (some { d with i2c_mutex := none }) pp w).world)) ∧
    (MeasResult.agrees (bmp280_read_data (some { d with i2c_mutex := none }) tp pp w)
        (bmp280_read_data (some { d with i2c_mutex := some m }) tp pp w) ∧
      lockTrace (bmp280_read_data (some { d with i2c_mutex := none }) tp pp w).world = lockTrace w ∧
      ((bmp280_read_data (some { d with i2c_mutex := none }) tp pp w).ret = ESP_ERR_TIMEOUT →
        BusTimedOut w (bmp280_read_data (some { d with i2c_mutex := none }) tp pp w).world)) :=
  ⟨init_sim d port addr m w hl,
   config_sim d m osrs_t osrs_p mode t_sb filter w hl,
   read_raw_sim d m rt rp w hl,
   read_temperature_sim d m tp w hl,
   read_pressure_sim d m pp w hl,
   read_data_sim d m tp pp w hl⟩

/-- C26 witness: on the reference bus, bring-up without a lock and under
lock 1 both return `ESP_OK` and load the same calibration -/
theorem C26_lockless_equivalence_witness :
    (∀ k, (World.start (fun _ => true) (goodBus refBlock)).takeResult k = true) ∧
    (bmp280_init (some zeroDev) 0 0x76 none
        (World.start (fun _ => true) (goodBus refBlock))).1 = ESP_OK ∧
    (bmp280_init (some zeroDev) 0 0x76 none
        (World.start (fun _ => true) (goodBus refBlock))).1
      = (bmp280_init (some zeroDev) 0 0x76 (some 1)
        (World.start (fun _ => true) (goodBus refBlock))).1 ∧
    (bmp280_init (some zeroDev) 0 0x76 none
        (World.start (fun _ => true) (goodBus refBlock))).2.1.map (fun d => d.calib)
      = (bmp280_init (some zeroDev) 0 0x76 (some 1)
        (World.start (fun _ => true) (goodBus refBlock))).2.1.map (fun d => d.calib) :=
  ⟨fun _ => rfl, by decide,
   (C26_lockless_equivalence zeroDev 0 0x76 1 5 5 3 4 4 true true true true
      (World.start (fun _ => true) (goodBus refBlock)) (fun _ => rfl)).1.1,
   (C26_lockless_equivalence zeroDev 0 0x76 1 5 5 3 4 4 true true true true
      (World.start (fun _ => true) (goodBus refBlock)) (fun _ => rfl)).1.2.1⟩

/-! ## C28 -/

/-- The polling loop only adds `bmp280_read_data` calls -/
theorem poll_calls (n : Nat) (s : TaskState) :
    ∃ rs : List Int, (sensor_task_poll n s).calls = s.calls ++ rs.map DriverCall.read_data := by
  induction n generalizing s with
  | zero => exact ⟨[], (List.append_nil _).symm⟩
  | succ n ih =>
    obtain ⟨rs, h⟩ := ih
      { dev := (bmp280_read_data (some s.dev) true true s.world).dev.getD s.dev,
        world := vTaskDelay 2000 (bmp280_read_data (some s.dev) true true s.world).world,
        calls := s.calls ++
          [DriverCall.read_data (bmp280_read_data (some s.dev) true true s.world).ret] }
    refine ⟨(bmp280_read_data (some s.dev) true true s.world).ret :: rs, ?_⟩
    show (sensor_task_poll n _).calls = _
    rw [h, List.map_cons, List.append_assoc, List.singleton_append]

/-- One pass of the bring-up loop: an attempt at `0x76` and, when that
fails, an attempt at `0x77` whose status is the status of the pass -/
theorem attempt_calls (i2c_mutex : Option Nat) (retry : Nat) (s : TaskState) :
    ((sensor_task_attempt i2c_mutex retry s).1 = ESP_OK ∧
      (sensor_task_attempt i2c_mutex retry s).2.calls
        = s.calls ++ [DriverCall.init 0x76 ESP_OK]) ∨
    (∃ e1, e1 ≠ ESP_OK ∧
      (sensor_task_attempt i2c_mutex retry s).2.calls
        = s.calls ++ [DriverCall.init 0x76 e1,
            DriverCall.init 0x77 (sensor_task_attempt i2c_mutex retry s).1]) := by
  unfold sensor_task_attempt
  simp only
  generalize (if retry > 0 then vTaskDelay 500 s.world else s.world) = w0
  by_cases h : (bmp280_init (some s.dev) I2C_MASTER_NUM BMP280_I2C_ADDR_PRIM i2c_mutex
      w0).1 = ESP_OK
  · left
    rw [if_neg (fun hn => hn h)]
    refine ⟨h, ?_⟩
    simp only [h]
    rfl
  · right
    rw [if_pos h]
    refine ⟨_, h, ?_⟩
    simp only [List.append_assoc, List.singleton_append]
    rfl

/-- The bring-up loop continues while `retry < 3` and `ret` is an error -/
theorem init_loop_continue (i2c_mutex : Option Nat) (fuel retry : Nat) (ret : Int)
    (s : TaskState) (h1 : retry < 3) (h2 : ret ≠ ESP_OK) :
    sensor_task_init_loop i2c_mutex (fuel + 1) retry ret s
      = sensor_task_init_loop i2c_mutex fuel (retry + 1)
          (sensor_task_attempt i2c_mutex retry s).1
          (sensor_task_attempt i2c_mutex retry s).2 := by
  show (if retry < 3 ∧ ret ≠ ESP_OK then _ else _) = _
  rw [if_pos ⟨h1, h2⟩]

/-- The bring-up loop stops at `ESP_OK` -/
theorem init_loop_stop (i2c_mutex : Option Nat) (fuel retry : Nat) (s : TaskState) :
    sensor_task_init_loop i2c_mutex fuel retry ESP_OK s = (ESP_OK, s) := by
  cases fuel with
  | zero => rfl
  | succ n =>
    show (if retry < 3 ∧ ESP_OK ≠ ESP_OK then _ else _) = _
    rw [if_neg (fun h => h.2 rfl)]

/-- The calls of the bring-up loop of `sensor_task` and its final status -/
theorem init_loop_shape (i2c_mutex : Option Nat) (s : TaskState) :
    ∃ (e1 e2 e3 e4 e5 e6 : Int),
      ((sensor_task_init_loop i2c_mutex 3 0 ESP_FAIL s).1 = ESP_OK ∧
        (sensor_task_init_loop i2c_mutex 3 0 ESP_FAIL s).2.calls
          = s.calls ++ [DriverCall.init 0x76 ESP_OK]) ∨
      (e1 ≠ ESP_OK ∧ (sensor_task_init_loop i2c_mutex 3 0 ESP_FAIL s).1 = ESP_OK ∧
        (sensor_task_init_loop i2c_mutex 3 0 ESP_FAIL s).2.calls
          = s.calls ++ [DriverCall.init 0x76 e1, DriverCall.init 0x77 ESP_OK]) ∨
      (e1 ≠ ESP_OK ∧ e2 ≠ ESP_OK ∧
        (sensor_task_init_loop i2c_mutex 3 0 ESP_FAIL s).1 = ESP_OK ∧
        (sensor_task_init_loop i2c_mutex 3 0 ESP_FAIL s).2.calls
          = s.calls ++ [DriverCall.init 0x76 e1, DriverCall.init 0x77 e2,
              DriverCall.init 0x76 ESP_OK]) ∨
      (e1 ≠ ESP_OK ∧ e2 ≠ ESP_OK ∧ e3 ≠ ESP_OK ∧
        (sensor_task_init_loop i2c_mutex 3 0 ESP_FAIL s).1 = ESP_OK ∧
        (sensor_task_init_loop i2c_mutex 3 0 ESP_FAIL s).2.calls
          = s.calls ++ [DriverCall.init 0x76 e1, DriverCall.init 0x77 e2,
              DriverCall.init 0x76 e3, DriverCall.init 0x77 ESP_OK]) ∨
      (e1 ≠ ESP_OK ∧ e2 ≠ ESP_OK ∧ e3 ≠ ESP_OK ∧ e4 ≠ ESP_OK ∧
        (sensor_task_init_loop i2c_mutex 3 0 ESP_FAIL s).1 = ESP_OK ∧
        (sensor_task_init_loop i2c_mutex 3 0 ESP_FAIL s).2.calls
          = s.calls ++ [DriverCall.init 0x76 e1, DriverCall.init 0x77 e2,
              DriverCall.init 0x76 e3, DriverCall.init 0x77 e4,
              DriverCall.init 0x76 ESP_OK]) ∨
      (e1 ≠ ESP_OK ∧ e2 ≠ ESP_OK ∧ e3 ≠ ESP_OK ∧ e4 ≠ ESP_OK ∧ e5 ≠ ESP_OK ∧
        (sensor_task_init_loop i2c_mutex 3 0 ESP_FAIL s).1 = ESP_OK ∧
        (sensor_task_init_loop i2c_mutex 3 0 ESP_FAIL s).2.calls
          = s.calls ++ [DriverCall.init 0x76 e1, DriverCall.init 0x77 e2,
              DriverCall.init 0x76 e3, DriverCall.init 0x77 e4,
              DriverCall.init 0x76 e5, DriverCall.init 0x77 ESP_OK]) ∨
      (e1 ≠ ESP_OK ∧ e2 ≠ ESP_OK ∧ e3 ≠ ESP_OK ∧ e4 ≠ ESP_OK ∧ e5 ≠ ESP_OK ∧
        e6 ≠ ESP_OK ∧
        (sensor_task_init_loop i2c_mutex 3 0 ESP_FAIL s).1 ≠ ESP_OK ∧
        (sensor_task_init_loop i2c_mutex 3 0 ESP_FAIL s).2.calls
          = s.calls ++ [DriverCall.init 0x76 e1, DriverCall.init 0x77 e2,
              DriverCall.init 0x76 e3, DriverCall.init 0x77 e4,
              DriverCall.init 0x76 e5, DriverCall.init 0x77 e6]) := by
  have hF : ESP_FAIL ≠ ESP_OK := by decide
  rw [init_loop_continue i2c_mutex 2 0 ESP_FAIL s (by omega) hF]
  rcases attempt_calls i2c_mutex 0 s with ⟨ok1, c1⟩ | ⟨e1, n1, c1⟩
  · rw [ok1, init_loop_stop]
    exact ⟨0, 0, 0, 0, 0, 0, Or.inl ⟨rfl, c1⟩⟩
  generalize sensor_task_attempt i2c_mutex 0 s = a1 at c1 ⊢
  by_cases r1 : a1.1 = ESP_OK
  · rw [r1, init_loop_stop]
    rw [r1] at c1
    exact ⟨e1, 0, 0, 0, 0, 0, Or.inr (Or.inl ⟨n1, rfl, c1⟩)⟩
  rw [init_loop_continue i2c_mutex 1 1 a1.1 a1.2 (by omega) r1]
  rcases attempt_calls i2c_mutex 1 a1.2 with ⟨ok2, c2⟩ | ⟨e3, n3, c2⟩
  · rw [ok2, init_loop_stop]
    rw [c1, List.append_assoc] at c2
    exact ⟨e1, a1.1, 0, 0, 0, 0, Or.inr (Or.inr (Or.inl ⟨n1, r1, rfl, c2⟩))⟩
  rw [c1, List.append_assoc] at c2
  generalize sensor_task_attempt i2c_mutex 1 a1.2 = a2 at c2 ⊢
  by_cases r2 : a2.1 = ESP_OK
  · rw [r2, init_loop_stop]
    rw [r2] at c2
    exact ⟨e1, a1.1, e3, 0, 0, 0, Or.inr (Or.inr (Or.inr (Or.inl ⟨n1, r1, n3, rfl, c2⟩)))⟩
  rw [init_loop_continue i2c_mutex 0 2 a2.1 a2.2 (by omega) r2]
  rcases attempt_calls i2c_mutex 2 a2.2 with ⟨ok3, c3⟩ | ⟨e5, n5, c3⟩
  · rw [c2, List.append_assoc] at c3
    refine ⟨e1, a1.1, e3, a2.1, 0, 0,
      Or.inr (Or.inr (Or.inr (Or.inr (Or.inl ⟨n1, r1, n3, r2, ok3, c3⟩))))⟩
  rw [c2, List.append_assoc] at c3
  generalize sensor_task_attempt i2c_mutex 2 a2.2 = a3 at c3 ⊢
  by_cases r3 : a3.1 = ESP_OK
  · rw [r3] at c3
    exact ⟨e1, a1.1, e3, a2.1, e5, 0,
      Or.inr (Or.inr (Or.inr (Or.inr (Or.inr (Or.inl ⟨n1, r1, n3, r2, n5, r3, c3⟩)))))⟩
  · exact ⟨e1, a1.1, e3, a2.1, e5, a3.1,
      Or.inr (Or.inr (Or.inr (Or.inr (Or.inr (Or.inr ⟨n1, r1, n3, r2, n5, r3, r3, c3⟩)))))⟩

/-- The call history of `sensor_task` is one the specification allows -/
theorem sensor_task_shape (n : Nat) (dev : bmp280_dev_t) (i2c_mutex : Option Nat)
    (w : World) : TaskShape (sensor_task n dev i2c_mutex w).calls := by
  unfold sensor_task TaskShape
  simp only
  obtain ⟨e1, e2, e3, e4, e5, e6, h⟩ :=
    init_loop_shape i2c_mutex { dev := dev, world := vTaskDelay 500 w, calls := [] }
  generalize sensor_task_init_loop i2c_mutex 3 0 ESP_FAIL
    { dev := dev, world := vTaskDelay 500 w, calls := [] } = R at h ⊢
  simp only [List.nil_append] at h
  obtain ⟨rs, hp⟩ := poll_calls n R.2
  refine ⟨e1, e2, e3, e4, e5, e6, rs, ?_⟩
  rcases h with ⟨ok, c⟩ | ⟨n1, ok, c⟩ | ⟨n1, n2, ok, c⟩ | ⟨n1, n2, n3, ok, c⟩ |
    ⟨n1, n2, n3, n4, ok, c⟩ | ⟨n1, n2, n3, n4, n5, ok, c⟩ | ⟨n1, n2, n3, n4, n5, n6, nok, c⟩
  · rw [if_neg (fun hn => hn ok), hp, c]
    exact Or.inl rfl
  · rw [if_neg (fun hn => hn ok), hp, c]
    exact Or.inr (Or.inl ⟨n1, rfl⟩)
  · rw [if_neg (fun hn => hn ok), hp, c]
    exact Or.inr (Or.inr (Or.inl ⟨n1, n2, rfl⟩))
  · rw [if_neg (fun hn => hn ok), hp, c]
    exact Or.inr (Or.inr (Or.inr (Or.inl ⟨n1, n2, n3, rfl⟩)))
  · rw [if_neg (fun hn => hn ok), hp, c]
    exact Or.inr (Or.inr (Or.inr (Or.inr (Or.inl ⟨n1, n2, n3, n4, rfl⟩))))
  · rw [if_neg (fun hn => hn ok), hp, c]
    exact Or.inr (Or.inr (Or.inr (Or.inr (Or.inr (Or.inl ⟨n1, n2, n3, n4, n5, rfl⟩)))))
  · rw [if_pos nok, c]
    exact Or.inr (Or.inr (Or.inr (Or.inr (Or.inr (Or.inr ⟨n1, n2, n3, n4, n5, n6, rfl⟩)))))

/-- An entry of a list of polls is a poll -/
theorem reads_get (rs : List Int) (i : Nat) (c : DriverCall)
    (h : (rs.map DriverCall.read_data)[i]? = some c) : ∃ r, c = DriverCall.read_data r := by
  rw [List.getElem?_map] at h
  cases hr : rs[i]? with
  | none => rw [hr] at h; cases h
  | some r => rw [hr] at h; exact ⟨r, (Option.some.inj h).symm⟩

/-- In an allowed history a failing attempt at `0x76` is followed by an
attempt at `0x77` -/
theorem shape_fallback (calls : List DriverCall) (h : TaskShape calls) :
    ∀ (i : Nat) e, calls[i]? = some (DriverCall.init 0x76 e) → e ≠ ESP_OK →
      ∃ e2, calls[i + 1]? = some (DriverCall.init 0x77 e2) := by
  obtain ⟨e1, e2, e3, e4, e5, e6, rs, h⟩ := h
  intro i e hi he
  rcases h with h | ⟨h1, h⟩ | ⟨h1, h2, h⟩ | ⟨h1, h2, h3, h⟩ | ⟨h1, h2, h3, h4, h⟩ |
    ⟨h1, h2, h3, h4, h5, h⟩ | ⟨h1, h2, h3, h4, h5, h6, h⟩
  all_goals
    subst h
    rcases i with _ | _ | _ | _ | _ | _ | i
    all_goals
      simp only [List.getElem?_cons_zero, List.getElem?_cons_succ, Option.some.injEq,
        DriverCall.init.injEq, List.getElem?_nil, zero_add, reduceCtorEq] at hi
    all_goals
      first
      | exact absurd hi.2.symm he
      | exact absurd hi.1 (by decide)
      | exact (by obtain ⟨r, hr⟩ := reads_get _ _ _ hi; cases hr)
      | exact ⟨_, rfl⟩
      | exact ⟨ESP_OK, by simp⟩

/-- An allowed history without a successful attempt is the six alternating
attempts -/
theorem shape_all_fail (calls : List DriverCall) (h : TaskShape calls)
    (hall : ∀ (i : Nat) a e, calls[i]? = some (DriverCall.init a e) → e ≠ ESP_OK) :
    ∃ e1 e2 e3 e4 e5 e6,
      calls = [DriverCall.init 0x76 e1, DriverCall.init 0x77 e2,
        DriverCall.init 0x76 e3, DriverCall.init 0x77 e4,
        DriverCall.init 0x76 e5, DriverCall.init 0x77 e6] := by
  obtain ⟨e1, e2, e3, e4, e5, e6, rs, h⟩ := h
  rcases h with h | ⟨h1, h⟩ | ⟨h1, h2, h⟩ | ⟨h1, h2, h3, h⟩ | ⟨h1, h2, h3, h4, h⟩ |
    ⟨h1, h2, h3, h4, h5, h⟩ | ⟨h1, h2, h3, h4, h5, h6, h⟩
  · subst h
    exact absurd rfl (hall 0 0x76 ESP_OK (by simp))
  · subst h
    exact absurd rfl (hall 1 0x77 ESP_OK (by simp))
  · subst h
    exact absurd rfl (hall 2 0x76 ESP_OK (by simp))
  · subst h
    exact absurd rfl (hall 3 0x77 ESP_OK (by simp))
  · subst h
    exact absurd rfl (hall 4 0x76 ESP_OK (by simp))
  · subst h
    exact absurd rfl (hall 5 0x77 ESP_OK (by simp))
  · exact ⟨e1, e2, e3, e4, e5, e6, h⟩

/-- In an allowed history a poll comes after a successful attempt -/
theorem shape_read_after_success (calls : List DriverCall) (h : TaskShape calls) :
    ∀ (i : Nat) r, calls[i]? = some (DriverCall.read_data r) →
      ∃ (j : Nat) (a : Nat), j < i ∧ calls[j]? = some (DriverCall.init a ESP_OK) := by
  obtain ⟨e1, e2, e3, e4, e5, e6, rs, h⟩ := h
  intro i r hi
  rcases h with h | ⟨h1, h⟩ | ⟨h1, h2, h⟩ | ⟨h1, h2, h3, h⟩ | ⟨h1, h2, h3, h4, h⟩ |
    ⟨h1, h2, h3, h4, h5, h⟩ | ⟨h1, h2, h3, h4, h5, h6, h⟩
  · subst h
    rcases i with _ | _ | _ | _ | _ | _ | i
    all_goals
      simp only [List.getElem?_cons_zero, List.getElem?_cons_succ, Option.some.injEq,
        List.getElem?_nil, zero_add, reduceCtorEq] at hi
    all_goals exact ⟨0, 0x76, by omega, by simp⟩
  · subst h
    rcases i with _ | _ | _ | _ | _ | _ | i
    all_goals
      simp only [List.getElem?_cons_zero, List.getElem?_cons_succ, Option.some.injEq,
        List.getElem?_nil, zero_add, reduceCtorEq] at hi
    all_goals exact ⟨1, 0x77, by omega, by simp⟩
  · subst h
    rcases i with _ | _ | _ | _ | _ | _ | i
    all_goals
      simp only [List.getElem?_cons_zero, List.getElem?_cons_succ, Option.some.injEq,
        List.getElem?_nil, zero_add, reduceCtorEq] at hi
    all_goals exact ⟨2, 0x76, by omega, by simp⟩
  · subst h
    rcases i with _ | _ | _ | _ | _ | _ | i
    all_goals
      simp only [List.getElem?_cons_zero, List.getElem?_cons_succ, Option.some.injEq,
        List.getElem?_nil, zero_add, reduceCtorEq] at hi
    all_goals exact ⟨3, 0x77, by omega, by simp⟩
  · subst h
    rcases i with _ | _ | _ | _ | _ | _ | i
    all_goals
      simp only [List.getElem?_cons_zero, List.getElem?_cons_succ, Option.some.injEq,
        List.getElem?_nil, zero_add, reduceCtorEq] at hi
    all_goals exact ⟨4, 0x76, by omega, by simp⟩
  · subst h
    rcases i with _ | _ | _ | _ | _ | _ | i
    all_goals
      simp only [List.getElem?_cons_zero, List.getElem?_cons_succ, Option.some.injEq,
        List.getElem?_nil, zero_add, reduceCtorEq] at hi
    all_goals exact ⟨5, 0x77, by omega, by simp⟩
  · subst h
    rcases i with _ | _ | _ | _ | _ | _ | i
    all_goals
      simp only [List.getElem?_cons_zero, List.getElem?_cons_succ, Option.some.injEq,
        List.getElem?_nil, zero_add, reduceCtorEq] at hi

/-- In an allowed history only polls follow a successful attempt -/
theorem shape_no_init_after_success (calls : List DriverCall) (h : TaskShape calls) :
    ∀ (j : Nat) a, calls[j]? = some (DriverCall.init a ESP_OK) →
      ∀ (i : Nat) c, j < i → calls[i]? = some c → ∃ r, c = DriverCall.read_data r := by
  obtain ⟨e1, e2, e3, e4, e5, e6, rs, h⟩ := h
  intro j a hj i c hji hi
  rcases h with h | ⟨h1, h⟩ | ⟨h1, h2, h⟩ | ⟨h1, h2, h3, h⟩ | ⟨h1, h2, h3, h4, h⟩ |
    ⟨h1, h2, h3, h4, h5, h⟩ | ⟨h1, h2, h3, h4, h5, h6, h⟩
  all_goals
    subst h
    rcases j with _ | _ | _ | _ | _ | _ | j
    all_goals
      simp only [List.getElem?_cons_zero, List.getElem?_cons_succ, Option.some.injEq,
        DriverCall.init.injEq, List.getElem?_nil, zero_add, reduceCtorEq] at hj
    all_goals
      first
      | exact absurd hj.2 (by assumption)
      | exact (by obtain ⟨r, hr⟩ := reads_get _ _ _ hj; cases hr)
      | skip
    all_goals
      rcases i with _ | _ | _ | _ | _ | _ | i
      all_goals
        first
        | omega
        | skip
      all_goals
        simp only [List.getElem?_cons_zero, List.getElem?_cons_succ, Option.some.injEq,
          List.getElem?_nil, zero_add, reduceCtorEq] at hi
      all_goals
        exact reads_get _ _ _ hi

/-- C28: in `sensor_task`, whenever a `bmp280_init` attempt at the primary
address `0x76` fails, the next driver call is a `bmp280_init` attempt at the
secondary address `0x77`; if every attempt fails, the driver calls made by
the task are exactly init(`0x76`), init(`0x77`) three times over (six
attempts), so `bmp280_read_data` is never called; `bmp280_read_data` is
called only after some `bmp280_init` call returned `ESP_OK`; and after a
successful `bmp280_init` every later driver call is a `bmp280_read_data`.
`calls` is the list of driver calls up to the `n`-th pass of the polling
loop, for every `n`, every handle, lock reference and environment. -/
theorem C28_sensor_task_bring_up (n : Nat) (dev : bmp280_dev_t) (i2c_mutex : Option Nat)
    (w : World) :
    (∀ (i : Nat) e, (sensor_task n dev i2c_mutex w).calls[i]?
        = some (DriverCall.init 0x76 e) → e ≠ ESP_OK →
      ∃ e2, (sensor_task n dev i2c_mutex w).calls[i + 1]?
        = some (DriverCall.init 0x77 e2)) ∧
    ((∀ (i : Nat) a e, (sensor_task n dev i2c_mutex w).calls[i]?
        = some (DriverCall.init a e) → e ≠ ESP_OK) →
      ∃ e1 e2 e3 e4 e5 e6,
        (sensor_task n dev i2c_mutex w).calls
          = [DriverCall.init 0x76 e1, DriverCall.init 0x77 e2,
             DriverCall.init 0x76 e3, DriverCall.init 0x77 e4,
             DriverCall.init 0x76 e5, DriverCall.init 0x77 e6]) ∧
    (∀ (i : Nat) r, (sensor_task n dev i2c_mutex w).calls[i]?
        = some (DriverCall.read_data r) →
      ∃ (j : Nat) (a : Nat), j < i ∧
        (sensor_task n dev i2c_mutex w).calls[j]? = some (DriverCall.init a ESP_OK)) ∧
    (∀ (j : Nat) a, (sensor_task n dev i2c_mutex w).calls[j]?
        = some (DriverCall.init a ESP_OK) →
      ∀ (i : Nat) c, j < i → (sensor_task n dev i2c_mutex w).calls[i]? = some c →
        ∃ r, c = DriverCall.read_data r) :=
  ⟨shape_fallback _ (sensor_task_shape n dev i2c_mutex w),
   shape_all_fail _ (sensor_task_shape n dev i2c_mutex w),
   shape_read_after_success _ (sensor_task_shape n dev i2c_mutex w),
   shape_no_init_after_success _ (sensor_task_shape n dev i2c_mutex w)⟩

/-- C28 witness: on a bus whose device answers with a wrong identity the
task makes the six attempts and no poll; on the reference bus the first
attempt succeeds and two polls follow it -/
theorem C28_sensor_task_bring_up_witness :
    (sensor_task 2 zeroDev (some 1) (World.start (fun _ => true) wrongIdBus)).calls
      = [DriverCall.init 0x76 ESP_ERR_NOT_FOUND, DriverCall.init 0x77 ESP_ERR_NOT_FOUND,
         DriverCall.init 0x76 ESP_ERR_NOT_FOUND, DriverCall.init 0x77 ESP_ERR_NOT_FOUND,
         DriverCall.init 0x76 ESP_ERR_NOT_FOUND, DriverCall.init 0x77 ESP_ERR_NOT_FOUND] ∧
    (∃ e2, (sensor_task 2 zeroDev (some 1)
        (World.start (fun _ => true) wrongIdBus)).calls[0 + 1]?
      = some (DriverCall.init 0x77 e2)) ∧
    (sensor_task 2 zeroDev (some 1) (World.start (fun _ => true) (goodBus refBlock))).calls
      = [DriverCall.init 0x76 ESP_OK, DriverCall.read_data ESP_OK,
         DriverCall.read_data ESP_OK] ∧
    (∃ (j : Nat) (a : Nat), j < 2 ∧
      (sensor_task 2 zeroDev (some 1)
        (World.start (fun _ => true) (goodBus refBlock))).calls[j]?
        = some (DriverCall.init a ESP_OK)) :=
  ⟨by decide,
   (C28_sensor_task_bring_up 2 zeroDev (some 1)
      (World.start (fun _ => true) wrongIdBus)).1 0 ESP_ERR_NOT_FOUND (by decide) (by decide),
   by decide,
   (C28_sensor_task_bring_up 2 zeroDev (some 1)
      (World.start (fun _ => true) (goodBus refBlock))).2.2.1 2 ESP_OK (by decide)⟩

/-! ## C25 -/

/-- For the reference calibration and a 20-bit raw temperature no 32-bit
intermediate overflows, and the carry value lies in a fixed range -/
theorem ref_temp_no_overflow (adc_T : Int) (h0 : 0 ≤ adc_T) (h1 : adc_T < 2^20) :
    TempNoOverflow refCalib adc_T ∧
    -731583 ≤ tFineFormula refCalib adc_T ∧ tFineFormula refCalib adc_T ≤ 981799 := by
  have hb0 : -27504 ≤ adc_T / 16 - 27504 := by omega
  have hb1 : adc_T / 16 - 27504 ≤ 38031 := by omega
  have hbb0 : 0 ≤ (adc_T / 16 - 27504) * (adc_T / 16 - 27504) := mul_self_nonneg _
  have hbb1 : (adc_T / 16 - 27504) * (adc_T / 16 - 27504) ≤ 38031 * 38031 := by nlinarith
  have d3 : Int.fdiv adc_T (2^3) = adc_T / 8 := Int.fdiv_eq_ediv _ (by norm_num)
  have d4 : Int.fdiv adc_T (2^4) = adc_T / 16 := Int.fdiv_eq_ediv _ (by norm_num)
  have d3' : Int.fdiv adc_T 8 = adc_T / 8 := Int.fdiv_eq_ediv _ (by norm_num)
  have d4' : Int.fdiv adc_T 16 = adc_T / 16 := Int.fdiv_eq_ediv _ (by norm_num)
  have f11 : ∀ x : Int, Int.fdiv x (2^11) = x / 2048 := fun x => Int.fdiv_eq_ediv _ (by norm_num)
  have f12 : ∀ x : Int, Int.fdiv x (2^12) = x / 4096 := fun x => Int.fdiv_eq_ediv _ (by norm_num)
  have f14 : ∀ x : Int, Int.fdiv x (2^14) = x / 16384 := fun x => Int.fdiv_eq_ediv _ (by norm_num)
  unfold TempNoOverflow tFineFormula InInt32
  simp only [refCalib, d3, d4, d3', d4', f11, f12, f14, pow_two]
  generalize (adc_T / 16 - 27504) * (adc_T / 16 - 27504) = bb at *
  omega

/-- A bound on a truncated quotient from a bound on the dividend and a
positive lower bound on the divisor -/
theorem tdiv_bound (n d N Dm Q : Int) (hd : Dm ≤ d) (hDm : 0 < Dm)
    (hn0 : -N ≤ n) (hn1 : n ≤ N) (hQ0 : 0 ≤ Q) (hQ : N < (Q + 1) * Dm) :
    -Q ≤ Int.tdiv n d ∧ Int.tdiv n d ≤ Q := by
  have hd0 : 0 < d := lt_of_lt_of_le hDm hd
  have key : ∀ m : Int, 0 ≤ m → m ≤ N → 0 ≤ m / d ∧ m / d ≤ Q := by
    intro m hm0 hm1
    have h1 : 0 ≤ m / d := Int.ediv_nonneg hm0 (le_of_lt hd0)
    have h2 : m / d * d ≤ m := Int.ediv_mul_le m (ne_of_gt hd0)
    refine ⟨h1, ?_⟩
    by_contra hc
    have hc2 : Q + 1 ≤ m / d := by omega
    have h3 : (Q + 1) * Dm ≤ m / d * d :=
      mul_le_mul hc2 hd (le_of_lt hDm) h1
    omega
  by_cases hs : 0 ≤ n
  · rw [Int.tdiv_eq_ediv hs (le_of_lt hd0)]
    obtain ⟨k1, k2⟩ := key n hs hn1
    omega
  · have hneg : Int.tdiv n d = -((-n) / d) := by
      have h1 : Int.tdiv n d = -(Int.tdiv (-n) d) := by
        rw [Int.neg_tdiv, neg_neg]
      rw [h1, Int.tdiv_eq_ediv (by omega) (le_of_lt hd0)]
    rw [hneg]
    obtain ⟨k1, k2⟩ := key (-n) (by omega) (by omega)
    omega

/-- For the reference calibration, a carry value in the range the
temperature path produces and a 20-bit raw pressure, no 64-bit intermediate
overflows and the divisor `D` is at least 430000000 -/
theorem ref_press_no_overflow (t adc_P : Int) (ht0 : -731583 ≤ t) (ht1 : t ≤ 981799)
    (hp0 : 0 ≤ adc_P) (hp1 : adc_P < 2^20) :
    PressNoOverflow64 refCalib t adc_P ∧ 430000000 ≤ pressD refCalib t := by
  have c1 : refCalib.dig_P1 = 36477 := rfl
  have c2 : refCalib.dig_P2 = -10685 := rfl
  have c3 : refCalib.dig_P3 = 3024 := rfl
  have c4 : refCalib.dig_P4 = 2855 := rfl
  have c5 : refCalib.dig_P5 = 140 := rfl
  have c6 : refCalib.dig_P6 = -7 := rfl
  have c7 : refCalib.dig_P7 = 15500 := rfl
  have c8 : refCalib.dig_P8 = -14600 := rfl
  have c9 : refCalib.dig_P9 = 6000 := rfl
  have hv0 : -859583 ≤ pressV t := by unfold pressV; omega
  have hv1 : pressV t ≤ 853799 := by unfold pressV; omega
  have hvv0 : 0 ≤ pressV t * pressV t := mul_self_nonneg _
  have hvv1 : pressV t * pressV t ≤ 738882933889 := by nlinarith
  have hA : pressA refCalib t
      = pressV t * pressV t * (-7) + pressV t * 140 * 131072 + 2855 * 34359738368 := by
    unfold pressA
    simp only [c1, c2, c3, c4, c5, c6, c7, c8, c9]
    norm_num
  have hB : pressB refCalib t
      = (pressV t * pressV t * 3024) / 256 + pressV t * (-10685) * 4096 := by
    unfold pressB
    simp only [c1, c2, c3, c4, c5, c6, c7, c8, c9]
    rw [Int.fdiv_eq_ediv _ (by norm_num)]
    norm_num
  have hD : pressD refCalib t
      = ((140737488355328 + pressB refCalib t) * 36477) / 8589934592 := by
    unfold pressD
    simp only [c1, c2, c3, c4, c5, c6, c7, c8, c9]
    rw [Int.fdiv_eq_ediv _ (by norm_num)]
    norm_num
  have hDmin : 430000000 ≤ pressD refCalib t := by omega
  have hn0 : -6800000000000000000
      ≤ ((2^20 - adc_P) * 2^31 - pressA refCalib t) * 3125 := by omega
  have hn1 : ((2^20 - adc_P) * 2^31 - pressA refCalib t) * 3125
      ≤ 6800000000000000000 := by omega
  have hq : -16000000000 ≤ pressQ refCalib t adc_P ∧ pressQ refCalib t adc_P ≤ 16000000000 :=
    tdiv_bound _ _ 6800000000000000000 430000000 16000000000 hDmin (by norm_num) hn0 hn1
      (by norm_num) (by norm_num)
  obtain ⟨hq0, hq1⟩ := hq
  have hs0 : -1953126 ≤ pressQ refCalib t adc_P / 8192 := by omega
  have hs1 : pressQ refCalib t adc_P / 8192 ≤ 1953126 := by omega
  have hss0 : 0 ≤ pressQ refCalib t adc_P / 8192 * (pressQ refCalib t adc_P / 8192) :=
    mul_self_nonneg _
  have hss1 : pressQ refCalib t adc_P / 8192 * (pressQ refCalib t adc_P / 8192)
      ≤ 3814701171876 := by nlinarith
  have hs : Int.fdiv (pressQ refCalib t adc_P) (2^13) = pressQ refCalib t adc_P / 8192 :=
    Int.fdiv_eq_ediv _ (by norm_num)
  have hE : pressE refCalib t adc_P
      = (6000 * (pressQ refCalib t adc_P / 8192 * (pressQ refCalib t adc_P / 8192)))
          / 33554432 := by
    unfold pressE
    simp only [c1, c2, c3, c4, c5, c6, c7, c8, c9]
    rw [Int.fdiv_eq_ediv _ (by norm_num), hs, pow_two]
    norm_num
  have hF : pressF refCalib t adc_P = (-14600 * pressQ refCalib t adc_P) / 524288 := by
    unfold pressF
    simp only [c1, c2, c3, c4, c5, c6, c7, c8, c9]
    rw [Int.fdiv_eq_ediv _ (by norm_num)]
    norm_num
  have hP : pressureFormula refCalib t adc_P
      = (pressQ refCalib t adc_P + pressE refCalib t adc_P + pressF refCalib t adc_P) / 256
        + 15500 * 16 := by
    unfold pressureFormula
    simp only [c1, c2, c3, c4, c5, c6, c7, c8, c9]
    rw [Int.fdiv_eq_ediv _ (by norm_num)]
    norm_num
  have h20 : (6000 : Int) * (pressQ refCalib t adc_P / 8192) * (pressQ refCalib t adc_P / 8192)
      = 6000 * (pressQ refCalib t adc_P / 8192 * (pressQ refCalib t adc_P / 8192)) :=
    mul_assoc _ _ _
  refine ⟨?_, hDmin⟩
  unfold PressNoOverflow64 InInt64
  simp only [c1, c2, c3, c4, c5, c6, c7, c8, c9, hs]
  generalize pressQ refCalib t adc_P / 8192 * (pressQ refCalib t adc_P / 8192) = ss at *
  generalize pressV t * pressV t = vv at *
  refine ⟨?_, ?_, ?_, ?_, ?_, ?_, ?_, ?_, ?_, ?_, ?_, ?_, ?_, ?_, ?_, ?_, ?_, ?_, ?_, ?_,
    ?_, ?_, ?_, ?_, ?_⟩ <;> omega

/-- The compensation run on a handle holding the reference calibration, for
20-bit raw values -/
theorem ref_run_no_overflow (dev : bmp280_dev_t) (adc_T adc_P : Int)
    (hc : dev.calib = refCalib)
    (hT0 : 0 ≤ adc_T) (hT1 : adc_T < 2^20) (hP0 : 0 ≤ adc_P) (hP1 : adc_P < 2^20) :
    TempNoOverflow dev.calib adc_T ∧
    (bmp280_compensate_temperature dev adc_T).2.t_fine = tFineFormula refCalib adc_T ∧
    (bmp280_compensate_temperature dev adc_T).1
      = centiCelsiusFormula (tFineFormula refCalib adc_T) ∧
    PressNoOverflow64 refCalib (tFineFormula refCalib adc_T) adc_P ∧
    InInt32 (2^20 - adc_P) ∧
    PressRunNoOverflow64 (bmp280_compensate_temperature dev adc_T).2 adc_P ∧
    0 < pressD refCalib (tFineFormula refCalib adc_T) ∧
    pressure_guard_var1 (bmp280_compensate_temperature dev adc_T).2
      = pressD refCalib (tFineFormula refCalib adc_T) ∧
    bmp280_compensate_pressure (bmp280_compensate_temperature dev adc_T).2 adc_P
      = some (pressureFormula refCalib (tFineFormula refCalib adc_T) adc_P) := by
  obtain ⟨hT, t0, t1⟩ := ref_temp_no_overflow adc_T hT0 hT1
  obtain ⟨hP, hD⟩ := ref_press_no_overflow (tFineFormula refCalib adc_T) adc_P t0 t1 hP0 hP1
  have hT' : TempNoOverflow dev.calib adc_T := by rw [hc]; exact hT
  obtain ⟨f1, f2⟩ := compensate_temperature_formula dev adc_T hT'
  rw [hc] at f1 f2
  have hcal : (bmp280_compensate_temperature dev adc_T).2.calib = refCalib :=
    (compensate_temperature_calib dev dev adc_T rfl).2.2.trans hc
  have h32 : InInt32 (2^20 - adc_P) := by
    unfold InInt32
    omega
  have hP' : PressNoOverflow64 (bmp280_compensate_temperature dev adc_T).2.calib
      (bmp280_compensate_temperature dev adc_T).2.t_fine adc_P := by
    rw [hcal, f1]
    exact hP
  obtain ⟨g1, g2, g3⟩ :=
    compensate_pressure_run (bmp280_compensate_temperature dev adc_T).2 adc_P hP' h32
  rw [hcal, f1] at g1 g2
  have hDpos : 0 < pressD refCalib (tFineFormula refCalib adc_T) := by omega
  exact ⟨hT', f1, f2, hP, h32, g3, hDpos, g1, g2 (ne_of_gt hDpos)⟩

/-- C25: for the datasheet reference calibration and every pair of 20-bit
raw values `adc_T`, `adc_P` in `[0, 2^20)`, the computation
`bmp280_read_data` performs (temperature compensation followed by pressure
compensation with the resulting `t_fine`) never overflows: every
intermediate of the temperature path fits in signed 32 bits
(`TempNoOverflow`), every intermediate of the pressure path fits in signed 64
bits (`PressNoOverflow64` for the exact values, `PressRunNoOverflow64` for
the operations of the run) and `1048576 - adc_P` fits in 32 bits; the step-4
divisor `D` is strictly positive and is the guard value of the run, so the
zero guard is never taken and the run returns the stated formula.  Every
successful `bmp280_read_data` on such a handle therefore stores the formula
values of the raw pair its burst encodes. -/
theorem C25_reference_no_overflow (dev : bmp280_dev_t) (adc_T adc_P : Int)
    (hc : dev.calib = refCalib)
    (hT0 : 0 ≤ adc_T) (hT1 : adc_T < 2^20) (hP0 : 0 ≤ adc_P) (hP1 : adc_P < 2^20) :
    (TempNoOverflow dev.calib adc_T ∧
      (bmp280_compensate_temperature dev adc_T).2.t_fine = tFineFormula refCalib adc_T ∧
      (bmp280_compensate_temperature dev adc_T).1
        = centiCelsiusFormula (tFineFormula refCalib adc_T) ∧
      PressNoOverflow64 refCalib (tFineFormula refCalib adc_T) adc_P ∧
      InInt32 (2^20 - adc_P) ∧
      PressRunNoOverflow64 (bmp280_compensate_temperature dev adc_T).2 adc_P ∧
      0 < pressD refCalib (tFineFormula refCalib adc_T) ∧
      pressure_guard_var1 (bmp280_compensate_temperature dev adc_T).2
        = pressD refCalib (tFineFormula refCalib adc_T) ∧
      bmp280_compensate_pressure (bmp280_compensate_temperature dev adc_T).2 adc_P
        = some (pressureFormula refCalib (tFineFormula refCalib adc_T) adc_P)) ∧
    (∀ w : World, (bmp280_read_data (some dev) true true w).ret = ESP_OK →
      (bmp280_read_data (some dev) true true w).temperature
        = some (centiCelsiusFormula (tFineFormula refCalib (burstTemp (nextBytes w)))) ∧
      (bmp280_read_data (some dev) true true w).pressure
        = some (some (pressureFormula refCalib
            (tFineFormula refCalib (burstTemp (nextBytes w))) (burstPress (nextBytes w))))) := by
  refine ⟨ref_run_no_overflow dev adc_T adc_P hc hT0 hT1 hP0 hP1, ?_⟩
  intro w hok
  have hb : ∀ i, nextBytes w i < 256 := fun i => Nat.mod_lt _ (by norm_num)
  obtain ⟨a0, a1⟩ := raw20_range (nextBytes w 3) (nextBytes w 4) (nextBytes w 5)
    (hb 3) (hb 4) (hb 5)
  obtain ⟨b0, b1⟩ := raw20_range (nextBytes w 0) (nextBytes w 1) (nextBytes w 2)
    (hb 0) (hb 1) (hb 2)
  obtain ⟨-, -, r3, -, -, -, -, -, r9⟩ := ref_run_no_overflow dev (burstTemp (nextBytes w))
    (burstPress (nextBytes w)) hc a0 a1 b0 b1
  obtain ⟨k1, k2, -⟩ := read_data_ok dev true true w hok
  rw [k1, k2, r3, r9]
  exact ⟨rfl, rfl⟩

/-- C25 witness: the reference raw pair on the reference handle -/
theorem C25_reference_no_overflow_witness :
    refDev.calib = refCalib ∧ (0 : Int) ≤ 519888 ∧ (519888 : Int) < 2^20 ∧
    (0 : Int) ≤ 415148 ∧ (415148 : Int) < 2^20 ∧
    PressRunNoOverflow64 (bmp280_compensate_temperature refDev 519888).2 415148 ∧
    0 < pressD refCalib (tFineFormula refCalib 519888) ∧
    bmp280_compensate_pressure (bmp280_compensate_temperature refDev 519888).2 415148
      = some (pressureFormula refCalib (tFineFormula refCalib 519888) 415148) :=
  ⟨rfl, by decide, by decide, by decide, by decide,
   (C25_reference_no_overflow refDev 519888 415148 rfl (by decide) (by decide) (by decide)
      (by decide)).1.2.2.2.2.2.1,
   (C25_reference_no_overflow refDev 519888 415148 rfl (by decide) (by decide) (by decide)
      (by decide)).1.2.2.2.2.2.2.1,
   (C25_reference_no_overflow refDev 519888 415148 rfl (by decide) (by decide) (by decide)
      (by decide)).1.2.2.2.2.2.2.2.2⟩

end BMP280
